import Mathlib

/-!
Plot map: status lock, popup session and commit-gated rendering

A shallow embedding of `public/script.js`: the module's top-level variables and
the parts of the page and of the inline SVG that the popup code reads or
writes become one explicit `State`; each JavaScript function becomes a Lean
function from `State` to `State`.

Conventions of the embedding

* JavaScript strings are `String`; a value that may be `null` or `undefined`
  is an `Option String`, and `truthy` is JavaScript truthiness on it.
* The inline SVG is an association list from element id to element;
  `getElementById` returns the first element with the id.  An element
  reference held in a variable (`selectedPlot`) is the id of the element.
* The page's HTML is not part of the source file.  The four status radios,
  their four labels, the customer inputs and the save button are taken to be
  present in the page (the script dereferences most of them unguarded).
* `await apiFetch(..)` is an input of the model: the caller supplies what the
  server answered.
* Widgets of the plot tab and of the mediator tab, the tooltip, and purely
  cosmetic properties (`readOnly`, background colour, focus) are not part of
  `State`; nothing embedded here reads them.  The mediator select is kept as
  a plain value (its option list is not modelled), and an installment row is
  kept as the values of its three inputs.
* `trim`, `toLowerCase` and `toUpperCase` are modelled on ASCII.
-/

namespace TtpLand

/-! ## Data -/

/-- JavaScript truthiness of a string that may be null or undefined. -/
def truthy : Option String → Bool
  | none => false
  | some s => !(s == "")

/-- JavaScript `a || b` where `b` is a string. -/
def orStr (a : Option String) (b : String) : String :=
  match a with
  | none => b
  | some s => if s == "" then b else s

/-- String conversion of a possibly undefined value inside a concatenation. -/
def jsStr : Option String → String
  | none => "undefined"
  | some s => s

/-- Property key / string conversion of a possibly null plot id. -/
def keyOf : Option String → String
  | none => "null"
  | some s => s

/-- The function `String.prototype.trim`, on the ASCII white space characters. -/
def jsTrim (s : String) : String :=
  ⟨((s.data.dropWhile Char.isWhitespace).reverse.dropWhile Char.isWhitespace).reverse⟩

/-- The function `String.prototype.toLowerCase`, on ASCII letters. -/
def toLowerCase (s : String) : String :=
  ⟨s.data.map Char.toLower⟩

/-- The expression `s.charAt(0).toUpperCase() + s.slice(1)`, on ASCII letters. -/
def capitalize (s : String) : String :=
  match s.data with
  | [] => ""
  | c :: cs => ⟨Char.toUpper c :: cs⟩

/-- A record of `plotDB` (the fields the popup and the renderer read). -/
structure PlotRec where
  status : Option String
  title : Option String
  plotNum : Option String
  stampNum : Option String
  visibleId : Option String
deriving DecidableEq, Repr

/-- One installment of a customer record as the server sends it. -/
structure Inst where
  amount : String
  date : Option String
  followUp : Option String
deriving DecidableEq, Repr

/-- A customer record as `GET /customers/by-plot/..` returns it. -/
structure CustData where
  id : Option String
  status : Option String
  customerName : Option String
  customerPhone : Option String
  closureDate : Option String
  bookingAmount : Option String
  commission : Option String
  mediator : Option String
  installments : Option (List Inst)
deriving DecidableEq, Repr

/-- Inline style of a descendant of an SVG element. -/
structure ElStyle where
  styleDisplay : String
  styleVisibility : String
  displayAttr : Option String
deriving DecidableEq, Repr

/-- An element of the inline SVG: a plot shape or a stamp. -/
structure SvgEl where
  fill : Option String
  styleFill : String
  styleDisplay : String
  styleVisibility : String
  opacity : Option String
  displayAttr : Option String
  descendants : List ElStyle
  textContent : String
deriving DecidableEq, Repr

/-- The inline SVG document, in document order. -/
abbrev Svg := List (String × SvgEl)

/-- A status radio input. -/
structure RadioBtn where
  disabled : Bool
  checked : Bool
deriving DecidableEq, Repr

/-- The label of a status radio: the `sradio-locked` class, the tooltip and the
label's own `is-<status>` highlight class. -/
structure RadioLabel where
  locked : Bool
  title : String
  highlighted : Bool
deriving DecidableEq, Repr

/-- A text input or select of the customer tab. -/
structure Field where
  value : String
  disabled : Bool
deriving DecidableEq, Repr

/-- The save button of the customer tab. -/
structure Button where
  disabled : Bool
  textContent : String
deriving DecidableEq, Repr

/-- One `.irow` of the installment list: the values of its three inputs. -/
structure InstRow where
  amount : String
  date : String
  followUp : String
deriving DecidableEq, Repr

/-- The module's variables and the part of the page the popup code touches. -/
structure State where
  plotDB : List (String × PlotRec)
  customerStore : List CustData
  popupMode : String
  editCustomerId : Option String
  existingStatus : Option String
  inlineSvg : Option Svg
  selectedPlot : Option String
  originalColor : String
  currentPlotId : Option String
  currentStatus : Option String
  instCount : Nat
  isLoggedIn : Bool
  popupShow : Bool
  toast : String
  rdoBooked : RadioBtn
  rdoReserved : RadioBtn
  rdoRegistered : RadioBtn
  rdoAvailable : RadioBtn
  lblBooked : RadioLabel
  lblReserved : RadioLabel
  lblRegistered : RadioLabel
  lblAvailable : RadioLabel
  lblAvailableDisplay : String
  custName : Field
  custPhone : Field
  mediatorSel : Field
  mediatorOther : Field
  bookingPrice : Field
  custMedAmount : Field
  closureDate : Field
  btnAddInstDisabled : Bool
  btnSaveCust : Button
  editBanner : Option Bool
  instList : List InstRow
deriving DecidableEq, Repr

/-- The body of a customer create or update request. -/
structure Payload where
  customerName : String
  customerPhone : String
  mediator : String
  commission : String
  bookingAmount : String
  closureDate : String
  status : String
  installments : List InstRow
  plotKey : Option (Option String)
deriving DecidableEq, Repr

/-- A mutating request to the customers API. -/
inductive Request where
  | post (body : Payload)
  | put (id : String) (body : Payload)
  | del (id : String)
deriving DecidableEq, Repr

/-- What the server answered to a customer lookup: an error, or the JSON body. -/
inductive FetchResult where
  | failed (msg : String)
  | found (cust : Option CustData)
deriving DecidableEq, Repr

/-- What the server answered to a save or delete: an error, or success together
with the answer to the `loadCustomers` reload that follows it (none when
that reload itself failed). -/
inductive Response where
  | failed (msg : String)
  | ok (reload : Option (List CustData))
deriving DecidableEq, Repr

/-- The suspended save handler: the locals it holds across its `await`. -/
inductive Pending where
  | deleting
  | saving (selectedStatus : String)
deriving DecidableEq, Repr

/-! ## Association lists: `plotDB` and the SVG document -/

/-- The first entry stored under a key. -/
def lookup {α : Type} (k : String) : List (String × α) → Option α
  | [] => none
  | (k1, v) :: rest => if k1 == k then some v else lookup k rest

/-- Apply `f` to the first entry stored under a key. -/
def modify {α : Type} (k : String) (f : α → α) : List (String × α) → List (String × α)
  | [] => []
  | (k1, v) :: rest => if k1 == k then (k1, f v) :: rest else (k1, v) :: modify k f rest

/-- Drop the first entry stored under a key. -/
def remove {α : Type} (k : String) : List (String × α) → List (String × α)
  | [] => []
  | (k1, v) :: rest => if k1 == k then rest else (k1, v) :: remove k rest

/-- The empty object of `plotDB[plotId] || {}`: every field undefined. -/
def emptyRec : PlotRec :=
  { status := none, title := none, plotNum := none, stampNum := none, visibleId := none }

/-- The record `plotDB[plotId] || {}`. -/
def plotRec (st : State) (plotId : Option String) : PlotRec :=
  (lookup (keyOf plotId) st.plotDB).getD emptyRec

/-! ## Stamp helpers -/

/-- Source: `STAMP_PREFIX`. -/
def STAMP_PREFIX : String := "stamp-plot-"

/-- Source: `getStampId`. -/
def getStampId (st : State) (plotId : Option String) : String :=
  let d := plotRec st plotId
  STAMP_PREFIX ++ (if truthy d.stampNum then orStr d.stampNum "" else orStr d.plotNum "1")

/-- Source: `hideStampEl`, on an element that exists. -/
def hideStampEl (el : SvgEl) : SvgEl :=
  { el with styleDisplay := "none", opacity := some "0" }

/-- Source: `showStampEl`, on an element that exists. -/
def showStampEl (el : SvgEl) : SvgEl :=
  { el with
    styleDisplay := ""
    styleVisibility := "visible"
    opacity := some "1"
    displayAttr := none
    descendants := el.descendants.map fun _ =>
      { styleDisplay := "", styleVisibility := "visible", displayAttr := none } }

/-- Source: `hideStamp`. -/
def hideStamp (st : State) (plotId : Option String) : State :=
  match st.inlineSvg with
  | none => st
  | some svg =>
    let d := plotRec st plotId
    let sid := STAMP_PREFIX ++ (if truthy d.stampNum then orStr d.stampNum "" else orStr d.plotNum "?")
    let svg1 := modify sid hideStampEl svg
    let svg2 := remove ("__fstamp__" ++ orStr plotId "") svg1
    { st with inlineSvg := some svg2 }

/-- The `text` element `showStamp` synthesizes when a plot has no stamp
resource (its geometry attributes, computed from `getBBox`, are not kept). -/
def fallbackStamp : SvgEl :=
  { fill := some "#fff", styleFill := "", styleDisplay := "", styleVisibility := "",
    opacity := some "0.92", displayAttr := none, descendants := [], textContent := "SOLD" }

/-- Source: `showStamp`.  `getBBox` is taken to succeed on an element that
exists. -/
def showStamp (st : State) (plotId : Option String) : State :=
  if st.inlineSvg.isNone || !truthy plotId then st
  else
    let st1 := hideStamp st plotId
    match st1.inlineSvg with
    | none => st1
    | some svg =>
      match lookup (getStampId st1 plotId) svg with
      | some _ => { st1 with inlineSvg := some (modify (getStampId st1 plotId) showStampEl svg) }
      | none =>
        let ref : Option String :=
          match st1.selectedPlot with
          | some r => some r
          | none => (lookup (keyOf plotId) svg).map fun _ => keyOf plotId
        match ref with
        | none => st1
        | some _ =>
          { st1 with inlineSvg := some (svg ++ [("__fstamp__" ++ keyOf plotId, fallbackStamp)]) }

/-! ## Commit rendering -/

/-- The id of the shape `applyPlotStatusOnSVG` resolves for a plot. -/
def commitShape (st : State) (plotId : Option String) : Option String :=
  match st.inlineSvg with
  | none => none
  | some svg =>
    let d := plotRec st plotId
    if (lookup (keyOf plotId) svg).isSome then some (keyOf plotId)
    else if (lookup ("Plot-" ++ jsStr d.plotNum) svg).isSome then some ("Plot-" ++ jsStr d.plotNum)
    else if (lookup ("plot-" ++ jsStr d.plotNum) svg).isSome then some ("plot-" ++ jsStr d.plotNum)
    else none

/-- The call `el.setAttribute("fill", colour)` on the element with id `el`. -/
def setFill (st : State) (el : String) (colour : String) : State :=
  { st with inlineSvg := st.inlineSvg.map (modify el fun e => { e with fill := some colour }) }

/-- The assignment `d.status = s` on the record `plotDB[plotId] || {}`: it
reaches `plotDB` when the plot has a record there. -/
def setStatus (st : State) (plotId : Option String) (s : String) : State :=
  { st with plotDB := modify (keyOf plotId) (fun d => { d with status := some s }) st.plotDB }

/-- Source: `applyPlotStatusOnSVG`. -/
def applyPlotStatusOnSVG (st : State) (plotId : Option String) (newStatus : String) : State :=
  match commitShape st plotId with
  | none => st
  | some plotEl =>
    if newStatus == "booked" then
      setStatus (hideStamp (setFill st plotEl "#F48274") plotId) plotId "booked"
    else if newStatus == "reserved" then
      setStatus (hideStamp (setFill st plotEl "#FFD253") plotId) plotId "reserved"
    else if newStatus == "registered" then
      setStatus (showStamp (setFill st plotEl "#F48274") plotId) plotId "Registration Done"
    else if newStatus == "available" then
      setStatus (hideStamp (setFill st plotEl "#2BBCA5") plotId) plotId "Available"
    else st

/-! ## Status lock helpers -/

/-- Source: `clearRadioStyles`. -/
def clearRadioStyles (st : State) : State :=
  { st with
    lblBooked := { st.lblBooked with highlighted := false }
    lblReserved := { st.lblReserved with highlighted := false }
    lblRegistered := { st.lblRegistered with highlighted := false }
    lblAvailable := { st.lblAvailable with highlighted := false } }

/-- The first part of `applyStatusLock`: every radio enabled, every label
unlocked with an empty tooltip. -/
def resetLock (st : State) : State :=
  { st with
    rdoBooked := { st.rdoBooked with disabled := false }
    rdoReserved := { st.rdoReserved with disabled := false }
    rdoRegistered := { st.rdoRegistered with disabled := false }
    rdoAvailable := { st.rdoAvailable with disabled := false }
    lblBooked := { st.lblBooked with locked := false, title := "" }
    lblReserved := { st.lblReserved with locked := false, title := "" }
    lblRegistered := { st.lblRegistered with locked := false, title := "" }
    lblAvailable := { st.lblAvailable with locked := false, title := "" } }

/-- Source: `applyStatusLock`. -/
def applyStatusLock (dbStatus : Option String) (st : State) : State :=
  let st1 := resetLock st
  if !truthy dbStatus || dbStatus == some "available" then
    { st1 with lblAvailableDisplay := "none" }
  else
    let st2 := { st1 with lblAvailableDisplay := "flex" }
    if dbStatus == some "reserved" then
      { st2 with
        rdoReserved := { st2.rdoReserved with disabled := true }
        lblReserved := { st2.lblReserved with locked := true, title := "Already Reserved" } }
    else if dbStatus == some "booked" then
      { st2 with
        rdoBooked := { st2.rdoBooked with disabled := true }
        rdoReserved := { st2.rdoReserved with disabled := true }
        lblBooked := { st2.lblBooked with locked := true, title := "Already Booked — cannot go back" }
        lblReserved := { st2.lblReserved with locked := true, title := "Cannot downgrade from Booked" } }
    else if dbStatus == some "registered" then
      { st2 with
        rdoBooked := { st2.rdoBooked with disabled := true }
        rdoReserved := { st2.rdoReserved with disabled := true }
        rdoRegistered := { st2.rdoRegistered with disabled := true }
        rdoAvailable := { st2.rdoAvailable with disabled := true }
        lblBooked := { st2.lblBooked with locked := true, title := "🔒 Registered — status is locked" }
        lblReserved := { st2.lblReserved with locked := true, title := "🔒 Registered — status is locked" }
        lblRegistered := { st2.lblRegistered with locked := true, title := "🔒 Registered — status is locked" }
        lblAvailable := { st2.lblAvailable with locked := true, title := "🔒 Registered — status is locked" } }
    else st2

/-- Whether the page offers a status for selection: its radio is enabled and,
for the one option the lock ever hides, its label is displayed. -/
def selectable (st : State) (value : String) : Bool :=
  if value == "booked" then !st.rdoBooked.disabled
  else if value == "reserved" then !st.rdoReserved.disabled
  else if value == "registered" then !st.rdoRegistered.disabled
  else if value == "available" then !st.rdoAvailable.disabled && !(st.lblAvailableDisplay == "none")
  else false

/-- Source: `setRadioToStatus`. -/
def setRadioToStatus (dbStatus : Option String) (st : State) : State :=
  let st1 : State :=
    { st with
      rdoBooked := { st.rdoBooked with checked := false }
      rdoReserved := { st.rdoReserved with checked := false }
      rdoRegistered := { st.rdoRegistered with checked := false }
      rdoAvailable := { st.rdoAvailable with checked := false } }
  let st2 := clearRadioStyles st1
  if dbStatus == some "booked" then
    { st2 with
      rdoBooked := { st2.rdoBooked with checked := true }
      lblBooked := { st2.lblBooked with highlighted := true } }
  else if dbStatus == some "reserved" then
    { st2 with
      rdoReserved := { st2.rdoReserved with checked := true }
      lblReserved := { st2.lblReserved with highlighted := true } }
  else if dbStatus == some "registered" then
    { st2 with
      rdoRegistered := { st2.rdoRegistered with checked := true }
      lblRegistered := { st2.lblRegistered with highlighted := true } }
  else st2

/-! ## The popup session -/

/-- Source: `showToast` (the message shown; its timer is not kept). -/
def showToast (st : State) (msg : String) : State :=
  { st with toast := msg }

/-- Set the `disabled` flag of the eight customer controls that
`showEditBanner` and `hideEditBanner` enumerate. -/
def setFieldsDisabled (st : State) (b : Bool) : State :=
  { st with
    custName := { st.custName with disabled := b }
    custPhone := { st.custPhone with disabled := b }
    mediatorSel := { st.mediatorSel with disabled := b }
    mediatorOther := { st.mediatorOther with disabled := b }
    bookingPrice := { st.bookingPrice with disabled := b }
    custMedAmount := { st.custMedAmount with disabled := b }
    closureDate := { st.closureDate with disabled := b }
    btnAddInstDisabled := b }

/-- Source: `showEditBanner`.  The banner is kept as its `locked` flag. -/
def showEditBanner (status : Option String) (st : State) : State :=
  let locked : Bool := status == some "registered"
  let st1 : State := { st with editBanner := some locked }
  if locked then
    let st2 := setFieldsDisabled st1 true
    { st2 with btnSaveCust := { disabled := true, textContent := "🔒 Registered — Cannot Edit" } }
  else
    let st2 := setFieldsDisabled st1 false
    { st2 with btnSaveCust := { st2.btnSaveCust with disabled := false } }

/-- Source: `hideEditBanner`. -/
def hideEditBanner (st : State) : State :=
  let st1 : State := { st with editBanner := none }
  let st2 := setFieldsDisabled st1 false
  { st2 with btnSaveCust := { st2.btnSaveCust with disabled := false } }

/-- Source: `resetInst`. -/
def resetInst (st : State) : State :=
  { st with instList := [], instCount := 0 }

/-- Source: `addInstRow`; `today` is the value of `today()`. -/
def addInstRow (today : String) (st : State) : State :=
  { st with
    instCount := st.instCount + 1
    instList := st.instList ++ [{ amount := "", date := today, followUp := "" }] }

/-- The installment rows `openPopup` builds from a fetched record: each row's
inputs carry the server's amount, date and follow-up.  This is what the
markup `instRowHTML` yields for values without a double quote or a character
reference. -/
def loadedRows (insts : List Inst) : List InstRow :=
  insts.map fun i =>
    { amount := i.amount, date := orStr i.date "", followUp := orStr i.followUp "" }

/-- The edit-mode branch of `openPopup`: what it does with a fetched record. -/
def populateEdit (cust : CustData) (today : String) (st : State) : State :=
  let st1 : State :=
    { st with
      popupMode := "edit"
      editCustomerId := cust.id
      existingStatus := cust.status
      custName := { st.custName with value := orStr cust.customerName "" }
      custPhone := { st.custPhone with value := orStr cust.customerPhone "" }
      closureDate := { st.closureDate with value := orStr cust.closureDate "" }
      bookingPrice := { st.bookingPrice with value := orStr cust.bookingAmount "" }
      custMedAmount := { st.custMedAmount with value := orStr cust.commission "" }
      mediatorSel := { st.mediatorSel with value := orStr cust.mediator "" }
      instList := []
      instCount := 0 }
  let st2 : State :=
    match cust.installments with
    | some (i :: rest) =>
      { st1 with instList := loadedRows (i :: rest), instCount := (i :: rest).length }
    | _ => addInstRow today st1
  let st3 := applyStatusLock cust.status (setRadioToStatus cust.status st2)
  let st4 : State := { st3 with currentStatus := cust.status }
  let st5 : State :=
    { st4 with btnSaveCust := { st4.btnSaveCust with textContent := "💾 Update Customer Details" } }
  showEditBanner cust.status st5

/-- The local `plotStatus` of `openPopup`: the registry status, lower-cased. -/
def plotStatus (st : State) (plotId : String) : String :=
  toLowerCase (orStr (plotRec st (some plotId)).status "")

/-- Source: `openPopup`.  `fetched` is the answer to
`GET /customers/by-plot/{plotId}`; it is looked at only when the plot's
registry status is non-empty and not available. -/
def openPopup (st : State) (plotId : String) (fetched : FetchResult) (today : String) : State :=
  let st1 : State :=
    { st with
      currentPlotId := some plotId
      currentStatus := none
      popupMode := "new"
      editCustomerId := none
      existingStatus := none }
  let st2 : State :=
    { st1 with
      custName := { st1.custName with value := "" }
      custPhone := { st1.custPhone with value := "" }
      mediatorSel := { st1.mediatorSel with value := "" }
      mediatorOther := { st1.mediatorOther with value := "" }
      closureDate := { st1.closureDate with value := "" }
      custMedAmount := { st1.custMedAmount with value := "" }
      bookingPrice := { st1.bookingPrice with value := "" } }
  let st3 := resetInst (applyStatusLock none (clearRadioStyles st2))
  let st4 : State :=
    if !(plotStatus st3 plotId == "") && !(plotStatus st3 plotId == "available") then
      match fetched with
      | FetchResult.found (some cust) => populateEdit cust today st3
      | FetchResult.found none => st3
      | FetchResult.failed _ => st3
    else
      let s1 : State :=
        { st3 with btnSaveCust := { st3.btnSaveCust with textContent := "💾 Save Customer Details" } }
      addInstRow today (applyStatusLock none (hideEditBanner s1))
  { st4 with popupShow := true }

/-- The shape a plot's click handler holds as `visible`, when
`setupPlotHandlers` installs a handler for the plot (its overlay exists). -/
def visibleShape (st : State) (plotId : String) : Option String :=
  match st.inlineSvg, lookup plotId st.plotDB with
  | some svg, some d =>
    if (lookup plotId svg).isNone then none
    else if truthy d.visibleId && (lookup (orStr d.visibleId "") svg).isSome then
      some (orStr d.visibleId "")
    else if (lookup ("Plot-" ++ jsStr d.plotNum) svg).isSome then some ("Plot-" ++ jsStr d.plotNum)
    else some plotId
  | _, _ => none

/-- Source: `handleActivate`, for a click that is not the end of a drag.  The
handler is the one `setupPlotHandlers` installed, taken against the registry
keys and SVG shapes of the current state. -/
def handleActivate (st : State) (plotId : String) (fetched : FetchResult) (today : String) :
    State :=
  match visibleShape st plotId with
  | none => st
  | some visible =>
    if !st.isLoggedIn then st
    else
      let el := (st.inlineSvg.bind (lookup visible))
      let colour : String :=
        match el with
        | none => ""
        | some e => if truthy e.fill then orStr e.fill "" else e.styleFill
      openPopup { st with selectedPlot := some visible, originalColor := colour }
        plotId fetched today

/-- Source: `closePopup`. -/
def closePopup (st : State) : State :=
  let st1 : State := { st with popupShow := false }
  let st2 : State :=
    match st1.selectedPlot with
    | some sel =>
      if !(st1.originalColor == "") && !truthy st1.currentStatus then
        hideStamp (setFill st1 sel st1.originalColor) st1.currentPlotId
      else st1
    | none => st1
  let st3 := hideEditBanner st2
  { st3 with
    selectedPlot := none
    originalColor := ""
    currentPlotId := none
    currentStatus := none
    popupMode := "new"
    editCustomerId := none
    existingStatus := none }

/-- The call `selectedPlot.setAttribute("fill", colour)` guarded by
`if (selectedPlot)`. -/
def previewFill (st : State) (colour : String) : State :=
  match st.selectedPlot with
  | some sel => setFill st sel colour
  | none => st

/-- Source: `handleStatusRadio`. -/
def handleStatusRadio (value : String) (st : State) : State :=
  if (value == "booked" && st.rdoBooked.disabled) ||
     (value == "reserved" && st.rdoReserved.disabled) ||
     (value == "registered" && st.rdoRegistered.disabled) ||
     (value == "available" && st.rdoAvailable.disabled) then st
  else
    let st1 := clearRadioStyles st
    let st2 : State := { st1 with currentStatus := some value }
    if value == "booked" then
      let st3 : State := { st2 with lblBooked := { st2.lblBooked with highlighted := true } }
      hideStamp (previewFill st3 "#F48274") st3.currentPlotId
    else if value == "reserved" then
      let st3 : State := { st2 with lblReserved := { st2.lblReserved with highlighted := true } }
      hideStamp (previewFill st3 "#FFD253") st3.currentPlotId
    else if value == "registered" then
      let st3 : State := { st2 with lblRegistered := { st2.lblRegistered with highlighted := true } }
      hideStamp (previewFill st3 "#F48274") st3.currentPlotId
    else if value == "available" then
      let st3 : State := { st2 with lblAvailable := { st2.lblAvailable with highlighted := true } }
      hideStamp (previewFill st3 "#2BBCA5") st3.currentPlotId
    else st2

/-! ## Save: the click handler of `btnSaveCust` -/

/-- The status the save handler reads off the four radios (a later checked
radio overrides an earlier one). -/
def selectedStatusOf (st : State) : String :=
  let s1 := if st.rdoBooked.checked then "booked" else ""
  let s2 := if st.rdoReserved.checked then "reserved" else s1
  let s3 := if st.rdoRegistered.checked then "registered" else s2
  if st.rdoAvailable.checked then "available" else s3

/-- Source: `loadCustomers`, given the server's answer (none: the fetch
failed). -/
def loadCustomers (st : State) (reload : Option (List CustData)) : State :=
  { st with customerStore := reload.getD [] }

/-- The payload object the save handler builds from the form. -/
def buildPayload (st : State) (selectedStatus : String) : Payload :=
  let mediatorOther := jsTrim st.mediatorOther.value
  { customerName := jsTrim st.custName.value
    customerPhone := jsTrim st.custPhone.value
    mediator := if st.mediatorSel.value == "other" then mediatorOther else st.mediatorSel.value
    commission := jsTrim st.custMedAmount.value
    bookingAmount := jsTrim st.bookingPrice.value
    closureDate := st.closureDate.value
    status := selectedStatus
    installments := st.instList.filter fun r => !(r.amount == "")
    plotKey := none }

/-- Source: the `btnSaveCust` click handler up to its `await`.  `confirmed` is
what `confirm(..)` returns if it is asked.  The result is the state at the
`await` and, when a request is sent, the request and the suspended handler. -/
def saveCustClick (st : State) (confirmed : Bool) : State × Option (Request × Pending) :=
  let selectedStatus := selectedStatusOf st
  if selectedStatus == "available" then
    if !truthy st.editCustomerId then (showToast st "⚠️ No customer to delete", none)
    else if !confirmed then (st, none)
    else
      ({ st with btnSaveCust := { disabled := true, textContent := "⏳ Deleting customer..." } },
        some (Request.del (orStr st.editCustomerId ""), Pending.deleting))
  else
    let payload := buildPayload st selectedStatus
    if payload.customerName == "" then (showToast st "⚠️ Please enter customer name", none)
    else if selectedStatus == "" then (showToast st "⚠️ Please select a plot status", none)
    else if !(payload.customerPhone == "") && !(payload.customerPhone.length == 10) then
      (showToast st "⚠️ Phone must be 10 digits", none)
    else
      let st1 : State := { st with btnSaveCust := { disabled := true, textContent := "⏳ Saving…" } }
      if st.popupMode == "edit" && truthy st.editCustomerId then
        (st1, some (Request.put (orStr st.editCustomerId "") payload, Pending.saving selectedStatus))
      else
        (st1, some (Request.post { payload with plotKey := some st.currentPlotId },
          Pending.saving selectedStatus))

/-- The statements both success paths share: the session variables are
cleared, the popup is hidden and the edit banner removed. -/
def endSession (st : State) : State :=
  hideEditBanner
    { st with
      currentStatus := none
      selectedPlot := none
      currentPlotId := none
      originalColor := ""
      popupShow := false }

/-- Source: the `btnSaveCust` click handler from its `await` on: the `try`
continuation on success, the `catch` on failure, then the `finally`. -/
def saveCustResume (st : State) (p : Pending) (r : Response) : State :=
  match p with
  | Pending.deleting =>
    let st1 : State :=
      match r with
      | Response.ok reload =>
        let savedPlotId := st.currentPlotId
        let s1 := applyPlotStatusOnSVG (endSession st) savedPlotId "available"
        showToast (loadCustomers s1 reload) "✅ Customer deleted — Plot is now Available"
      | Response.failed msg => showToast st ("❌ Failed to delete customer: " ++ msg)
    { st1 with btnSaveCust := { disabled := false, textContent := "💾 Update Customer Details" } }
  | Pending.saving selectedStatus =>
    let st1 : State :=
      match r with
      | Response.ok reload =>
        let savedPlotId := st.currentPlotId
        let s1 := applyPlotStatusOnSVG (endSession st) savedPlotId selectedStatus
        showToast (loadCustomers s1 reload)
          ("✅ Customer " ++ (if s1.popupMode == "edit" then "updated" else "saved") ++ " — " ++
            capitalize selectedStatus)
      | Response.failed msg => showToast st ("❌ " ++ msg)
    { st1 with
      btnSaveCust :=
        { disabled := false
          textContent :=
            if st1.popupMode == "edit" then "💾 Update Customer Details"
            else "💾 Save Customer Details" } }

/-! ## The event loop of one popup session

User actions reach the handlers through the page: a disabled control fires no
event, a radio fires `change` only when it becomes checked, and the popup's
controls are used only while the popup is shown (`isOpen()`).  The answer to a
request arrives as an event of its own and resumes the oldest suspended
handler. -/

/-- Source: `isOpen`. -/
def isOpen (st : State) : Bool := st.popupShow

/-- Source: the `input` listener `enforcePhone` installs. -/
def enforcePhoneInput (v : String) : String :=
  ⟨(v.data.filter Char.isDigit).take 10⟩

/-- The browser checks one radio of the group and unchecks the others. -/
def checkRadio (value : String) (st : State) : State :=
  { st with
    rdoBooked := { st.rdoBooked with checked := value == "booked" }
    rdoReserved := { st.rdoReserved with checked := value == "reserved" }
    rdoRegistered := { st.rdoRegistered with checked := value == "registered" }
    rdoAvailable := { st.rdoAvailable with checked := value == "available" } }

/-- The radio input a status value belongs to. -/
def radioOf (st : State) (value : String) : Option RadioBtn :=
  if value == "booked" then some st.rdoBooked
  else if value == "reserved" then some st.rdoReserved
  else if value == "registered" then some st.rdoRegistered
  else if value == "available" then some st.rdoAvailable
  else none

/-- A user action on the open popup, or the arrival of a server answer. -/
inductive Op where
  | select (value : String)
  | typeName (v : String)
  | typePhone (v : String)
  | save (confirmed : Bool)
  | respond (r : Response)
  | cancel
deriving DecidableEq, Repr

/-- The page with its suspended save handlers and the requests sent so far. -/
structure Sys where
  st : State
  pending : List Pending
  log : List Request
deriving DecidableEq, Repr

/-- One event. -/
def step (sys : Sys) (op : Op) : Sys :=
  match op with
  | Op.respond r =>
    match sys.pending with
    | [] => sys
    | p :: rest => { sys with st := saveCustResume sys.st p r, pending := rest }
  | Op.select value =>
    if !isOpen sys.st then sys
    else
      match radioOf sys.st value with
      | none => sys
      | some rdo =>
        if rdo.disabled || rdo.checked then sys
        else { sys with st := handleStatusRadio value (checkRadio value sys.st) }
  | Op.typeName v =>
    if !isOpen sys.st || sys.st.custName.disabled then sys
    else { sys with st := { sys.st with custName := { sys.st.custName with value := v } } }
  | Op.typePhone v =>
    if !isOpen sys.st || sys.st.custPhone.disabled then sys
    else
      { sys with
        st := { sys.st with custPhone := { sys.st.custPhone with value := enforcePhoneInput v } } }
  | Op.save confirmed =>
    if !isOpen sys.st || sys.st.btnSaveCust.disabled then sys
    else
      match saveCustClick sys.st confirmed with
      | (st1, none) => { sys with st := st1 }
      | (st1, some (req, p)) =>
        { st := st1, pending := sys.pending ++ [p], log := sys.log ++ [req] }
  | Op.cancel =>
    if !isOpen sys.st then sys else { sys with st := closePopup sys.st }

/-- A sequence of events. -/
def run (sys : Sys) (ops : List Op) : Sys :=
  ops.foldl step sys

/-- The fill attribute of the element with the given id. -/
def fillOf (st : State) (el : String) : Option String :=
  (st.inlineSvg.bind (lookup el)).bind fun e => e.fill

/-- The `status` field of a plot's registry record. -/
def statusOf (st : State) (plotId : String) : Option String :=
  (lookup plotId st.plotDB).bind fun d => d.status

/-! ## Concrete pages used to exercise the definitions -/

/-- An enabled, empty input. -/
def emptyField : Field := { value := "", disabled := false }

/-- A plot shape with the given fill attribute. -/
def shapeEl (fill : String) : SvgEl :=
  { fill := some fill, styleFill := "", styleDisplay := "", styleVisibility := "",
    opacity := none, displayAttr := none, descendants := [], textContent := "" }

/-- A stamp resource as `applyInitialStatuses` leaves it: hidden, or shown. -/
def stampEl (shown : Bool) : SvgEl :=
  { fill := none, styleFill := ""
    styleDisplay := if shown then "" else "none"
    styleVisibility := if shown then "visible" else ""
    opacity := some (if shown then "1" else "0")
    displayAttr := none, descendants := [], textContent := "" }

/-- The page of a logged-in operator after `bootstrap` and `loadSVG`, before
any popup was opened. -/
def freshPage (plots : List (String × PlotRec)) (svg : Svg) : State :=
  { plotDB := plots, customerStore := [], popupMode := "new", editCustomerId := none,
    existingStatus := none, inlineSvg := some svg, selectedPlot := none, originalColor := "",
    currentPlotId := none, currentStatus := none, instCount := 0, isLoggedIn := true,
    popupShow := false, toast := "",
    rdoBooked := { disabled := false, checked := false },
    rdoReserved := { disabled := false, checked := false },
    rdoRegistered := { disabled := false, checked := false },
    rdoAvailable := { disabled := false, checked := false },
    lblBooked := { locked := false, title := "", highlighted := false },
    lblReserved := { locked := false, title := "", highlighted := false },
    lblRegistered := { locked := false, title := "", highlighted := false },
    lblAvailable := { locked := false, title := "", highlighted := false },
    lblAvailableDisplay := "",
    custName := emptyField, custPhone := emptyField, mediatorSel := emptyField,
    mediatorOther := emptyField, bookingPrice := emptyField, custMedAmount := emptyField,
    closureDate := emptyField, btnAddInstDisabled := false,
    btnSaveCust := { disabled := false, textContent := "💾 Save Customer Details" },
    editBanner := none, instList := [] }

/-- A registry record with a status and a plot number. -/
def plotWith (status : String) (num : String) : PlotRec :=
  { status := some status, title := none, plotNum := some num, stampNum := some num,
    visibleId := none }

/-- A customer record with the given id, status and name. -/
def custWith (id status name : String) : CustData :=
  { id := some id, status := some status, customerName := some name,
    customerPhone := some "9876543210", closureDate := none, bookingAmount := none,
    commission := none, mediator := none, installments := none }

/-- Plot P1 is registered: sold colour, stamp shown. -/
def pageRegistered : State :=
  freshPage [("P1", plotWith "Registration Done" "1")]
    [("P1", shapeEl "#F48274"), ("stamp-plot-1", stampEl true)]

/-- Plot P4 is reserved: pending colour, stamp hidden. -/
def pageReserved : State :=
  freshPage [("P4", plotWith "reserved" "4")]
    [("P4", shapeEl "#FFD253"), ("stamp-plot-4", stampEl false)]

/-- Plot P2 is booked: sold colour, stamp hidden. -/
def pageBooked : State :=
  freshPage [("P2", plotWith "booked" "2")]
    [("P2", shapeEl "#F48274"), ("stamp-plot-2", stampEl false)]

/-- Plot P5 is available: free colour, stamp hidden. -/
def pageAvailable : State :=
  freshPage [("P5", plotWith "Available" "5")]
    [("P5", shapeEl "#2BBCA5"), ("stamp-plot-5", stampEl false)]

/-- Plot P9 has no status in the registry; its shape has the map's own grey. -/
def pageUnlisted : State :=
  freshPage
    [("P9", { status := none, title := none, plotNum := some "9", stampNum := some "9",
              visibleId := none })]
    [("P9", shapeEl "#D9D9D9"), ("stamp-plot-9", stampEl false)]

/-- Scenario D at session open: the reserved plot P4 with its customer. -/
def sessionD : State :=
  handleActivate pageReserved "P4"
    (FetchResult.found (some (custWith "7" "reserved" "A Kumar"))) "2026-01-01"

/-- Scenario D after the operator picked registered. -/
def sessionDSelected : State :=
  (step ⟨sessionD, [], []⟩ (Op.select "registered")).st

/-- The update request Scenario D sends. -/
def requestD : Request :=
  Request.put "7"
    { customerName := "A Kumar", customerPhone := "9876543210", mediator := "",
      commission := "", bookingAmount := "", closureDate := "", status := "registered",
      installments := [], plotKey := none }

/-- Scenario E at session open: the available plot P5. -/
def sessionE : State :=
  handleActivate pageAvailable "P5" (FetchResult.found none) "2026-01-01"

/-- A session on the plot P9, which has no status and no customer. -/
def sessionU : State :=
  handleActivate pageUnlisted "P9" (FetchResult.found none) "2026-01-01"

/-- The page at the click on P9, after `handleActivate` has stored the shape
and its colour and before it calls `openPopup`. -/
def clickedU : State :=
  { pageUnlisted with selectedPlot := some "P9", originalColor := "#D9D9D9" }

/-! ## Invariant of a locked session -/

/-- Nothing is in flight, nothing was sent, the registry is `db`, and the popup
is either closed or has its four status radios and its save button disabled. -/
def Locked (db : List (String × PlotRec)) (sys : Sys) : Prop :=
  sys.pending = [] ∧ sys.log = [] ∧ sys.st.plotDB = db ∧
  (sys.st.popupShow = false ∨
    (sys.st.rdoBooked.disabled = true ∧ sys.st.rdoReserved.disabled = true ∧
     sys.st.rdoRegistered.disabled = true ∧ sys.st.rdoAvailable.disabled = true ∧
     sys.st.btnSaveCust.disabled = true))

instance (db : List (String × PlotRec)) (sys : Sys) : Decidable (Locked db sys) := by
  unfold Locked
  infer_instance

/-! ## Observing the stamp of a plot -/

/-- Whether an SVG element is rendered with its subtree: neither the element
nor a descendant is taken out by `display` or `visibility`, and the element
is not fully transparent. -/
def shown (e : SvgEl) : Bool :=
  !(e.styleDisplay == "none") && !(e.displayAttr == some "none") &&
  !(e.styleVisibility == "hidden") && !(e.opacity == some "0") &&
  e.descendants.all fun c =>
    !(c.styleDisplay == "none") && !(c.displayAttr == some "none") &&
    !(c.styleVisibility == "hidden")

/-- Whether the stamp of a plot is visible: the stamp resource `getStampId`
resolves is rendered, or the synthesized stamp of the plot is in the document. -/
def stampVisible (st : State) (plotId : Option String) : Bool :=
  match st.inlineSvg with
  | none => false
  | some svg =>
    (match lookup (getStampId st plotId) svg with
     | some e => shown e
     | none => false) ||
    (lookup ("__fstamp__" ++ keyOf plotId) svg).isSome

/-- Whether the registry record of a plot names its stamp: it has a `stampNum`
or a `plotNum`, so that `showStamp` and `hideStamp` resolve the same id. -/
def namesStamp (st : State) (plotId : Option String) : Bool :=
  truthy (plotRec st plotId).stampNum || truthy (plotRec st plotId).plotNum

/-- Element ids are unique in the document. -/
def uniqueIds (svg : Svg) : Prop :=
  (svg.map Prod.fst).Nodup

instance (svg : Svg) : Decidable (uniqueIds svg) := by
  unfold uniqueIds
  infer_instance

/-- Whether a string consists of exactly ten decimal digits. -/
def isTenDigits (s : String) : Bool :=
  s.length == 10 && s.data.all Char.isDigit

/-! ## Further concrete sessions -/

/-- Scenario C at session open: the booked plot P2 with its customer. -/
def sessionC : State :=
  handleActivate pageBooked "P2"
    (FetchResult.found (some (custWith "3" "booked" "C Devi"))) "2026-01-01"

/-- Scenario A: plot P1 is available. -/
def pageA : State :=
  freshPage [("P1", plotWith "Available" "1")]
    [("P1", shapeEl "#2BBCA5"), ("stamp-plot-1", stampEl false)]

/-- Scenario A up to the save: the session on P1, booked selected, name and
phone typed. -/
def sessionA : State :=
  (run ⟨handleActivate pageA "P1" (FetchResult.found none) "2026-01-01", [], []⟩
    [Op.select "booked", Op.typeName "A Kumar", Op.typePhone "9876543210"]).st

/-- A customer record whose phone has ten characters, not all of them digits. -/
def custDashedPhone : CustData :=
  { id := some "3", status := some "booked", customerName := some "C Devi",
    customerPhone := some "98765-4321", closureDate := none, bookingAmount := none,
    commission := none, mediator := none, installments := none }

/-- The session on the booked plot P2 when the server holds that record. -/
def sessionDashedPhone : State :=
  handleActivate pageBooked "P2" (FetchResult.found (some custDashedPhone)) "2026-01-01"

/-! ## Invariant of the requests in flight -/

/-- At most one save handler is suspended, and while one is, the popup is
closed or the save button is disabled. -/
def OneInFlight (sys : Sys) : Prop :=
  sys.pending.length ≤ 1 ∧
  (sys.pending ≠ [] → sys.st.popupShow = false ∨ sys.st.btnSaveCust.disabled = true)

instance (sys : Sys) : Decidable (OneInFlight sys) := by
  unfold OneInFlight
  infer_instance

/-! ## Rendering the map from `plotDB` -/

/-- Whether a string starts with another one (the selector `[id^=...]`). -/
def startsWith : List Char → List Char → Bool
  | [], _ => true
  | _ :: _, [] => false
  | p :: ps, c :: cs => p == c && startsWith ps cs

/-- The first loop of `applyInitialStatuses`: every element whose id starts
with `STAMP_PREFIX` is hidden.  The document model is flat, so no stamp is
nested in another stamp. -/
def hideAllStamps (svg : Svg) : Svg :=
  svg.map fun p => if startsWith STAMP_PREFIX.data p.1.data then (p.1, hideStampEl p.2) else p

/-- The id of the shape `applyInitialStatuses` resolves for a plot: the
element named by `visibleId` when the record has one, else the element with
the plot's id, else `Plot-<plotNum>`, else `plot-<plotNum>`. -/
def initialShape (svg : Svg) (plotId : String) (d : PlotRec) : Option String :=
  if truthy d.visibleId then
    if (lookup (orStr d.visibleId "") svg).isSome then some (orStr d.visibleId "") else none
  else if (lookup plotId svg).isSome then some plotId
  else if (lookup ("Plot-" ++ jsStr d.plotNum) svg).isSome then some ("Plot-" ++ jsStr d.plotNum)
  else if (lookup ("plot-" ++ jsStr d.plotNum) svg).isSome then some ("plot-" ++ jsStr d.plotNum)
  else none

/-- The body of the second loop of `applyInitialStatuses`, for one key of
`plotDB`. -/
def applyInitialStatus (st : State) (plotId : String) : State :=
  match st.inlineSvg with
  | none => st
  | some svg =>
    let d := plotRec st (some plotId)
    let stampId := STAMP_PREFIX ++ jsStr d.stampNum
    match initialShape svg plotId d with
    | none => st
    | some plotEl =>
      let status := toLowerCase (orStr d.status "")
      if status == "booked-registered" then
        let st1 := setFill st plotEl "#F48274"
        if (lookup stampId svg).isSome then
          { st1 with inlineSvg := st1.inlineSvg.map (modify stampId showStampEl) }
        else showStamp st1 (some plotId)
      else if status == "booked" then setFill st plotEl "#F48274"
      else if status == "reserved" then setFill st plotEl "#FFD253"
      else st

/-- Source: `applyInitialStatuses`.  The keys of `plotDB` are visited in the
order of the association list. -/
def applyInitialStatuses (st : State) : State :=
  match st.inlineSvg with
  | none => st
  | some svg =>
    (st.plotDB.map Prod.fst).foldl applyInitialStatus
      { st with inlineSvg := some (hideAllStamps svg) }

/-- Whether the map shows a plot as registered: its shape has the sold colour
and its stamp is visible. -/
def rendersRegistered (st : State) (plotId : String) : Bool :=
  fillOf st plotId == some "#F48274" && stampVisible st (some plotId)

/-! ## The dashboard counters -/

/-- The five numbers `updateStats` writes into the dashboard. -/
structure Stats where
  total : Nat
  booked : Nat
  available : Nat
  reserved : Nat
  bookedRegistered : Nat
deriving DecidableEq, Repr

/-- The body of the loop of `updateStats`, for one plot. -/
def countPlot (acc : Stats) (plot : PlotRec) : Stats :=
  let acc1 : Stats := { acc with total := acc.total + 1 }
  let s := toLowerCase (orStr plot.status "")
  if s == "booked" then { acc1 with booked := acc1.booked + 1 }
  else if s == "available" then { acc1 with available := acc1.available + 1 }
  else if s == "reserved" then { acc1 with reserved := acc1.reserved + 1 }
  else if s == "registration done" then { acc1 with bookedRegistered := acc1.bookedRegistered + 1 }
  else acc1

/-- Source: `updateStats`, as the numbers it writes into `stat-total`,
`stat-booked`, `stat-available`, `stat-reserved` and
`stat-booked-registered`. -/
def updateStats (plotDB : List (String × PlotRec)) : Stats :=
  (plotDB.map Prod.snd).foldl countPlot
    { total := 0, booked := 0, available := 0, reserved := 0, bookedRegistered := 0 }

/-! ## Pages for the renderer, the stamps and the counters -/

/-- The map as `loadSVG` delivers it, before any status is applied: the shape
of P4 in the drawing's own grey, its stamp resource visible as drawn. -/
def rawSvgP4 : Svg :=
  [("P4", shapeEl "#D9D9D9"), ("stamp-plot-4", stampEl true)]

/-- The page after the commit of registered on the reserved plot P4. -/
def committedRegistered : State :=
  applyPlotStatusOnSVG pageReserved (some "P4") "registered"

/-- The page after the commit of booked on the reserved plot P4. -/
def committedBooked : State :=
  applyPlotStatusOnSVG pageReserved (some "P4") "booked"

/-- The page after the commit of reserved on the booked plot P2. -/
def committedReserved : State :=
  applyPlotStatusOnSVG pageBooked (some "P2") "reserved"

/-- A page load with the registry the commit of registered left: the raw map
and that `plotDB`. -/
def reloadedRegistered : State :=
  applyInitialStatuses (freshPage committedRegistered.plotDB rawSvgP4)

/-- A page whose registry holds the status the map recognises as registered. -/
def pageMapRegistered : State :=
  applyInitialStatuses
    (freshPage [("P1", plotWith "booked-registered" "1")]
      [("P1", shapeEl "#D9D9D9"), ("stamp-plot-1", stampEl true)])

/-- The session on the registered plot P1 when the customer lookup fails at
open. -/
def sessionFailedLookup : State :=
  handleActivate pageRegistered "P1" (FetchResult.failed "Network error") "2026-01-01"

/-- A page with the registered plot P1 aside a plot P7 whose record has
neither `stampNum` nor `plotNum`. -/
def pageUnnumbered : State :=
  freshPage
    [("P1", plotWith "booked" "1"),
     ("P7", { status := some "reserved", title := none, plotNum := none, stampNum := none,
              visibleId := none })]
    [("P1", shapeEl "#F48274"), ("P7", shapeEl "#FFD253"), ("stamp-plot-1", stampEl false)]

/-! ## Live comma formatting -/

/-- The loop of `enforceIndianPrice` that groups `rest` into pairs from the
right: each turn moves the last two characters of `rest`, preceded by a
comma, to the front of `restFormatted`; after the loop `rest` is put in
front.  The first argument bounds the number of turns. -/
def groupPairs : Nat → List Char → List Char → List Char
  | 0, rest, restFormatted => rest ++ restFormatted
  | fuel + 1, rest, restFormatted =>
    if rest.length > 2 then
      groupPairs fuel (rest.take (rest.length - 2))
        (',' :: rest.drop (rest.length - 2) ++ restFormatted)
    else rest ++ restFormatted

/-- The value `formatted` that `enforceIndianPrice` computes from `intPart`. -/
def formatInt (intPart : List Char) : List Char :=
  if intPart.length > 3 then
    let last3 := intPart.drop (intPart.length - 3)
    let rest := intPart.take (intPart.length - 3)
    groupPairs rest.length rest [] ++ ',' :: last3
  else intPart

/-- The value `raw` of `enforceIndianPrice`: the field's text without commas
and without any character other than digits and dots, and with every dot
after the first removed. -/
def rawOf (value : List Char) : List Char :=
  let raw := (value.filter fun c => c != ',').filter fun c => c.isDigit || c == '.'
  if raw.contains '.' then
    let dotIdx := raw.indexOf '.'
    raw.take (dotIdx + 1) ++ (raw.drop (dotIdx + 1)).filter fun c => c != '.'
  else raw

/-- The value `intPart`: `raw.split(".")[0] || ""`. -/
def intPartOf (raw : List Char) : List Char :=
  raw.takeWhile fun c => c != '.'

/-- The value `decPart`: a dot and `raw.split(".")[1]` when `raw` has a dot,
else empty. -/
def decPartOf (raw : List Char) : List Char :=
  if raw.contains '.' then
    '.' :: ((raw.dropWhile fun c => c != '.').drop 1).takeWhile fun c => c != '.'
  else []

/-- Source: the `input` listener `enforceIndianPrice` installs, as the new
value of the field computed from its current value. -/
def enforceIndianPrice (value : String) : String :=
  ⟨formatInt (intPartOf (rawOf value.data)) ++ decPartOf (rawOf value.data)⟩

/-- The words of the claim: the input stripped of every character other than
digits and its first decimal point (`seenDot` tells whether a decimal point
was kept already). -/
def stripToNumber : Bool → List Char → List Char
  | _, [] => []
  | seenDot, c :: cs =>
    if c.isDigit then c :: stripToNumber seenDot cs
    else if c == '.' && !seenDot then c :: stripToNumber true cs
    else stripToNumber seenDot cs

/-- A comma in front of each group, the groups in a row. -/
def commaGroups (groups : List (List Char)) : List Char :=
  (groups.map fun g => ',' :: g).flatten

/-! ## Saving the plot details -/

/-- A JavaScript number as `parseFloat` reads it off a decimal literal: not a
number, an infinity, or `mantissa * 10 ^ exp10` with a sign.  Rounding to
double precision is not modelled. -/
inductive Num where
  | nan
  | infinity (neg : Bool)
  | dec (neg : Bool) (mantissa : Nat) (exp10 : Int)
deriving DecidableEq, Repr

/-- JavaScript truthiness of a number: `NaN` and zero are falsy. -/
def Num.truthy : Num → Bool
  | Num.nan => false
  | Num.infinity _ => true
  | Num.dec _ mantissa _ => mantissa != 0

/-- A value of a `plotDB` field: absent, null, a number or a string. -/
inductive JsVal where
  | undefined
  | null
  | num (n : Num)
  | str (s : String)
deriving DecidableEq, Repr

/-- The number a string of decimal digits denotes. -/
def digitsToNat (ds : List Char) : Nat :=
  ds.foldl (fun n c => 10 * n + (c.toNat - 48)) 0

/-- The exponent part of a decimal literal: `e` or `E`, an optional sign and
at least one digit; anything else counts as no exponent. -/
def exponentOf (l : List Char) : Int :=
  match l with
  | [] => 0
  | c :: r =>
    if c == 'e' || c == 'E' then
      match r with
      | [] => 0
      | s :: r1 =>
        if s == '-' then -((digitsToNat (r1.takeWhile Char.isDigit) : Nat) : Int)
        else if s == '+' then ((digitsToNat (r1.takeWhile Char.isDigit) : Nat) : Int)
        else ((digitsToNat (r.takeWhile Char.isDigit) : Nat) : Int)
    else 0

/-- The built-in `parseFloat`: leading ASCII white space is skipped, then the
longest prefix that is a decimal literal is read (sign, digits, fraction,
exponent, or `Infinity`); without one the result is `NaN`. -/
def parseFloat (s : String) : Num :=
  let t := s.data.dropWhile Char.isWhitespace
  let neg : Bool := t.head? == some '-'
  let u := if t.head? == some '-' || t.head? == some '+' then t.drop 1 else t
  if startsWith "Infinity".data u then Num.infinity neg
  else
    let intDigits := u.takeWhile Char.isDigit
    let afterInt := u.dropWhile Char.isDigit
    let hasDot : Bool := afterInt.head? == some '.'
    let fracDigits := if hasDot then (afterInt.drop 1).takeWhile Char.isDigit else []
    let afterFrac := if hasDot then (afterInt.drop 1).dropWhile Char.isDigit else afterInt
    if intDigits.isEmpty && fracDigits.isEmpty then Num.nan
    else
      Num.dec neg (digitsToNat (intDigits ++ fracDigits))
        (exponentOf afterFrac - (fracDigits.length : Int))

/-- The expression `n || fallback` for a number `n`. -/
def numOr (n : Num) (fallback : JsVal) : JsVal :=
  if n.truthy then JsVal.num n else fallback

/-- The call `value.replace(/,/g, "")`. -/
def removeCommas (value : String) : String :=
  ⟨value.data.filter fun c => c != ','⟩

/-- The fields of a `plotDB` record that the plot tab saves. -/
structure PlotDetails where
  price : JsVal
  sqft : JsVal
  cent : JsVal
  facing : JsVal
deriving DecidableEq, Repr

/-- The values of the inputs of the plot tab. -/
structure PlotForm where
  plotPrice : String
  plotSqft : String
  plotCent : String
  plotFacing : String
deriving DecidableEq, Repr

/-- The body of the request the plot tab sends. -/
structure PlotPayload where
  price : JsVal
  length : JsVal
  width : JsVal
  sqft : JsVal
  cent : JsVal
  facing : JsVal
deriving DecidableEq, Repr

/-- Source: the object `payload` the `btnSavePlot` click handler builds for
the record `d` of the plot under edit. -/
def savePlotPayload (form : PlotForm) (d : PlotDetails) : PlotPayload :=
  { price := numOr (parseFloat (removeCommas form.plotPrice)) d.price
    length := JsVal.null
    width := JsVal.null
    sqft := numOr (parseFloat form.plotSqft) d.sqft
    cent := numOr (parseFloat form.plotCent) d.sqft
    facing := if form.plotFacing == "" then d.facing else JsVal.str form.plotFacing }

/-- The call `Object.assign(d, payload)` after a successful save, on the
fields of `PlotDetails`. -/
def assignPayload (_d : PlotDetails) (payload : PlotPayload) : PlotDetails :=
  { price := payload.price, sqft := payload.sqft, cent := payload.cent,
    facing := payload.facing }

/-- A plot record with a price of 500000, 1200 sqft, 2.75 cent, facing East. -/
def detailsP4 : PlotDetails :=
  { price := JsVal.num (Num.dec false 500000 0)
    sqft := JsVal.num (Num.dec false 1200 0)
    cent := JsVal.num (Num.dec false 275 (-2))
    facing := JsVal.str "East" }

/-- The plot tab with every input empty. -/
def emptyForm : PlotForm :=
  { plotPrice := "", plotSqft := "", plotCent := "", plotFacing := "" }

/-- The plot tab after 1250000 was typed into the price input and 1200 into
the sqft input, each passed through the live formatter. -/
def typedForm : PlotForm :=
  { plotPrice := enforceIndianPrice "1250000", plotSqft := enforceIndianPrice "1200",
    plotCent := "", plotFacing := "" }

/-! ## The markup of a loaded installment row -/

/-- One pass `str.replace(/c/g, r)`. -/
def replaceAll (c : Char) (r : List Char) (s : List Char) : List Char :=
  (s.map fun x => if x == c then r else [x]).flatten

/-- Source: `escapeHTML`, on a string. -/
def escapeHTML (str : String) : String :=
  ⟨replaceAll '"' "&quot;".data
    (replaceAll '>' "&gt;".data
      (replaceAll '<' "&lt;".data
        (replaceAll '&' "&amp;".data str.data)))⟩

/-- The markup of a loaded installment row up to the opening quote of the
amount's `value` attribute. -/
def rowHead (instCount : Nat) : String :=
  "<div class=\"itop\"><span class=\"ino\">Entry #" ++ toString instCount ++ "</span>" ++
  "<button class=\"btnrm\" title=\"Remove\">✕</button></div>" ++
  "<div class=\"ifields\">" ++
  "<div class=\"fg\"><label>Amount Received (₹)</label><input type=\"text\" class=\"ia\" placeholder=\"₹\" value=\""

/-- The markup between the amount and the date. -/
def rowDate : String :=
  "\"></div>" ++
  "<div class=\"fg\"><label>Date Received</label><input type=\"date\" class=\"id\" value=\""

/-- The markup between the date and the follow-up date. -/
def rowFollowUp : String :=
  "\"></div>" ++
  "<div class=\"fg\"><label>Next Follow-up Date</label><input type=\"date\" class=\"if\" value=\""

/-- The markup after the follow-up date. -/
def rowTail : String :=
  "\"></div>" ++ "</div>"

/-- What `openPopup` places into the `value` attribute of the amount input. -/
def amountText (inst : Inst) : String := inst.amount

/-- What `openPopup` places into the `value` attribute of the date input. -/
def dateText (inst : Inst) : String := escapeHTML (orStr inst.date "")

/-- What `openPopup` places into the `value` attribute of the follow-up input. -/
def followUpText (inst : Inst) : String := escapeHTML (orStr inst.followUp "")

/-- Source: the string `openPopup` assigns to `row.innerHTML` for a fetched
installment. -/
def instRowHTML (instCount : Nat) (inst : Inst) : String :=
  rowHead instCount ++ amountText inst ++ rowDate ++ dateText inst ++ rowFollowUp ++
    followUpText inst ++ rowTail

/-- The extent of a double-quoted attribute value in markup that starts right
after the opening quote: it ends at the first quote character. -/
def quotedValue (markup : String) : String :=
  ⟨markup.data.takeWhile fun c => c != '"'⟩

/-- An installment whose amount and date carry a quote and angle brackets. -/
def hostileInst : Inst :=
  { amount := "5000\" onfocus=\"alert(1)", date := some "2026-01-01\"><b>", followUp := none }

/-! ## Theorems -/

/-- C1: after `applyStatusLock("reserved")` the selectable statuses are exactly
booked, registered and available; after `applyStatusLock("booked")` they are
exactly registered and available, so neither reserved nor booked. -/
theorem C1_lock_reserved_booked (st : State) :
    (∀ v, selectable (applyStatusLock (some "reserved") st) v = true ↔
        (v = "booked" ∨ v = "registered" ∨ v = "available")) ∧
    (∀ v, selectable (applyStatusLock (some "booked") st) v = true ↔
        (v = "registered" ∨ v = "available")) ∧
    selectable (applyStatusLock (some "booked") st) "reserved" = false ∧
    selectable (applyStatusLock (some "booked") st) "booked" = false := by
  refine ⟨?_, ?_, ?_, ?_⟩
  · intro v
    by_cases h1 : v = "booked"
    · subst h1; simp [selectable, applyStatusLock, resetLock, truthy]
    · by_cases h2 : v = "reserved"
      · subst h2; simp [selectable, applyStatusLock, resetLock, truthy]
      · by_cases h3 : v = "registered"
        · subst h3; simp [selectable, applyStatusLock, resetLock, truthy]
        · by_cases h4 : v = "available"
          · subst h4; simp [selectable, applyStatusLock, resetLock, truthy]
          · simp [selectable, h1, h2, h3, h4]
  · intro v
    by_cases h1 : v = "booked"
    · subst h1; simp [selectable, applyStatusLock, resetLock, truthy]
    · by_cases h2 : v = "reserved"
      · subst h2; simp [selectable, applyStatusLock, resetLock, truthy]
      · by_cases h3 : v = "registered"
        · subst h3; simp [selectable, applyStatusLock, resetLock, truthy]
        · by_cases h4 : v = "available"
          · subst h4; simp [selectable, applyStatusLock, resetLock, truthy]
          · simp [selectable, h1, h2, h3, h4]
  · simp [selectable, applyStatusLock, resetLock, truthy]
  · simp [selectable, applyStatusLock, resetLock, truthy]


/-- C2: after `applyStatusLock("registered")` the four status radios are all
disabled and no status is selectable. -/
theorem C2_lock_registered (st : State) :
    (applyStatusLock (some "registered") st).rdoBooked.disabled = true ∧
    (applyStatusLock (some "registered") st).rdoReserved.disabled = true ∧
    (applyStatusLock (some "registered") st).rdoRegistered.disabled = true ∧
    (applyStatusLock (some "registered") st).rdoAvailable.disabled = true ∧
    ∀ v, selectable (applyStatusLock (some "registered") st) v = false := by
  refine ⟨?_, ?_, ?_, ?_, ?_⟩
  · simp [applyStatusLock, resetLock, truthy]
  · simp [applyStatusLock, resetLock, truthy]
  · simp [applyStatusLock, resetLock, truthy]
  · simp [applyStatusLock, resetLock, truthy]
  · intro v
    by_cases h1 : v = "booked"
    · subst h1; simp [selectable, applyStatusLock, resetLock, truthy]
    · by_cases h2 : v = "reserved"
      · subst h2; simp [selectable, applyStatusLock, resetLock, truthy]
      · by_cases h3 : v = "registered"
        · subst h3; simp [selectable, applyStatusLock, resetLock, truthy]
        · by_cases h4 : v = "available"
          · subst h4; simp [selectable, applyStatusLock, resetLock, truthy]
          · simp [selectable, h1, h2, h3, h4]

/-- The lock of a plot without customer: the three radios are enabled and the
available label is hidden. -/
theorem selectable_fresh (st : State) (v : String)
    (h1 : st.rdoBooked.disabled = false) (h2 : st.rdoReserved.disabled = false)
    (h3 : st.rdoRegistered.disabled = false) (h4 : st.lblAvailableDisplay = "none") :
    selectable st v = true ↔ (v = "reserved" ∨ v = "booked" ∨ v = "registered") := by
  by_cases c1 : v = "booked"
  · subst c1; simp [selectable, h1]
  · by_cases c2 : v = "reserved"
    · subst c2; simp [selectable, h2]
    · by_cases c3 : v = "registered"
      · subst c3; simp [selectable, h3]
      · by_cases c4 : v = "available"
        · subst c4; simp [selectable, h4]
        · simp [selectable, c1, c2, c3, c4]

/-- C3: for a plot without persisted customer status (`dbStatus` null, empty or
available) the statuses `applyStatusLock` leaves selectable are exactly
reserved, booked and registered; available is not among them. -/
theorem C3_lock_fresh (st : State) :
    (∀ v, selectable (applyStatusLock none st) v = true ↔
        (v = "reserved" ∨ v = "booked" ∨ v = "registered")) ∧
    (∀ v, selectable (applyStatusLock (some "") st) v = true ↔
        (v = "reserved" ∨ v = "booked" ∨ v = "registered")) ∧
    (∀ v, selectable (applyStatusLock (some "available") st) v = true ↔
        (v = "reserved" ∨ v = "booked" ∨ v = "registered")) ∧
    selectable (applyStatusLock none st) "available" = false ∧
    selectable (applyStatusLock (some "") st) "available" = false ∧
    selectable (applyStatusLock (some "available") st) "available" = false := by
  refine ⟨?_, ?_, ?_, ?_, ?_, ?_⟩
  · intro v
    apply selectable_fresh <;> simp [applyStatusLock, resetLock, truthy]
  · intro v
    apply selectable_fresh <;> simp [applyStatusLock, resetLock, truthy]
  · intro v
    apply selectable_fresh <;> simp [applyStatusLock, resetLock, truthy]
  · simp [selectable, applyStatusLock, resetLock, truthy]
  · simp [selectable, applyStatusLock, resetLock, truthy]
  · simp [selectable, applyStatusLock, resetLock, truthy]


/-- The function `openPopup` reads the registry status of the state it is called on. -/
theorem plotStatus_congr (st st1 : State) (plotId : String) (h : st1.plotDB = st.plotDB) :
    plotStatus st1 plotId = plotStatus st plotId := by
  simp [plotStatus, plotRec, h]

/-- The function `handleStatusRadio` returns at once for a value whose radio is disabled. -/
theorem handleStatusRadio_disabled (st : State) (c : String)
    (h : (c = "booked" ∧ st.rdoBooked.disabled = true) ∨
         (c = "reserved" ∧ st.rdoReserved.disabled = true) ∨
         (c = "registered" ∧ st.rdoRegistered.disabled = true) ∨
         (c = "available" ∧ st.rdoAvailable.disabled = true)) :
    handleStatusRadio c st = st := by
  rcases h with ⟨rfl, h⟩ | ⟨rfl, h⟩ | ⟨rfl, h⟩ | ⟨rfl, h⟩ <;> simp [handleStatusRadio, h]

/-- The session `openPopup` opens when the plot has a status and the customer
lookup returned a record. -/
theorem openPopup_edit (st : State) (plotId : String) (cust : CustData) (today : String)
    (h1 : plotStatus st plotId ≠ "") (h2 : plotStatus st plotId ≠ "available") :
    openPopup st plotId (FetchResult.found (some cust)) today =
      { populateEdit cust today
          (resetInst (applyStatusLock none (clearRadioStyles
            { st with
              currentPlotId := some plotId
              currentStatus := none
              popupMode := "new"
              editCustomerId := none
              existingStatus := none
              custName := { st.custName with value := "" }
              custPhone := { st.custPhone with value := "" }
              mediatorSel := { st.mediatorSel with value := "" }
              mediatorOther := { st.mediatorOther with value := "" }
              closureDate := { st.closureDate with value := "" }
              custMedAmount := { st.custMedAmount with value := "" }
              bookingPrice := { st.bookingPrice with value := "" } })))
        with popupShow := true } := by
  have e : ∀ s1 : State, s1.plotDB = st.plotDB → plotStatus s1 plotId = plotStatus st plotId :=
    fun s1 h => plotStatus_congr st s1 plotId h
  unfold openPopup
  simp only []
  rw [e _ (by simp [resetInst, applyStatusLock, resetLock, clearRadioStyles]; split <;> rfl)]
  simp [h1, h2]


/-- The lock flags of a session opened in edit mode are those `applyStatusLock`
computes from the fetched record's status. -/
theorem populateEdit_flags (s0 : State) (cust : CustData) (today : String) :
    (populateEdit cust today s0).rdoBooked.disabled =
        (applyStatusLock cust.status s0).rdoBooked.disabled ∧
    (populateEdit cust today s0).rdoReserved.disabled =
        (applyStatusLock cust.status s0).rdoReserved.disabled ∧
    (populateEdit cust today s0).rdoRegistered.disabled =
        (applyStatusLock cust.status s0).rdoRegistered.disabled ∧
    (populateEdit cust today s0).rdoAvailable.disabled =
        (applyStatusLock cust.status s0).rdoAvailable.disabled ∧
    (populateEdit cust today s0).lblAvailableDisplay =
        (applyStatusLock cust.status s0).lblAvailableDisplay := by
  simp only [populateEdit, showEditBanner, setFieldsDisabled, applyStatusLock, resetLock]
  refine ⟨?_, ?_, ?_, ?_, ?_⟩ <;> (repeat' split) <;> rfl


/-- C9: in a session opened on a plot whose fetched customer record has status
reserved, booked or registered, `handleStatusRadio(c)` for a status `c` that is
not selectable returns without any effect: the whole state, and with it the
pending status, the radio highlighting and the SVG (fill and stamp), is
unchanged. -/
theorem C9_rejected_outside_selectable (st : State) (plotId : String) (cust : CustData)
    (today s c : String)
    (hs : s = "reserved" ∨ s = "booked" ∨ s = "registered")
    (hc : c = "booked" ∨ c = "reserved" ∨ c = "registered" ∨ c = "available")
    (h1 : plotStatus st plotId ≠ "") (h2 : plotStatus st plotId ≠ "available")
    (hcust : cust.status = some s)
    (hsel : selectable (openPopup st plotId (FetchResult.found (some cust)) today) c = false) :
    handleStatusRadio c (openPopup st plotId (FetchResult.found (some cust)) today) =
      openPopup st plotId (FetchResult.found (some cust)) today := by
  rw [openPopup_edit st plotId cust today h1 h2] at hsel ⊢
  generalize (resetInst (applyStatusLock none (clearRadioStyles _))) = s0 at hsel ⊢
  obtain ⟨f1, f2, f3, f4, f5⟩ := populateEdit_flags s0 cust today
  apply handleStatusRadio_disabled
  simp only [selectable] at hsel
  rw [hcust] at f1 f2 f3 f4 f5
  rcases hs with rfl | rfl | rfl <;> rcases hc with rfl | rfl | rfl | rfl <;>
    simp [applyStatusLock, resetLock, truthy] at f1 f2 f3 f4 f5 <;> simp_all

/-- C9 at Scenario B: plot P2 is booked, the candidate is reserved. -/
theorem C9_witness_booked_reserved :
    selectable (openPopup pageBooked "P2"
      (FetchResult.found (some (custWith "3" "booked" "C Devi"))) "2026-01-01") "reserved" = false ∧
    handleStatusRadio "reserved" (openPopup pageBooked "P2"
      (FetchResult.found (some (custWith "3" "booked" "C Devi"))) "2026-01-01") =
      openPopup pageBooked "P2"
        (FetchResult.found (some (custWith "3" "booked" "C Devi"))) "2026-01-01" :=
  ⟨by decide,
   C9_rejected_outside_selectable pageBooked "P2" (custWith "3" "booked" "C Devi") "2026-01-01"
     "booked" "reserved" (by decide) (by decide) (by decide) (by decide) rfl (by decide)⟩


/-- The function `hideStamp` touches the SVG only. -/
theorem hideStamp_plotDB (st : State) (plotId : Option String) :
    (hideStamp st plotId).plotDB = st.plotDB := by
  unfold hideStamp
  split <;> rfl

/-- The function `closePopup` leaves the registry alone. -/
theorem closePopup_plotDB (st : State) : (closePopup st).plotDB = st.plotDB := by
  simp only [closePopup, hideEditBanner, setFieldsDisabled]
  split
  · split
    · simp [hideStamp_plotDB, setFill]
    · rfl
  · rfl

/-- The function `closePopup` hides the popup. -/
theorem closePopup_popupShow (st : State) : (closePopup st).popupShow = false := by
  simp only [closePopup, hideEditBanner, setFieldsDisabled]
  split
  · split
    · simp only [hideStamp, setFill]
      split <;> rfl
    · rfl
  · rfl

/-- The function `applyStatusLock` leaves the registry alone. -/
theorem applyStatusLock_plotDB (dbStatus : Option String) (st : State) :
    (applyStatusLock dbStatus st).plotDB = st.plotDB := by
  simp only [applyStatusLock, resetLock]
  (repeat' split) <;> rfl

/-- The function `setRadioToStatus` leaves the registry alone. -/
theorem setRadioToStatus_plotDB (dbStatus : Option String) (st : State) :
    (setRadioToStatus dbStatus st).plotDB = st.plotDB := by
  simp only [setRadioToStatus, clearRadioStyles]
  (repeat' split) <;> rfl

/-- The function `showEditBanner` leaves the registry alone. -/
theorem showEditBanner_plotDB (status : Option String) (st : State) :
    (showEditBanner status st).plotDB = st.plotDB := by
  simp only [showEditBanner, setFieldsDisabled]
  split <;> rfl

/-- The edit branch of `openPopup` leaves the registry alone. -/
theorem populateEdit_plotDB (cust : CustData) (today : String) (st : State) :
    (populateEdit cust today st).plotDB = st.plotDB := by
  simp only [populateEdit, showEditBanner_plotDB, applyStatusLock_plotDB,
    setRadioToStatus_plotDB]
  split <;> rfl

/-- The function `openPopup` leaves the registry alone, whatever the lookup answered. -/
theorem openPopup_plotDB (st : State) (plotId : String) (fetched : FetchResult)
    (today : String) : (openPopup st plotId fetched today).plotDB = st.plotDB := by
  simp only [openPopup]
  split
  · split
    · simp [populateEdit_plotDB, resetInst, applyStatusLock_plotDB, clearRadioStyles]
    · simp [resetInst, applyStatusLock_plotDB, clearRadioStyles]
    · simp [resetInst, applyStatusLock_plotDB, clearRadioStyles]
  · simp [addInstRow, hideEditBanner, setFieldsDisabled, resetInst, applyStatusLock_plotDB,
      clearRadioStyles]

/-- With the four radios disabled, the radio of any status value is disabled. -/
theorem radioOf_disabled (st : State) (value : String) (rdo : RadioBtn)
    (h : radioOf st value = some rdo)
    (r1 : st.rdoBooked.disabled = true) (r2 : st.rdoReserved.disabled = true)
    (r3 : st.rdoRegistered.disabled = true) (r4 : st.rdoAvailable.disabled = true) :
    rdo.disabled = true := by
  unfold radioOf at h
  split at h
  · cases h; exact r1
  · split at h
    · cases h; exact r2
    · split at h
      · cases h; exact r3
      · split at h
        · cases h; exact r4
        · cases h

/-- A locked session stays locked under every event. -/
theorem step_locked (db : List (String × PlotRec)) (sys : Sys) (op : Op)
    (h : Locked db sys) : Locked db (step sys op) := by
  obtain ⟨hp, hl, hd, hlock⟩ := h
  cases op with
  | respond r =>
    simp only [step, hp]
    exact ⟨hp, hl, hd, hlock⟩
  | select value =>
    simp only [step]
    by_cases ho : isOpen sys.st = true
    · have hs : sys.st.popupShow = true := ho
      rcases hlock with hc | ⟨r1, r2, r3, r4, r5⟩
      · simp [hs] at hc
      · have hL : Locked db sys := ⟨hp, hl, hd, Or.inr ⟨r1, r2, r3, r4, r5⟩⟩
        cases hr : radioOf sys.st value with
        | none => simpa [ho] using hL
        | some rdo =>
          have hdis := radioOf_disabled sys.st value rdo hr r1 r2 r3 r4
          simpa [ho, hdis] using hL
    · simp only [ho]
      exact ⟨hp, hl, hd, hlock⟩
  | typeName v =>
    simp only [step]
    split
    · exact ⟨hp, hl, hd, hlock⟩
    · exact ⟨hp, hl, hd, hlock⟩
  | typePhone v =>
    simp only [step]
    split
    · exact ⟨hp, hl, hd, hlock⟩
    · exact ⟨hp, hl, hd, hlock⟩
  | save confirmed =>
    simp only [step]
    by_cases ho : isOpen sys.st = true
    · have hs : sys.st.popupShow = true := ho
      rcases hlock with hc | ⟨r1, r2, r3, r4, r5⟩
      · simp [hs] at hc
      · simp only [ho, r5]
        exact ⟨hp, hl, hd, Or.inr ⟨r1, r2, r3, r4, r5⟩⟩
    · simp only [ho]
      exact ⟨hp, hl, hd, hlock⟩
  | cancel =>
    simp only [step]
    split
    · exact ⟨hp, hl, hd, hlock⟩
    · exact ⟨hp, hl, by rw [closePopup_plotDB]; exact hd, Or.inl (closePopup_popupShow _)⟩

/-- A locked session stays locked under every sequence of events. -/
theorem run_locked (db : List (String × PlotRec)) (ops : List Op) (sys : Sys)
    (h : Locked db sys) : Locked db (run sys ops) := by
  induction ops generalizing sys with
  | nil => exact h
  | cons op rest ih => exact ih (step sys op) (step_locked db sys op h)


/-- A fetched record with status registered leaves the save button disabled. -/
theorem populateEdit_registered_save (s0 : State) (cust : CustData) (today : String)
    (hreg : cust.status = some "registered") :
    (populateEdit cust today s0).btnSaveCust.disabled = true := by
  simp [populateEdit, showEditBanner, setFieldsDisabled, hreg]

/-- C4, as amended: in a session that `openPopup` opened on a plot whose
customer record was fetched with status registered, no sequence of select,
typing, save (delete-via-available included, confirmed or not), server-answer
and cancel events sends a customer create, update or delete request, leaves
one in flight, or changes `plotDB`, so the plot's registry status stays. -/
theorem C4_registered_session_locked (st : State) (plotId : String) (cust : CustData)
    (today : String) (ops : List Op)
    (h1 : plotStatus st plotId ≠ "") (h2 : plotStatus st plotId ≠ "available")
    (hreg : cust.status = some "registered") :
    (run ⟨openPopup st plotId (FetchResult.found (some cust)) today, [], []⟩ ops).log = [] ∧
    (run ⟨openPopup st plotId (FetchResult.found (some cust)) today, [], []⟩ ops).pending = [] ∧
    (run ⟨openPopup st plotId (FetchResult.found (some cust)) today, [], []⟩ ops).st.plotDB =
      st.plotDB ∧
    statusOf (run ⟨openPopup st plotId (FetchResult.found (some cust)) today, [], []⟩ ops).st
      plotId = statusOf st plotId := by
  have hL : Locked st.plotDB ⟨openPopup st plotId (FetchResult.found (some cust)) today, [], []⟩ := by
    refine ⟨rfl, rfl, openPopup_plotDB st plotId _ today, Or.inr ?_⟩
    rw [openPopup_edit st plotId cust today h1 h2]
    generalize (resetInst (applyStatusLock none (clearRadioStyles _))) = s0
    obtain ⟨f1, f2, f3, f4, _⟩ := populateEdit_flags s0 cust today
    have f5 := populateEdit_registered_save s0 cust today hreg
    rw [hreg] at f1 f2 f3 f4
    simp [applyStatusLock, resetLock, truthy] at f1 f2 f3 f4
    exact ⟨f1, f2, f3, f4, f5⟩
  obtain ⟨hp, hl, hd, _⟩ := run_locked st.plotDB ops _ hL
  exact ⟨hl, hp, hd, by simp [statusOf, hd]⟩

/-- C4 on the registered plot P1: selecting, typing, saving, answering and
cancelling send nothing and leave the registry as it was. -/
theorem C4_witness_registered :
    (run ⟨openPopup pageRegistered "P1"
        (FetchResult.found (some (custWith "1" "registered" "B Rao"))) "2026-01-01", [], []⟩
      [Op.select "booked", Op.typeName "X", Op.save true, Op.respond (Response.ok none),
        Op.select "available", Op.save true, Op.cancel, Op.save true]).log = [] ∧
    (run ⟨openPopup pageRegistered "P1"
        (FetchResult.found (some (custWith "1" "registered" "B Rao"))) "2026-01-01", [], []⟩
      [Op.select "booked", Op.typeName "X", Op.save true, Op.respond (Response.ok none),
        Op.select "available", Op.save true, Op.cancel, Op.save true]).pending = [] ∧
    (run ⟨openPopup pageRegistered "P1"
        (FetchResult.found (some (custWith "1" "registered" "B Rao"))) "2026-01-01", [], []⟩
      [Op.select "booked", Op.typeName "X", Op.save true, Op.respond (Response.ok none),
        Op.select "available", Op.save true, Op.cancel, Op.save true]).st.plotDB =
      pageRegistered.plotDB ∧
    statusOf (run ⟨openPopup pageRegistered "P1"
        (FetchResult.found (some (custWith "1" "registered" "B Rao"))) "2026-01-01", [], []⟩
      [Op.select "booked", Op.typeName "X", Op.save true, Op.respond (Response.ok none),
        Op.select "available", Op.save true, Op.cancel, Op.save true]).st "P1" =
      statusOf pageRegistered "P1" :=
  C4_registered_session_locked pageRegistered "P1" (custWith "1" "registered" "B Rao")
    "2026-01-01" _ (by decide) (by decide) rfl

/-- C4 as stated fails: P1 is registered, the customer lookup fails when the
popup is opened, the session opens in new mode with every radio enabled, and
select booked, type a name, save sends a create request; when the server
accepts it the registry status of P1 becomes booked. -/
theorem C4_counterexample_failed_lookup :
    statusOf pageRegistered "P1" = some "Registration Done" ∧
    (run ⟨handleActivate pageRegistered "P1" (FetchResult.failed "offline") "2026-01-01", [], []⟩
      [Op.select "booked", Op.typeName "A Kumar", Op.save true]).log =
      [Request.post
        { customerName := "A Kumar", customerPhone := "", mediator := "", commission := "",
          bookingAmount := "", closureDate := "", status := "booked", installments := [],
          plotKey := some (some "P1") }] ∧
    statusOf (run ⟨handleActivate pageRegistered "P1" (FetchResult.failed "offline")
        "2026-01-01", [], []⟩
      [Op.select "booked", Op.typeName "A Kumar", Op.save true,
        Op.respond (Response.ok none)]).st "P1" = some "booked" := by
  decide


/-- What the save handler sends does not depend on the toast or on the save
button. -/
theorem saveCustClick_congr (st : State) (t : String) (b : Button) (confirmed : Bool) :
    (saveCustClick { st with toast := t, btnSaveCust := b } confirmed).2 =
      (saveCustClick st confirmed).2 := by
  simp only [saveCustClick, selectedStatusOf, buildPayload, showToast, apply_ite Prod.snd]

/-- When the save handler sends a request it has only touched the save button. -/
theorem saveCustClick_sent (st st1 : State) (confirmed : Bool) (req : Request) (p : Pending)
    (h : saveCustClick st confirmed = (st1, some (req, p))) :
    ∃ b, st1 = { st with btnSaveCust := b } := by
  unfold saveCustClick at h
  simp only [] at h
  split at h
  · split at h
    · simp at h
    · split at h
      · simp at h
      · simp only [Prod.mk.injEq] at h
        exact ⟨_, h.1.symm⟩
  · split at h
    · simp at h
    · split at h
      · simp at h
      · split at h
        · simp at h
        · split at h
          · simp only [Prod.mk.injEq] at h
            exact ⟨_, h.1.symm⟩
          · simp only [Prod.mk.injEq] at h
            exact ⟨_, h.1.symm⟩

/-- The `catch` and `finally` of the save handler: a toast, and the button. -/
theorem saveCustResume_failed (st : State) (p : Pending) (msg : String) :
    ∃ t b, saveCustResume st p (Response.failed msg) = { st with toast := t, btnSaveCust := b } := by
  cases p with
  | deleting => exact ⟨_, _, rfl⟩
  | saving s => exact ⟨_, _, rfl⟩

/-- The `finally` of the save handler enables the save button. -/
theorem saveCustResume_enabled (st : State) (p : Pending) (r : Response) :
    (saveCustResume st p r).btnSaveCust.disabled = false := by
  cases p <;> rfl

/-- C8: when the request the save handler sent fails, the registry is not
mutated, the popup stays as it was (open), the plot under edit, the mode, the
customer id, `existingStatus` and the pending status are unchanged, the save
button is enabled again, and a further click sends the same request again. -/
theorem C8_failed_save_keeps_session (st st1 : State) (confirmed : Bool) (req : Request)
    (p : Pending) (msg : String)
    (h : saveCustClick st confirmed = (st1, some (req, p))) :
    (saveCustResume st1 p (Response.failed msg)).plotDB = st.plotDB ∧
    (saveCustResume st1 p (Response.failed msg)).popupShow = st.popupShow ∧
    (saveCustResume st1 p (Response.failed msg)).currentPlotId = st.currentPlotId ∧
    (saveCustResume st1 p (Response.failed msg)).popupMode = st.popupMode ∧
    (saveCustResume st1 p (Response.failed msg)).editCustomerId = st.editCustomerId ∧
    (saveCustResume st1 p (Response.failed msg)).existingStatus = st.existingStatus ∧
    (saveCustResume st1 p (Response.failed msg)).currentStatus = st.currentStatus ∧
    (saveCustResume st1 p (Response.failed msg)).btnSaveCust.disabled = false ∧
    (saveCustClick (saveCustResume st1 p (Response.failed msg)) confirmed).2 =
      some (req, p) := by
  obtain ⟨b1, rfl⟩ := saveCustClick_sent st st1 confirmed req p h
  obtain ⟨t, b, e⟩ := saveCustResume_failed { st with btnSaveCust := b1 } p msg
  have hen := saveCustResume_enabled { st with btnSaveCust := b1 } p (Response.failed msg)
  refine ⟨?_, ?_, ?_, ?_, ?_, ?_, ?_, hen, ?_⟩
  · rw [e]
  · rw [e]
  · rw [e]
  · rw [e]
  · rw [e]
  · rw [e]
  · rw [e]
  · rw [e]
    have := saveCustClick_congr st t b confirmed
    simp only [] at this ⊢
    rw [this, h]


/-- C8 at Scenario D: the update of the reserved plot P4 to registered fails;
the popup is still open and a second click sends the same update. -/
theorem C8_witness_scenario_D :
    saveCustClick sessionDSelected true =
      ((saveCustClick sessionDSelected true).1, some (requestD, Pending.saving "registered")) ∧
    (saveCustResume (saveCustClick sessionDSelected true).1 (Pending.saving "registered")
      (Response.failed "network error")).popupShow = true ∧
    (saveCustClick (saveCustResume (saveCustClick sessionDSelected true).1
      (Pending.saving "registered") (Response.failed "network error")) true).2 =
      some (requestD, Pending.saving "registered") :=
  ⟨by decide,
   (C8_failed_save_keeps_session sessionDSelected (saveCustClick sessionDSelected true).1 true
      requestD (Pending.saving "registered") "network error" (by decide)).2.1.trans (by decide),
   (C8_failed_save_keeps_session sessionDSelected (saveCustClick sessionDSelected true).1 true
      requestD (Pending.saving "registered") "network error" (by decide)).2.2.2.2.2.2.2.2⟩

/-- C5 fails on Scenario D: P4 is reserved and drawn in the pending colour;
registered is selected (the shape takes the sold colour), the update is sent and
fails; the shape keeps the sold colour although the registry still says
reserved and the popup is still open. -/
theorem C5_failed_save_leaves_preview :
    fillOf sessionD "P4" = some "#FFD253" ∧
    (run ⟨sessionD, [], []⟩ [Op.select "registered", Op.save true,
      Op.respond (Response.failed "network error")]).log = [requestD] ∧
    fillOf (run ⟨sessionD, [], []⟩ [Op.select "registered", Op.save true,
      Op.respond (Response.failed "network error")]).st "P4" = some "#F48274" ∧
    statusOf (run ⟨sessionD, [], []⟩ [Op.select "registered", Op.save true,
      Op.respond (Response.failed "network error")]).st "P4" = some "reserved" ∧
    (run ⟨sessionD, [], []⟩ [Op.select "registered", Op.save true,
      Op.respond (Response.failed "network error")]).st.popupShow = true := by
  decide

/-- C6 fails on Scenario E: P5 is available and drawn in the free colour, which
the click captured as `originalColor`; reserved is selected, nothing is saved,
and `closePopup` leaves the shape in the pending colour. -/
theorem C6_cancel_leaves_preview :
    sessionE.originalColor = "#2BBCA5" ∧
    fillOf sessionE "P5" = some "#2BBCA5" ∧
    fillOf (handleStatusRadio "reserved" sessionE) "P5" = some "#FFD253" ∧
    fillOf (closePopup (handleStatusRadio "reserved" sessionE)) "P5" = some "#FFD253" ∧
    (run ⟨sessionE, [], []⟩ [Op.select "reserved", Op.cancel]).log = [] ∧
    fillOf (run ⟨sessionE, [], []⟩ [Op.select "reserved", Op.cancel]).st "P5" =
      some "#FFD253" ∧
    statusOf (closePopup (handleStatusRadio "reserved" sessionE)) "P5" = some "Available" := by
  decide

/-- C7 fails on the available plot P5: `handleStatusRadio("booked")` in the
open, unsaved session changes the fill of the shape from the free colour to
the sold colour, with no request sent and the registry untouched. -/
theorem C7_select_recolours_before_save :
    fillOf sessionE "P5" = some "#2BBCA5" ∧
    fillOf (handleStatusRadio "booked" sessionE) "P5" = some "#F48274" ∧
    statusOf (handleStatusRadio "booked" sessionE) "P5" = some "Available" ∧
    (run ⟨sessionE, [], []⟩ [Op.select "booked"]).log = [] ∧
    fillOf (run ⟨sessionE, [], []⟩ [Op.select "booked"]).st "P5" = some "#F48274" := by
  decide


/-- Looking a key up after an update of the first entry under a key. -/
theorem lookup_modify {α : Type} (k k1 : String) (f : α → α) (l : List (String × α)) :
    lookup k (modify k1 f l) = if k1 = k then (lookup k l).map f else lookup k l := by
  induction l with
  | nil => simp [lookup, modify]
  | cons hd tl ih =>
    obtain ⟨a, v⟩ := hd
    by_cases h1 : a = k1
    · by_cases h2 : a = k
      · subst h1; subst h2; simp [lookup, modify]
      · subst h1; simp [lookup, modify, h2]
    · by_cases h2 : a = k
      · subst h2
        have h3 : ¬ k1 = a := fun e => h1 e.symm
        simp [lookup, modify, h1, h3]
      · simp only [modify, beq_iff_eq, h1, if_false, lookup, h2, ih]

/-- Looking a key up after the removal of another key. -/
theorem lookup_remove_ne {α : Type} (k k1 : String) (l : List (String × α)) (h : k ≠ k1) :
    lookup k (remove k1 l) = lookup k l := by
  induction l with
  | nil => simp [lookup, remove]
  | cons hd tl ih =>
    obtain ⟨a, v⟩ := hd
    by_cases h1 : a = k1
    · subst h1
      have h2 : ¬ a = k := fun e => h e.symm
      simp [lookup, remove, h2]
    · by_cases h2 : a = k
      · subst h2
        simp [lookup, remove, h1]
      · simp only [remove, beq_iff_eq, h1, if_false, lookup, h2, ih]

/-- The function `hideStamp` keeps the fill of every element other than the synthesized
stamp it removes. -/
theorem fillOf_hideStamp (st : State) (plotId : Option String) (el : String)
    (h : el ≠ "__fstamp__" ++ orStr plotId "") :
    fillOf (hideStamp st plotId) el = fillOf st el := by
  unfold hideStamp fillOf
  cases hsvg : st.inlineSvg with
  | none => simp [hsvg]
  | some svg =>
    simp only [Option.some_bind]
    rw [lookup_remove_ne _ _ _ h, lookup_modify]
    generalize (STAMP_PREFIX ++ _) = sid
    by_cases hk : sid = el
    · cases lookup el svg <;> simp [hideStampEl, hk]
    · simp [hk]

/-- The function `setFill` gives an existing element the fill. -/
theorem fillOf_setFill (st : State) (el colour : String) (e : SvgEl)
    (h : st.inlineSvg.bind (lookup el) = some e) :
    fillOf (setFill st el colour) el = some colour := by
  unfold setFill fillOf
  cases hsvg : st.inlineSvg with
  | none => simp [hsvg] at h
  | some svg =>
    rw [hsvg] at h
    simp only [Option.some_bind] at h
    simp [lookup_modify, h]

/-- The session `openPopup` opens on a plot whose registry status is empty or
available: the lookup is not consulted. -/
theorem openPopup_new (st : State) (plotId : String) (fetched : FetchResult) (today : String)
    (h : plotStatus st plotId = "" ∨ plotStatus st plotId = "available") :
    openPopup st plotId fetched today =
      { addInstRow today (applyStatusLock none (hideEditBanner
          { resetInst (applyStatusLock none (clearRadioStyles
              { st with
                currentPlotId := some plotId
                currentStatus := none
                popupMode := "new"
                editCustomerId := none
                existingStatus := none
                custName := { st.custName with value := "" }
                custPhone := { st.custPhone with value := "" }
                mediatorSel := { st.mediatorSel with value := "" }
                mediatorOther := { st.mediatorOther with value := "" }
                closureDate := { st.closureDate with value := "" }
                custMedAmount := { st.custMedAmount with value := "" }
                bookingPrice := { st.bookingPrice with value := "" } }))
            with btnSaveCust :=
              { (resetInst (applyStatusLock none (clearRadioStyles
                  { st with
                    currentPlotId := some plotId
                    currentStatus := none
                    popupMode := "new"
                    editCustomerId := none
                    existingStatus := none
                    custName := { st.custName with value := "" }
                    custPhone := { st.custPhone with value := "" }
                    mediatorSel := { st.mediatorSel with value := "" }
                    mediatorOther := { st.mediatorOther with value := "" }
                    closureDate := { st.closureDate with value := "" }
                    custMedAmount := { st.custMedAmount with value := "" }
                    bookingPrice := { st.bookingPrice with value := "" } }))).btnSaveCust
                with textContent := "💾 Save Customer Details" } }))
        with popupShow := true } := by
  have e : ∀ s1 : State, s1.plotDB = st.plotDB → plotStatus s1 plotId = plotStatus st plotId :=
    fun s1 h => plotStatus_congr st s1 plotId h
  unfold openPopup
  simp only []
  rw [e _ (by simp [resetInst, applyStatusLock, resetLock, clearRadioStyles]; split <;> rfl)]
  rcases h with h | h <;> simp [h]


/-- What `openPopup` leaves behind on a plot without customer. -/
theorem openPopup_new_facts (st : State) (plotId : String) (fetched : FetchResult)
    (today : String) (h : plotStatus st plotId = "" ∨ plotStatus st plotId = "available") :
    (openPopup st plotId fetched today).rdoAvailable.disabled = false ∧
    (openPopup st plotId fetched today).lblAvailableDisplay = "none" ∧
    (openPopup st plotId fetched today).selectedPlot = st.selectedPlot ∧
    (openPopup st plotId fetched today).inlineSvg = st.inlineSvg ∧
    (openPopup st plotId fetched today).currentPlotId = some plotId := by
  rw [openPopup_new st plotId fetched today h]
  simp [addInstRow, applyStatusLock, resetLock, hideEditBanner, setFieldsDisabled, resetInst,
    clearRadioStyles, truthy]

/-- The function `hideStamp` touches the SVG only: the pending status stays. -/
theorem hideStamp_currentStatus (st : State) (plotId : Option String) :
    (hideStamp st plotId).currentStatus = st.currentStatus := by
  unfold hideStamp
  split <;> rfl

/-- With its radio enabled, `handleStatusRadio("available")` takes its last
branch. -/
theorem handleStatusRadio_available (s : State) (h : s.rdoAvailable.disabled = false) :
    handleStatusRadio "available" s =
      hideStamp
        (previewFill
          { clearRadioStyles s with
            currentStatus := some "available"
            lblAvailable := { (clearRadioStyles s).lblAvailable with highlighted := true } }
          "#2BBCA5")
        s.currentPlotId := by
  simp [handleStatusRadio, h, clearRadioStyles]

/-- C10, as amended: in a session opened on a plot without bound customer the
available option is not offered (its label is hidden, so it is not selectable)
but its radio is left enabled, and `handleStatusRadio("available")` is not
rejected: it makes available the pending status and gives the selected shape
the free colour. -/
theorem C10_available_hidden_not_rejected (st : State) (plotId : String)
    (fetched : FetchResult) (today : String)
    (h : plotStatus st plotId = "" ∨ plotStatus st plotId = "available") :
    selectable (openPopup st plotId fetched today) "available" = false ∧
    (openPopup st plotId fetched today).lblAvailableDisplay = "none" ∧
    (openPopup st plotId fetched today).rdoAvailable.disabled = false ∧
    (handleStatusRadio "available" (openPopup st plotId fetched today)).currentStatus =
      some "available" ∧
    ∀ sel e, st.selectedPlot = some sel → st.inlineSvg.bind (lookup sel) = some e →
      sel ≠ "__fstamp__" ++ plotId →
      fillOf (handleStatusRadio "available" (openPopup st plotId fetched today)) sel =
        some "#2BBCA5" := by
  obtain ⟨f1, f2, f3, f4, f5⟩ := openPopup_new_facts st plotId fetched today h
  refine ⟨?_, f2, f1, ?_, ?_⟩
  · simp [selectable, f1, f2]
  · rw [handleStatusRadio_available _ f1, hideStamp_currentStatus]
    unfold previewFill
    split <;> rfl
  · intro sel e hsel hex hne
    rw [handleStatusRadio_available _ f1, f5, fillOf_hideStamp]
    · have hs : (clearRadioStyles (openPopup st plotId fetched today)).selectedPlot = some sel := by
        simp [clearRadioStyles, f3, hsel]
      simp only [previewFill, hs]
      apply fillOf_setFill _ _ _ e
      simp only [clearRadioStyles, f4, hex]
    · have hp : orStr (some plotId) "" = plotId := by
        simp only [orStr]
        split
        · next hz => simp at hz; simp [hz]
        · rfl
      rw [hp]
      exact hne

/-- C10 as amended, on plot P9: the plot has no status, the click stored its
shape, and `handleStatusRadio("available")` recolours that shape. -/
theorem C10_witness_unlisted :
    plotStatus clickedU "P9" = "" ∧
    selectable (openPopup clickedU "P9" (FetchResult.found none) "2026-01-01") "available" =
      false ∧
    (handleStatusRadio "available"
      (openPopup clickedU "P9" (FetchResult.found none) "2026-01-01")).currentStatus =
      some "available" ∧
    fillOf (handleStatusRadio "available"
      (openPopup clickedU "P9" (FetchResult.found none) "2026-01-01")) "P9" = some "#2BBCA5" :=
  ⟨by decide,
   (C10_available_hidden_not_rejected clickedU "P9" (FetchResult.found none) "2026-01-01"
      (Or.inl (by decide))).1,
   (C10_available_hidden_not_rejected clickedU "P9" (FetchResult.found none) "2026-01-01"
      (Or.inl (by decide))).2.2.2.1,
   (C10_available_hidden_not_rejected clickedU "P9" (FetchResult.found none) "2026-01-01"
      (Or.inl (by decide))).2.2.2.2 "P9" (shapeEl "#D9D9D9") (by decide) (by decide)
      (by decide)⟩

/-- C10 as stated fails: P9 has no status and no customer, its shape is grey
and nothing is pending; `handleStatusRadio("available")` is not rejected, it
makes available the pending status and paints the shape in the free colour. -/
theorem C10_counterexample_unlisted :
    plotStatus pageUnlisted "P9" = "" ∧
    sessionU.editCustomerId = none ∧
    sessionU.currentStatus = none ∧
    fillOf sessionU "P9" = some "#D9D9D9" ∧
    (handleStatusRadio "available" sessionU).currentStatus = some "available" ∧
    fillOf (handleStatusRadio "available" sessionU) "P9" = some "#2BBCA5" := by
  decide

/-- What the edit branch of `openPopup` stores in the session variables. -/
theorem populateEdit_session (s0 : State) (cust : CustData) (today : String) :
    (populateEdit cust today s0).popupMode = "edit" ∧
    (populateEdit cust today s0).editCustomerId = cust.id ∧
    (populateEdit cust today s0).existingStatus = cust.status := by
  unfold populateEdit
  cases cust.installments with
  | none =>
    simp only [showEditBanner, setFieldsDisabled, applyStatusLock, resetLock, setRadioToStatus,
      clearRadioStyles, addInstRow, apply_ite State.popupMode, apply_ite State.editCustomerId,
      apply_ite State.existingStatus, ite_self, and_self]
  | some l =>
    cases l with
    | nil =>
      simp only [showEditBanner, setFieldsDisabled, applyStatusLock, resetLock, setRadioToStatus,
        clearRadioStyles, addInstRow, apply_ite State.popupMode, apply_ite State.editCustomerId,
        apply_ite State.existingStatus, ite_self, and_self]
    | cons i rest =>
      simp only [showEditBanner, setFieldsDisabled, applyStatusLock, resetLock, setRadioToStatus,
        clearRadioStyles, addInstRow, apply_ite State.popupMode, apply_ite State.editCustomerId,
        apply_ite State.existingStatus, ite_self, and_self]

/-- The session `openPopup` opens when the plot has a status but the customer
lookup failed or returned nothing: the record branch is skipped. -/
theorem openPopup_no_record (st : State) (plotId : String) (fetched : FetchResult)
    (today : String)
    (h1 : plotStatus st plotId ≠ "") (h2 : plotStatus st plotId ≠ "available")
    (hf : fetched = FetchResult.found none ∨ ∃ msg, fetched = FetchResult.failed msg) :
    openPopup st plotId fetched today =
      { resetInst (applyStatusLock none (clearRadioStyles
          { st with
            currentPlotId := some plotId
            currentStatus := none
            popupMode := "new"
            editCustomerId := none
            existingStatus := none
            custName := { st.custName with value := "" }
            custPhone := { st.custPhone with value := "" }
            mediatorSel := { st.mediatorSel with value := "" }
            mediatorOther := { st.mediatorOther with value := "" }
            closureDate := { st.closureDate with value := "" }
            custMedAmount := { st.custMedAmount with value := "" }
            bookingPrice := { st.bookingPrice with value := "" } }))
        with popupShow := true } := by
  have e : ∀ s1 : State, s1.plotDB = st.plotDB → plotStatus s1 plotId = plotStatus st plotId :=
    fun s1 h => plotStatus_congr st s1 plotId h
  unfold openPopup
  simp only []
  rw [e _ (by simp [resetInst, applyStatusLock, resetLock, clearRadioStyles]; split <;> rfl)]
  rcases hf with rfl | ⟨msg, rfl⟩ <;> simp [h1, h2]

/-- C20: `openPopup` always shows the popup; it opens the session in edit mode,
with `editCustomerId` and `existingStatus` taken from the fetched record, when
the plot's registry status (lower-cased) is non-empty and not available and
the lookup returned a record; when the status is empty or available, or the
lookup failed or returned nothing, it opens it in new mode with no customer
id and no existing status. -/
theorem C20_open_mode (st : State) (plotId : String) (fetched : FetchResult) (today : String) :
    (openPopup st plotId fetched today).popupShow = true ∧
    (∀ cust, plotStatus st plotId ≠ "" → plotStatus st plotId ≠ "available" →
      fetched = FetchResult.found (some cust) →
      (openPopup st plotId fetched today).popupMode = "edit" ∧
      (openPopup st plotId fetched today).editCustomerId = cust.id ∧
      (openPopup st plotId fetched today).existingStatus = cust.status) ∧
    ((plotStatus st plotId = "" ∨ plotStatus st plotId = "available" ∨
        fetched = FetchResult.found none ∨ ∃ msg, fetched = FetchResult.failed msg) →
      (openPopup st plotId fetched today).popupMode = "new" ∧
      (openPopup st plotId fetched today).editCustomerId = none ∧
      (openPopup st plotId fetched today).existingStatus = none) := by
  refine ⟨?_, ?_, ?_⟩
  · simp only [openPopup]
  · intro cust h1 h2 hf
    subst hf
    rw [openPopup_edit st plotId cust today h1 h2]
    exact populateEdit_session _ cust today
  · intro h
    by_cases hn : plotStatus st plotId = "" ∨ plotStatus st plotId = "available"
    · rw [openPopup_new st plotId fetched today hn]
      simp only [addInstRow, applyStatusLock, resetLock, hideEditBanner, setFieldsDisabled,
        resetInst, clearRadioStyles, apply_ite State.popupMode, apply_ite State.editCustomerId,
        apply_ite State.existingStatus, ite_self, and_self]
    · have h1 : plotStatus st plotId ≠ "" := fun e => hn (Or.inl e)
      have h2 : plotStatus st plotId ≠ "available" := fun e => hn (Or.inr e)
      have hf : fetched = FetchResult.found none ∨ ∃ msg, fetched = FetchResult.failed msg := by
        rcases h with h | h | h | h
        · exact absurd h h1
        · exact absurd h h2
        · exact Or.inl h
        · exact Or.inr h
      rw [openPopup_no_record st plotId fetched today h1 h2 hf]
      simp only [applyStatusLock, resetLock, resetInst, clearRadioStyles,
        apply_ite State.popupMode, apply_ite State.editCustomerId,
        apply_ite State.existingStatus, ite_self, and_self]

/-- C20 on the booked plot P2 (record fetched: edit mode with its id and status)
and on the same plot when the lookup fails (new mode, no id). -/
theorem C20_witness_booked :
    ((openPopup pageBooked "P2" (FetchResult.found (some (custWith "3" "booked" "C Devi")))
        "2026-01-01").popupMode = "edit" ∧
     (openPopup pageBooked "P2" (FetchResult.found (some (custWith "3" "booked" "C Devi")))
        "2026-01-01").editCustomerId = some "3" ∧
     (openPopup pageBooked "P2" (FetchResult.found (some (custWith "3" "booked" "C Devi")))
        "2026-01-01").existingStatus = some "booked") ∧
    ((openPopup pageBooked "P2" (FetchResult.failed "offline") "2026-01-01").popupMode = "new" ∧
     (openPopup pageBooked "P2" (FetchResult.failed "offline") "2026-01-01").editCustomerId =
        none ∧
     (openPopup pageBooked "P2" (FetchResult.failed "offline") "2026-01-01").existingStatus =
        none) :=
  ⟨(C20_open_mode pageBooked "P2" (FetchResult.found (some (custWith "3" "booked" "C Devi")))
      "2026-01-01").2.1 (custWith "3" "booked" "C Devi") (by decide) (by decide) rfl,
   (C20_open_mode pageBooked "P2" (FetchResult.failed "offline") "2026-01-01").2.2
      (Or.inr (Or.inr (Or.inr ⟨"offline", rfl⟩)))⟩

/-- Updating an entry keeps the keys. -/
theorem modify_keys {α : Type} (k : String) (f : α → α) (l : List (String × α)) :
    (modify k f l).map Prod.fst = l.map Prod.fst := by
  induction l with
  | nil => rfl
  | cons hd tl ih =>
    obtain ⟨a, v⟩ := hd
    by_cases h : a = k
    · simp [modify, h]
    · simp [modify, h, ih]

/-- A key that is not in the list is not found. -/
theorem lookup_not_mem {α : Type} (k : String) (l : List (String × α))
    (h : k ∉ l.map Prod.fst) : lookup k l = none := by
  induction l with
  | nil => rfl
  | cons hd tl ih =>
    obtain ⟨a, v⟩ := hd
    simp only [List.map_cons, List.mem_cons, not_or] at h
    have h1 : ¬ a = k := fun e => h.1 e.symm
    simp [lookup, h1, ih h.2]

/-- With unique keys, a removed key is not found any more. -/
theorem lookup_remove_self {α : Type} (k : String) (l : List (String × α))
    (h : (l.map Prod.fst).Nodup) : lookup k (remove k l) = none := by
  induction l with
  | nil => rfl
  | cons hd tl ih =>
    obtain ⟨a, v⟩ := hd
    simp only [List.map_cons, List.nodup_cons] at h
    by_cases h1 : a = k
    · subst h1
      simp only [remove, beq_self_eq_true, if_true]
      exact lookup_not_mem _ _ h.1
    · simp [remove, lookup, h1, ih h.2]

/-- An entry found in a list is found in every extension of the list. -/
theorem lookup_append_left {α : Type} (k : String) (l r : List (String × α)) (e : α)
    (h : lookup k l = some e) : lookup k (l ++ r) = some e := by
  induction l with
  | nil => simp [lookup] at h
  | cons hd tl ih =>
    obtain ⟨a, v⟩ := hd
    by_cases h1 : a = k
    · simp [lookup, h1] at h ⊢
      exact h
    · simp [lookup, h1] at h ⊢
      exact ih h

/-- An entry appended under a key is found under that key, if no earlier one is. -/
theorem lookup_append_isSome {α : Type} (k : String) (l : List (String × α)) (v : α) :
    (lookup k (l ++ [(k, v)])).isSome = true := by
  induction l with
  | nil => simp [lookup]
  | cons hd tl ih =>
    obtain ⟨a, w⟩ := hd
    by_cases h1 : a = k
    · simp [lookup, h1]
    · simp [lookup, h1, ih]

/-- A stamp resource id is never the id of a synthesized stamp. -/
theorem stampId_ne_fallback (x y : String) : STAMP_PREFIX ++ x ≠ "__fstamp__" ++ y := by
  intro h
  have h1 := congrArg String.data h
  simp [STAMP_PREFIX, String.data_append] at h1

/-- A plot id is never the id of its own synthesized stamp. -/
theorem plotId_ne_fallback (p : String) : p ≠ "__fstamp__" ++ p := by
  intro h
  have h1 := congrArg String.length h
  simp [String.length_append] at h1
  exact absurd h1 (by decide)


/-- The shape the commit resolves exists in the document and is not the
synthesized stamp of the plot. -/
theorem commitShape_spec (st : State) (plotId shape : String) (svg : Svg)
    (hsvg : st.inlineSvg = some svg) (h : commitShape st (some plotId) = some shape) :
    (∃ e, lookup shape svg = some e) ∧ shape ≠ "__fstamp__" ++ plotId := by
  unfold commitShape at h
  rw [hsvg] at h
  simp only [keyOf] at h
  split at h
  · cases h
    next hk =>
    exact ⟨Option.isSome_iff_exists.mp hk, plotId_ne_fallback _⟩
  · split at h
    · cases h
      next hk =>
      refine ⟨Option.isSome_iff_exists.mp hk, ?_⟩
      intro e
      have h1 := congrArg String.data e
      simp [String.data_append] at h1
    · split at h
      · cases h
        next hk =>
        refine ⟨Option.isSome_iff_exists.mp hk, ?_⟩
        intro e
        have h1 := congrArg String.data e
        simp [String.data_append] at h1
      · cases h

/-- When the record names its stamp, `hideStamp` hides the resource that
`getStampId` resolves. -/
theorem hideStamp_svg (st : State) (plotId : String) (svg : Svg)
    (hsvg : st.inlineSvg = some svg) (hp : plotId ≠ "")
    (hname : namesStamp st (some plotId) = true) :
    (hideStamp st (some plotId)).inlineSvg =
      some (remove ("__fstamp__" ++ plotId)
        (modify (getStampId st (some plotId)) hideStampEl svg)) := by
  unfold hideStamp getStampId
  rw [hsvg]
  have hk : orStr (some plotId) "" = plotId := by simp [orStr, hp]
  simp only [hk]
  by_cases h1 : truthy (plotRec st (some plotId)).stampNum = true
  · simp only [h1, if_true]
  · have h2 : truthy (plotRec st (some plotId)).plotNum = true := by
      simp only [namesStamp, Bool.or_eq_true] at hname
      exact hname.resolve_left h1
    have h3 : orStr (plotRec st (some plotId)).plotNum "?" =
        orStr (plotRec st (some plotId)).plotNum "1" := by
      cases hv : (plotRec st (some plotId)).plotNum with
      | none => simp [hv, truthy] at h2
      | some v =>
        simp only [hv, truthy, Bool.not_eq_true', beq_eq_false_iff_ne, ne_eq] at h2
        simp [orStr, h2]
    simp only [h1, if_false, h3]


/-- An element that `hideStampEl` has hidden is not rendered. -/
theorem shown_hideStampEl (e : SvgEl) : shown (hideStampEl e) = false := by
  simp [shown, hideStampEl]

/-- An element that `showStampEl` has shown is rendered. -/
theorem shown_showStampEl (e : SvgEl) : shown (showStampEl e) = true := by
  simp [shown, showStampEl]

/-- The stamp id of a plot depends on the `stampNum` and `plotNum` of its
record only. -/
theorem getStampId_congr (st1 st2 : State) (pid : Option String)
    (h1 : (plotRec st1 pid).stampNum = (plotRec st2 pid).stampNum)
    (h2 : (plotRec st1 pid).plotNum = (plotRec st2 pid).plotNum) :
    getStampId st1 pid = getStampId st2 pid := by
  simp only [getStampId, h1, h2]

/-- Writing a status into the registry keeps every record's numbers. -/
theorem plotRec_setStatus (st : State) (pid q : Option String) (w : String) :
    (plotRec (setStatus st q w) pid).stampNum = (plotRec st pid).stampNum ∧
    (plotRec (setStatus st q w) pid).plotNum = (plotRec st pid).plotNum := by
  simp only [plotRec, setStatus, lookup_modify]
  split
  · cases lookup (keyOf pid) st.plotDB <;> simp
  · exact ⟨rfl, rfl⟩

/-- The function `hideStamp` keeps the registry, whatever the plot. -/
theorem plotRec_hideStamp (st : State) (pid q : Option String) :
    plotRec (hideStamp st q) pid = plotRec st pid := by
  simp only [plotRec, hideStamp_plotDB]

/-- The commit of a status without stamp: the shape has the colour and the
stamp of the plot is not visible. -/
theorem commit_hides (st : State) (plotId shape colour w : String) (svg : Svg)
    (hsvg : st.inlineSvg = some svg) (hid : uniqueIds svg) (hp : plotId ≠ "")
    (hshape : commitShape st (some plotId) = some shape)
    (hname : namesStamp st (some plotId) = true) :
    fillOf (setStatus (hideStamp (setFill st shape colour) (some plotId)) (some plotId) w)
      shape = some colour ∧
    stampVisible (setStatus (hideStamp (setFill st shape colour) (some plotId)) (some plotId) w)
      (some plotId) = false := by
  obtain ⟨⟨e, he⟩, hne⟩ := commitShape_spec st plotId shape svg hsvg hshape
  have hk : orStr (some plotId) "" = plotId := by simp [orStr, hp]
  have hsvg1 : (setFill st shape colour).inlineSvg =
      some (modify shape (fun e => { e with fill := some colour }) svg) := by
    simp [setFill, hsvg]
  constructor
  · show fillOf (hideStamp (setFill st shape colour) (some plotId)) shape = some colour
    rw [fillOf_hideStamp _ _ _ (by rw [hk]; exact hne)]
    exact fillOf_setFill st shape colour e (by rw [hsvg]; exact he)
  · have hh := hideStamp_svg (setFill st shape colour) plotId _ hsvg1 hp hname
    have hg : getStampId (setStatus (hideStamp (setFill st shape colour) (some plotId))
        (some plotId) w) (some plotId) = getStampId (setFill st shape colour) (some plotId) := by
      apply getStampId_congr
      · rw [(plotRec_setStatus _ _ _ _).1, plotRec_hideStamp]
      · rw [(plotRec_setStatus _ _ _ _).2, plotRec_hideStamp]
    unfold stampVisible
    rw [hg]
    have hi : (setStatus (hideStamp (setFill st shape colour) (some plotId)) (some plotId)
        w).inlineSvg = (hideStamp (setFill st shape colour) (some plotId)).inlineSvg := rfl
    rw [hi, hh]
    simp only [keyOf]
    have hfb : lookup ("__fstamp__" ++ plotId)
        (remove ("__fstamp__" ++ plotId)
          (modify (getStampId (setFill st shape colour) (some plotId)) hideStampEl
            (modify shape (fun e => { e with fill := some colour }) svg))) = none := by
      apply lookup_remove_self
      rw [modify_keys, modify_keys]
      exact hid
    have hs : getStampId (setFill st shape colour) (some plotId) ≠ "__fstamp__" ++ plotId := by
      unfold getStampId
      exact stampId_ne_fallback _ _
    rw [hfb, lookup_remove_ne _ _ _ hs, lookup_modify]
    simp only [if_true, Option.isSome_none, Bool.or_false]
    cases lookup (getStampId (setFill st shape colour) (some plotId))
        (modify shape (fun e => { e with fill := some colour }) svg) with
    | none => rfl
    | some e1 => simp [shown_hideStampEl]

/-- What `showStamp` does to the document when the record names its stamp: it
hides any stamp first, then shows the stamp resource if there is one, and
otherwise appends a synthesized stamp when it finds a shape to size it by. -/
theorem showStamp_svg (st : State) (plotId : String) (svg : Svg)
    (hsvg : st.inlineSvg = some svg) (hp : plotId ≠ "")
    (hname : namesStamp st (some plotId) = true) :
    (showStamp st (some plotId)).inlineSvg =
      some
        (match lookup (getStampId st (some plotId))
            (remove ("__fstamp__" ++ plotId)
              (modify (getStampId st (some plotId)) hideStampEl svg)) with
         | some _ =>
           modify (getStampId st (some plotId)) showStampEl
             (remove ("__fstamp__" ++ plotId)
               (modify (getStampId st (some plotId)) hideStampEl svg))
         | none =>
           if st.selectedPlot.isSome ||
              (lookup plotId (remove ("__fstamp__" ++ plotId)
                (modify (getStampId st (some plotId)) hideStampEl svg))).isSome then
             remove ("__fstamp__" ++ plotId)
               (modify (getStampId st (some plotId)) hideStampEl svg) ++
               [("__fstamp__" ++ plotId, fallbackStamp)]
           else
             remove ("__fstamp__" ++ plotId)
               (modify (getStampId st (some plotId)) hideStampEl svg)) := by
  have hh := hideStamp_svg st plotId svg hsvg hp hname
  have hg : getStampId (hideStamp st (some plotId)) (some plotId) =
      getStampId st (some plotId) := by
    apply getStampId_congr <;> rw [plotRec_hideStamp]
  have hsel : (hideStamp st (some plotId)).selectedPlot = st.selectedPlot := by
    unfold hideStamp
    split <;> rfl
  unfold showStamp
  have hc : (st.inlineSvg.isNone || !truthy (some plotId)) = false := by
    simp [hsvg, truthy, hp]
  simp only [hc, Bool.false_eq_true, if_false, hg, keyOf]
  generalize hideStamp st (some plotId) = s2 at hh hsel ⊢
  cases h2 : s2.inlineSvg with
  | none => rw [h2] at hh; cases hh
  | some svg2 =>
    rw [h2] at hh
    cases hh
    simp only []
    cases hl : lookup (getStampId st (some plotId))
        (remove ("__fstamp__" ++ plotId)
          (modify (getStampId st (some plotId)) hideStampEl svg)) with
    | some e => simp only []
    | none =>
      simp only [hsel]
      cases hs : st.selectedPlot with
      | some r => simp [h2]
      | none =>
        cases ho : lookup plotId (remove ("__fstamp__" ++ plotId)
            (modify (getStampId st (some plotId)) hideStampEl svg)) with
        | none => simp [h2]
        | some e => simp [h2]

/-- Updating an entry does not change which keys are found. -/
theorem lookup_modify_isSome {α : Type} (k k1 : String) (f : α → α) (l : List (String × α)) :
    (lookup k (modify k1 f l)).isSome = (lookup k l).isSome := by
  rw [lookup_modify]
  split
  · cases lookup k l <;> rfl
  · rfl

/-- The function `showStamp` touches the SVG only. -/
theorem showStamp_plotDB (st : State) (plotId : Option String) :
    (showStamp st plotId).plotDB = st.plotDB := by
  unfold showStamp
  split
  · rfl
  · simp only []
    split
    · exact hideStamp_plotDB st plotId
    · split
      · exact hideStamp_plotDB st plotId
      · split
        · exact hideStamp_plotDB st plotId
        · exact hideStamp_plotDB st plotId

/-- The commit of the status with stamp: the shape has the colour and the stamp
of the plot is visible, as the stamp resource or as a synthesized stamp. -/
theorem commit_shows (st : State) (plotId shape colour w : String) (svg : Svg)
    (hsvg : st.inlineSvg = some svg) (hp : plotId ≠ "")
    (hshape : commitShape st (some plotId) = some shape)
    (hname : namesStamp st (some plotId) = true)
    (href : (lookup (getStampId st (some plotId)) svg).isSome = true ∨
      st.selectedPlot.isSome = true ∨ (lookup plotId svg).isSome = true) :
    fillOf (setStatus (showStamp (setFill st shape colour) (some plotId)) (some plotId) w)
      shape = some colour ∧
    stampVisible (setStatus (showStamp (setFill st shape colour) (some plotId)) (some plotId) w)
      (some plotId) = true := by
  obtain ⟨⟨e, he⟩, hne⟩ := commitShape_spec st plotId shape svg hsvg hshape
  have hsvg1 : (setFill st shape colour).inlineSvg =
      some (modify shape (fun e => { e with fill := some colour }) svg) := by
    simp [setFill, hsvg]
  have hh := showStamp_svg (setFill st shape colour) plotId _ hsvg1 hp hname
  have hg : getStampId (setStatus (showStamp (setFill st shape colour) (some plotId))
      (some plotId) w) (some plotId) = getStampId st (some plotId) := by
    apply getStampId_congr
    · rw [(plotRec_setStatus _ _ _ _).1]
      simp only [plotRec, showStamp_plotDB]
      rfl
    · rw [(plotRec_setStatus _ _ _ _).2]
      simp only [plotRec, showStamp_plotDB]
      rfl
  have hgs : getStampId (setFill st shape colour) (some plotId) = getStampId st (some plotId) :=
    rfl
  have hsel : (setFill st shape colour).selectedPlot = st.selectedPlot := rfl
  rw [hgs, hsel] at hh
  have hs : getStampId st (some plotId) ≠ "__fstamp__" ++ plotId := by
    unfold getStampId
    exact stampId_ne_fallback _ _
  generalize hsid : getStampId st (some plotId) = sid at hh hg hs href
  -- the shape after the fill and the hiding of any stamp
  have hshape2 : ∃ e2, lookup shape (remove ("__fstamp__" ++ plotId)
      (modify sid hideStampEl (modify shape (fun e => { e with fill := some colour }) svg))) =
        some e2 ∧ e2.fill = some colour := by
    rw [lookup_remove_ne _ _ _ hne, lookup_modify, lookup_modify, he]
    simp only [if_true, Option.map_some']
    split
    · exact ⟨_, rfl, rfl⟩
    · exact ⟨_, rfl, rfl⟩
  obtain ⟨e2, he2, hfill2⟩ := hshape2
  have hstamp2 : (lookup sid (remove ("__fstamp__" ++ plotId)
      (modify sid hideStampEl (modify shape (fun e => { e with fill := some colour }) svg)))).isSome
        = (lookup sid svg).isSome := by
    rw [lookup_remove_ne _ _ _ hs, lookup_modify_isSome, lookup_modify_isSome]
  have hover2 : (lookup plotId (remove ("__fstamp__" ++ plotId)
      (modify sid hideStampEl (modify shape (fun e => { e with fill := some colour }) svg)))).isSome
        = (lookup plotId svg).isSome := by
    rw [lookup_remove_ne _ _ _ (plotId_ne_fallback plotId), lookup_modify_isSome,
      lookup_modify_isSome]
  have hi : (setStatus (showStamp (setFill st shape colour) (some plotId)) (some plotId)
      w).inlineSvg = (showStamp (setFill st shape colour) (some plotId)).inlineSvg := rfl
  generalize hsvg2 : remove ("__fstamp__" ++ plotId)
      (modify sid hideStampEl (modify shape (fun e => { e with fill := some colour }) svg)) = svg2
      at hh he2 hstamp2 hover2
  unfold stampVisible fillOf
  rw [hg, hi, hh]
  simp only [keyOf, Option.some_bind]
  cases hl : lookup sid svg2 with
  | some x =>
    simp only []
    constructor
    · rw [lookup_modify, he2]
      split <;> simp [showStampEl, hfill2]
    · rw [lookup_modify]
      simp [hl, shown_showStampEl]
  | none =>
    have hno : (lookup sid svg).isSome = false := by rw [← hstamp2, hl]; rfl
    have hcond : (st.selectedPlot.isSome || (lookup plotId svg2).isSome) = true := by
      rcases href with h | h | h
      · rw [hno] at h; cases h
      · simp [h]
      · rw [hover2]; simp [h]
    simp only [hcond, if_true]
    constructor
    · rw [lookup_append_left _ _ _ e2 he2]
      simpa using hfill2
    · have := lookup_append_isSome ("__fstamp__" ++ plotId) svg2 fallbackStamp
      simp [this]

/-- C11: `applyPlotStatusOnSVG` gives the shape it resolves the free colour for
available, the pending colour for reserved and the sold colour for booked and
for registered; afterwards the stamp of the plot is visible for registered and
not visible for the other three; the three colours are pairwise distinct.
Stated for a plot whose record names its stamp (`stampNum` or `plotNum`), in a
document with unique ids, where a registered plot has a stamp resource or a
shape to size a synthesized stamp by. -/
theorem C11_commit_appearance (st : State) (plotId shape : String) (svg : Svg)
    (hsvg : st.inlineSvg = some svg) (hid : uniqueIds svg) (hp : plotId ≠ "")
    (hshape : commitShape st (some plotId) = some shape)
    (hname : namesStamp st (some plotId) = true)
    (href : (lookup (getStampId st (some plotId)) svg).isSome = true ∨
      st.selectedPlot.isSome = true ∨ (lookup plotId svg).isSome = true) :
    (fillOf (applyPlotStatusOnSVG st (some plotId) "available") shape = some "#2BBCA5" ∧
      stampVisible (applyPlotStatusOnSVG st (some plotId) "available") (some plotId) = false) ∧
    (fillOf (applyPlotStatusOnSVG st (some plotId) "reserved") shape = some "#FFD253" ∧
      stampVisible (applyPlotStatusOnSVG st (some plotId) "reserved") (some plotId) = false) ∧
    (fillOf (applyPlotStatusOnSVG st (some plotId) "booked") shape = some "#F48274" ∧
      stampVisible (applyPlotStatusOnSVG st (some plotId) "booked") (some plotId) = false) ∧
    (fillOf (applyPlotStatusOnSVG st (some plotId) "registered") shape = some "#F48274" ∧
      stampVisible (applyPlotStatusOnSVG st (some plotId) "registered") (some plotId) = true) ∧
    "#2BBCA5" ≠ "#FFD253" ∧ "#2BBCA5" ≠ "#F48274" ∧ "#FFD253" ≠ "#F48274" := by
  refine ⟨?_, ?_, ?_, ?_, by decide, by decide, by decide⟩
  · have e : applyPlotStatusOnSVG st (some plotId) "available" =
        setStatus (hideStamp (setFill st shape "#2BBCA5") (some plotId)) (some plotId)
          "Available" := by
      simp [applyPlotStatusOnSVG, hshape]
    rw [e]
    exact commit_hides st plotId shape _ _ svg hsvg hid hp hshape hname
  · have e : applyPlotStatusOnSVG st (some plotId) "reserved" =
        setStatus (hideStamp (setFill st shape "#FFD253") (some plotId)) (some plotId)
          "reserved" := by
      simp [applyPlotStatusOnSVG, hshape]
    rw [e]
    exact commit_hides st plotId shape _ _ svg hsvg hid hp hshape hname
  · have e : applyPlotStatusOnSVG st (some plotId) "booked" =
        setStatus (hideStamp (setFill st shape "#F48274") (some plotId)) (some plotId)
          "booked" := by
      simp [applyPlotStatusOnSVG, hshape]
    rw [e]
    exact commit_hides st plotId shape _ _ svg hsvg hid hp hshape hname
  · have e : applyPlotStatusOnSVG st (some plotId) "registered" =
        setStatus (showStamp (setFill st shape "#F48274") (some plotId)) (some plotId)
          "Registration Done" := by
      simp [applyPlotStatusOnSVG, hshape]
    rw [e]
    exact commit_shows st plotId shape _ _ svg hsvg hp hshape hname href

/-- C11 on the reserved plot P4 with its stamp resource `stamp-plot-4`. -/
theorem C11_witness_P4 :
    fillOf (applyPlotStatusOnSVG pageReserved (some "P4") "booked") "P4" = some "#F48274" ∧
    stampVisible (applyPlotStatusOnSVG pageReserved (some "P4") "booked") (some "P4") = false ∧
    fillOf (applyPlotStatusOnSVG pageReserved (some "P4") "registered") "P4" = some "#F48274" ∧
    stampVisible (applyPlotStatusOnSVG pageReserved (some "P4") "registered") (some "P4") =
      true :=
  ⟨(C11_commit_appearance pageReserved "P4" "P4"
      [("P4", shapeEl "#FFD253"), ("stamp-plot-4", stampEl false)] rfl (by decide) (by decide)
      (by decide) (by decide) (Or.inl (by decide))).2.2.1.1,
   (C11_commit_appearance pageReserved "P4" "P4"
      [("P4", shapeEl "#FFD253"), ("stamp-plot-4", stampEl false)] rfl (by decide) (by decide)
      (by decide) (by decide) (Or.inl (by decide))).2.2.1.2,
   (C11_commit_appearance pageReserved "P4" "P4"
      [("P4", shapeEl "#FFD253"), ("stamp-plot-4", stampEl false)] rfl (by decide) (by decide)
      (by decide) (by decide) (Or.inl (by decide))).2.2.2.1.1,
   (C11_commit_appearance pageReserved "P4" "P4"
      [("P4", shapeEl "#FFD253"), ("stamp-plot-4", stampEl false)] rfl (by decide) (by decide)
      (by decide) (by decide) (Or.inl (by decide))).2.2.2.1.2⟩

/-- Writing a status into the record of a plot that has one. -/
theorem statusOf_setStatus (st : State) (plotId w : String) (d : PlotRec)
    (hd : lookup plotId st.plotDB = some d) :
    statusOf (setStatus st (some plotId) w) plotId = some w := by
  simp [statusOf, setStatus, keyOf, lookup_modify, hd]

/-- C12, as amended: after a commit of status s for a plot that has a record in
`plotDB` and a shape, the record's status is the registry's word for s: booked
and reserved are written as they are, registered is written as
"Registration Done" and available as "Available". -/
theorem C12_commit_writes_registry_word (st : State) (plotId shape : String) (d : PlotRec)
    (hshape : commitShape st (some plotId) = some shape)
    (hd : lookup plotId st.plotDB = some d) :
    statusOf (applyPlotStatusOnSVG st (some plotId) "booked") plotId = some "booked" ∧
    statusOf (applyPlotStatusOnSVG st (some plotId) "reserved") plotId = some "reserved" ∧
    statusOf (applyPlotStatusOnSVG st (some plotId) "registered") plotId =
      some "Registration Done" ∧
    statusOf (applyPlotStatusOnSVG st (some plotId) "available") plotId = some "Available" := by
  have h1 : ∀ c, lookup plotId (hideStamp (setFill st shape c) (some plotId)).plotDB = some d := by
    intro c
    rw [hideStamp_plotDB]
    exact hd
  have h2 : ∀ c, lookup plotId (showStamp (setFill st shape c) (some plotId)).plotDB = some d := by
    intro c
    rw [showStamp_plotDB]
    exact hd
  refine ⟨?_, ?_, ?_, ?_⟩
  · have e : applyPlotStatusOnSVG st (some plotId) "booked" =
        setStatus (hideStamp (setFill st shape "#F48274") (some plotId)) (some plotId)
          "booked" := by
      simp [applyPlotStatusOnSVG, hshape]
    rw [e]
    exact statusOf_setStatus _ _ _ d (h1 _)
  · have e : applyPlotStatusOnSVG st (some plotId) "reserved" =
        setStatus (hideStamp (setFill st shape "#FFD253") (some plotId)) (some plotId)
          "reserved" := by
      simp [applyPlotStatusOnSVG, hshape]
    rw [e]
    exact statusOf_setStatus _ _ _ d (h1 _)
  · have e : applyPlotStatusOnSVG st (some plotId) "registered" =
        setStatus (showStamp (setFill st shape "#F48274") (some plotId)) (some plotId)
          "Registration Done" := by
      simp [applyPlotStatusOnSVG, hshape]
    rw [e]
    exact statusOf_setStatus _ _ _ d (h2 _)
  · have e : applyPlotStatusOnSVG st (some plotId) "available" =
        setStatus (hideStamp (setFill st shape "#2BBCA5") (some plotId)) (some plotId)
          "Available" := by
      simp [applyPlotStatusOnSVG, hshape]
    rw [e]
    exact statusOf_setStatus _ _ _ d (h1 _)

/-- C12 as amended, on the reserved plot P4. -/
theorem C12_witness_P4 :
    statusOf (applyPlotStatusOnSVG pageReserved (some "P4") "booked") "P4" = some "booked" ∧
    statusOf (applyPlotStatusOnSVG pageReserved (some "P4") "registered") "P4" =
      some "Registration Done" :=
  ⟨(C12_commit_writes_registry_word pageReserved "P4" "P4" (plotWith "reserved" "4")
      (by decide) (by decide)).1,
   (C12_commit_writes_registry_word pageReserved "P4" "P4" (plotWith "reserved" "4")
      (by decide) (by decide)).2.2.1⟩

/-- C12 as stated fails: the commit of registered writes "Registration Done" and
the commit of available writes "Available" into `plotDB`, neither of which is
the status itself; so does the success path of a save (Scenario D answered
with success). -/
theorem C12_counterexample_registry_word :
    statusOf (applyPlotStatusOnSVG pageReserved (some "P4") "registered") "P4" =
      some "Registration Done" ∧
    statusOf (applyPlotStatusOnSVG pageReserved (some "P4") "registered") "P4" ≠
      some "registered" ∧
    statusOf (applyPlotStatusOnSVG pageReserved (some "P4") "available") "P4" =
      some "Available" ∧
    statusOf (applyPlotStatusOnSVG pageReserved (some "P4") "available") "P4" ≠
      some "available" ∧
    statusOf (run ⟨sessionD, [], []⟩ [Op.select "registered", Op.save true,
      Op.respond (Response.ok none)]).st "P4" = some "Registration Done" := by
  decide

/-- The document `hideStamp` produces depends on the document and the registry
only. -/
theorem hideStamp_inlineSvg_congr (s1 s2 : State) (pid : Option String)
    (h1 : s1.inlineSvg = s2.inlineSvg) (h2 : s1.plotDB = s2.plotDB) :
    (hideStamp s1 pid).inlineSvg = (hideStamp s2 pid).inlineSvg := by
  unfold hideStamp
  simp only [plotRec, h2]
  rw [h1]
  cases s2.inlineSvg with
  | none => exact h1
  | some svg => rfl

/-- Whether the stamp of a plot is visible depends on the document and on the
stamp id only. -/
theorem stampVisible_congr (s1 s2 : State) (pid : Option String)
    (h1 : s1.inlineSvg = s2.inlineSvg) (h2 : getStampId s1 pid = getStampId s2 pid) :
    stampVisible s1 pid = stampVisible s2 pid := by
  unfold stampVisible
  rw [h1, h2]

/-- With its radio enabled, `handleStatusRadio("booked")` takes its first
branch. -/
theorem handleStatusRadio_booked (s : State) (h : s.rdoBooked.disabled = false) :
    handleStatusRadio "booked" s =
      hideStamp
        (previewFill
          { clearRadioStyles s with
            currentStatus := some "booked"
            lblBooked := { (clearRadioStyles s).lblBooked with highlighted := true } }
          "#F48274")
        s.currentPlotId := by
  simp [handleStatusRadio, h, clearRadioStyles]

/-- With its radio enabled, `handleStatusRadio("reserved")` takes its second
branch. -/
theorem handleStatusRadio_reserved (s : State) (h : s.rdoReserved.disabled = false) :
    handleStatusRadio "reserved" s =
      hideStamp
        (previewFill
          { clearRadioStyles s with
            currentStatus := some "reserved"
            lblReserved := { (clearRadioStyles s).lblReserved with highlighted := true } }
          "#FFD253")
        s.currentPlotId := by
  simp [handleStatusRadio, h, clearRadioStyles]

/-- With its radio enabled, `handleStatusRadio("registered")` takes its third
branch. -/
theorem handleStatusRadio_registered (s : State) (h : s.rdoRegistered.disabled = false) :
    handleStatusRadio "registered" s =
      hideStamp
        (previewFill
          { clearRadioStyles s with
            currentStatus := some "registered"
            lblRegistered := { (clearRadioStyles s).lblRegistered with highlighted := true } }
          "#F48274")
        s.currentPlotId := by
  simp [handleStatusRadio, h, clearRadioStyles]

/-- The preview of `handleStatusRadio`, for a value whose radio is enabled, in
a session that holds a shape and a plot: the registry is untouched and the
document is the one `hideStamp` leaves after the fill. -/
theorem handleStatusRadio_preview (st : State) (plotId shape : String)
    (hsel : st.selectedPlot = some shape) (hcur : st.currentPlotId = some plotId) :
    (st.rdoAvailable.disabled = false →
      (handleStatusRadio "available" st).plotDB = st.plotDB ∧
      (handleStatusRadio "available" st).inlineSvg =
        (hideStamp (setFill st shape "#2BBCA5") (some plotId)).inlineSvg) ∧
    (st.rdoReserved.disabled = false →
      (handleStatusRadio "reserved" st).plotDB = st.plotDB ∧
      (handleStatusRadio "reserved" st).inlineSvg =
        (hideStamp (setFill st shape "#FFD253") (some plotId)).inlineSvg) ∧
    (st.rdoBooked.disabled = false →
      (handleStatusRadio "booked" st).plotDB = st.plotDB ∧
      (handleStatusRadio "booked" st).inlineSvg =
        (hideStamp (setFill st shape "#F48274") (some plotId)).inlineSvg) ∧
    (st.rdoRegistered.disabled = false →
      (handleStatusRadio "registered" st).plotDB = st.plotDB ∧
      (handleStatusRadio "registered" st).inlineSvg =
        (hideStamp (setFill st shape "#F48274") (some plotId)).inlineSvg) := by
  refine ⟨?_, ?_, ?_, ?_⟩
  · intro h
    rw [handleStatusRadio_available st h]
    simp only [previewFill, clearRadioStyles, hsel, hcur]
    exact ⟨hideStamp_plotDB _ _, hideStamp_inlineSvg_congr _ _ _ rfl rfl⟩
  · intro h
    rw [handleStatusRadio_reserved st h]
    simp only [previewFill, clearRadioStyles, hsel, hcur]
    exact ⟨hideStamp_plotDB _ _, hideStamp_inlineSvg_congr _ _ _ rfl rfl⟩
  · intro h
    rw [handleStatusRadio_booked st h]
    simp only [previewFill, clearRadioStyles, hsel, hcur]
    exact ⟨hideStamp_plotDB _ _, hideStamp_inlineSvg_congr _ _ _ rfl rfl⟩
  · intro h
    rw [handleStatusRadio_registered st h]
    simp only [previewFill, clearRadioStyles, hsel, hcur]
    exact ⟨hideStamp_plotDB _ _, hideStamp_inlineSvg_congr _ _ _ rfl rfl⟩

/-- The stamp id of a plot after a commit that hid the stamp. -/
theorem getStampId_commit_hidden (st : State) (pid : Option String) (shape c w : String) :
    getStampId (setStatus (hideStamp (setFill st shape c) pid) pid w) pid = getStampId st pid := by
  apply getStampId_congr
  · rw [(plotRec_setStatus _ _ _ _).1, plotRec_hideStamp]
    rfl
  · rw [(plotRec_setStatus _ _ _ _).2, plotRec_hideStamp]
    rfl

/-- The stamp id of a plot does not depend on anything but the registry. -/
theorem getStampId_plotDB (s1 s2 : State) (pid : Option String) (h : s1.plotDB = s2.plotDB) :
    getStampId s1 pid = getStampId s2 pid := by
  simp only [getStampId, plotRec, h]

/-- C13, as amended: in a session whose selected shape is the shape the commit
resolves, the preview (`handleStatusRadio`) and the commit
(`applyPlotStatusOnSVG`) of available, reserved or booked leave the same
document, hence the same fill, and the same stamp visibility; for registered
they give the shape the same fill, but the preview leaves the stamp hidden and
only the commit makes it visible. -/
theorem C13_preview_matches_commit_but_stamp (st : State) (plotId shape : String) (svg : Svg)
    (hsvg : st.inlineSvg = some svg) (hid : uniqueIds svg) (hp : plotId ≠ "")
    (hsel : st.selectedPlot = some shape) (hcur : st.currentPlotId = some plotId)
    (hshape : commitShape st (some plotId) = some shape)
    (hname : namesStamp st (some plotId) = true) :
    (st.rdoAvailable.disabled = false →
      (handleStatusRadio "available" st).inlineSvg =
        (applyPlotStatusOnSVG st (some plotId) "available").inlineSvg ∧
      stampVisible (handleStatusRadio "available" st) (some plotId) =
        stampVisible (applyPlotStatusOnSVG st (some plotId) "available") (some plotId)) ∧
    (st.rdoReserved.disabled = false →
      (handleStatusRadio "reserved" st).inlineSvg =
        (applyPlotStatusOnSVG st (some plotId) "reserved").inlineSvg ∧
      stampVisible (handleStatusRadio "reserved" st) (some plotId) =
        stampVisible (applyPlotStatusOnSVG st (some plotId) "reserved") (some plotId)) ∧
    (st.rdoBooked.disabled = false →
      (handleStatusRadio "booked" st).inlineSvg =
        (applyPlotStatusOnSVG st (some plotId) "booked").inlineSvg ∧
      stampVisible (handleStatusRadio "booked" st) (some plotId) =
        stampVisible (applyPlotStatusOnSVG st (some plotId) "booked") (some plotId)) ∧
    (st.rdoRegistered.disabled = false →
      fillOf (handleStatusRadio "registered" st) shape =
        fillOf (applyPlotStatusOnSVG st (some plotId) "registered") shape ∧
      stampVisible (handleStatusRadio "registered" st) (some plotId) = false ∧
      stampVisible (applyPlotStatusOnSVG st (some plotId) "registered") (some plotId) = true) := by
  obtain ⟨pa, pr, pb, pg⟩ := handleStatusRadio_preview st plotId shape hsel hcur
  refine ⟨?_, ?_, ?_, ?_⟩
  · intro h
    obtain ⟨hdb, hdoc⟩ := pa h
    have e : applyPlotStatusOnSVG st (some plotId) "available" =
        setStatus (hideStamp (setFill st shape "#2BBCA5") (some plotId)) (some plotId)
          "Available" := by
      simp [applyPlotStatusOnSVG, hshape]
    rw [e]
    refine ⟨hdoc, stampVisible_congr _ _ _ hdoc ?_⟩
    rw [getStampId_commit_hidden]
    exact getStampId_plotDB _ _ _ hdb
  · intro h
    obtain ⟨hdb, hdoc⟩ := pr h
    have e : applyPlotStatusOnSVG st (some plotId) "reserved" =
        setStatus (hideStamp (setFill st shape "#FFD253") (some plotId)) (some plotId)
          "reserved" := by
      simp [applyPlotStatusOnSVG, hshape]
    rw [e]
    refine ⟨hdoc, stampVisible_congr _ _ _ hdoc ?_⟩
    rw [getStampId_commit_hidden]
    exact getStampId_plotDB _ _ _ hdb
  · intro h
    obtain ⟨hdb, hdoc⟩ := pb h
    have e : applyPlotStatusOnSVG st (some plotId) "booked" =
        setStatus (hideStamp (setFill st shape "#F48274") (some plotId)) (some plotId)
          "booked" := by
      simp [applyPlotStatusOnSVG, hshape]
    rw [e]
    refine ⟨hdoc, stampVisible_congr _ _ _ hdoc ?_⟩
    rw [getStampId_commit_hidden]
    exact getStampId_plotDB _ _ _ hdb
  · intro h
    obtain ⟨hdb, hdoc⟩ := pg h
    have e : applyPlotStatusOnSVG st (some plotId) "registered" =
        setStatus (showStamp (setFill st shape "#F48274") (some plotId)) (some plotId)
          "Registration Done" := by
      simp [applyPlotStatusOnSVG, hshape]
    rw [e]
    obtain ⟨hf1, hv1⟩ := commit_hides st plotId shape "#F48274" "booked" svg hsvg hid hp hshape
      hname
    obtain ⟨hf2, hv2⟩ := commit_shows st plotId shape "#F48274" "Registration Done" svg hsvg hp
      hshape hname (Or.inr (Or.inl (by simp [hsel])))
    have hdoc2 : (handleStatusRadio "registered" st).inlineSvg =
        (setStatus (hideStamp (setFill st shape "#F48274") (some plotId)) (some plotId)
          "booked").inlineSvg := hdoc
    refine ⟨?_, ?_, hv2⟩
    · rw [hf2]
      unfold fillOf at hf1 ⊢
      rw [hdoc2]
      exact hf1
    · rw [stampVisible_congr _ _ _ hdoc2 ?_]
      · exact hv1
      · rw [getStampId_commit_hidden]
        exact getStampId_plotDB _ _ _ hdb

/-- C13 as amended, on the reserved plot P4 of Scenario D: booked previews as
it commits, registered previews without the stamp. -/
theorem C13_witness_P4 :
    (handleStatusRadio "booked" sessionD).inlineSvg =
      (applyPlotStatusOnSVG sessionD (some "P4") "booked").inlineSvg ∧
    stampVisible (handleStatusRadio "registered" sessionD) (some "P4") = false ∧
    stampVisible (applyPlotStatusOnSVG sessionD (some "P4") "registered") (some "P4") = true :=
  ⟨((C13_preview_matches_commit_but_stamp sessionD "P4" "P4"
      [("P4", shapeEl "#FFD253"), ("stamp-plot-4", stampEl false)] (by decide) (by decide)
      (by decide) (by decide) (by decide) (by decide) (by decide)).2.2.1 (by decide)).1,
   ((C13_preview_matches_commit_but_stamp sessionD "P4" "P4"
      [("P4", shapeEl "#FFD253"), ("stamp-plot-4", stampEl false)] (by decide) (by decide)
      (by decide) (by decide) (by decide) (by decide) (by decide)).2.2.2 (by decide)).2.1,
   ((C13_preview_matches_commit_but_stamp sessionD "P4" "P4"
      [("P4", shapeEl "#FFD253"), ("stamp-plot-4", stampEl false)] (by decide) (by decide)
      (by decide) (by decide) (by decide) (by decide) (by decide)).2.2.2 (by decide)).2.2⟩

/-- C13 as stated fails for registered: on the reserved plot P4 of Scenario D
the preview of registered leaves the stamp hidden, the commit of registered
shows it. -/
theorem C13_counterexample_registered_stamp :
    sessionD.rdoRegistered.disabled = false ∧
    stampVisible (handleStatusRadio "registered" sessionD) (some "P4") = false ∧
    stampVisible (applyPlotStatusOnSVG sessionD (some "P4") "registered") (some "P4") = true ∧
    stampVisible (run ⟨sessionD, [], []⟩ [Op.select "registered"]).st (some "P4") = false ∧
    stampVisible (run ⟨sessionD, [], []⟩ [Op.select "registered", Op.save true,
      Op.respond (Response.ok none)]).st (some "P4") = true := by
  decide

/-- The shape the commit resolves depends on the document and the registry
only. -/
theorem commitShape_congr (s1 s2 : State) (pid : Option String)
    (h1 : s1.inlineSvg = s2.inlineSvg) (h2 : s1.plotDB = s2.plotDB) :
    commitShape s1 pid = commitShape s2 pid := by
  simp only [commitShape, plotRec, h1, h2]

/-- With available selected, a customer id held and the confirmation given,
the save handler sends the delete and only disables its button. -/
theorem saveCustClick_delete (st : State) (hav : selectedStatusOf st = "available")
    (hcust : truthy st.editCustomerId = true) :
    saveCustClick st true =
      ({ st with btnSaveCust := { disabled := true, textContent := "⏳ Deleting customer..." } },
        some (Request.del (orStr st.editCustomerId ""), Pending.deleting)) := by
  simp [saveCustClick, hav, hcust]

/-- C18: after a confirmed delete whose request succeeds, the shape of the plot
under edit has the free colour, the stamp of the plot is not visible, the
customer list is the reloaded one (empty when the reload failed), and the
session is closed: popup hidden, no plot under edit, no pending status, no
selected shape.  Stated for a plot whose record names its stamp, in a document
with unique ids. -/
theorem C18_delete_success (st : State) (plotId shape : String) (svg : Svg)
    (reload : Option (List CustData))
    (hav : selectedStatusOf st = "available") (hcust : truthy st.editCustomerId = true)
    (hcur : st.currentPlotId = some plotId)
    (hsvg : st.inlineSvg = some svg) (hid : uniqueIds svg) (hp : plotId ≠ "")
    (hshape : commitShape st (some plotId) = some shape)
    (hname : namesStamp st (some plotId) = true) :
    (saveCustClick st true).2 = some (Request.del (orStr st.editCustomerId ""), Pending.deleting) ∧
    fillOf (saveCustResume (saveCustClick st true).1 Pending.deleting (Response.ok reload))
      shape = some "#2BBCA5" ∧
    stampVisible (saveCustResume (saveCustClick st true).1 Pending.deleting (Response.ok reload))
      (some plotId) = false ∧
    (saveCustResume (saveCustClick st true).1 Pending.deleting
      (Response.ok reload)).customerStore = reload.getD [] ∧
    (saveCustResume (saveCustClick st true).1 Pending.deleting
      (Response.ok reload)).popupShow = false ∧
    (saveCustResume (saveCustClick st true).1 Pending.deleting
      (Response.ok reload)).currentPlotId = none ∧
    (saveCustResume (saveCustClick st true).1 Pending.deleting
      (Response.ok reload)).currentStatus = none ∧
    (saveCustResume (saveCustClick st true).1 Pending.deleting
      (Response.ok reload)).selectedPlot = none := by
  rw [saveCustClick_delete st hav hcust]
  simp only []
  generalize hs0 : ({ st with btnSaveCust :=
    { disabled := true, textContent := "⏳ Deleting customer..." } } : State) = s0
  have h0svg : s0.inlineSvg = some svg := by rw [← hs0]; exact hsvg
  have h0db : s0.plotDB = st.plotDB := by rw [← hs0]
  have h0cur : s0.currentPlotId = some plotId := by rw [← hs0]; exact hcur
  have hr : saveCustResume s0 Pending.deleting (Response.ok reload) =
      { showToast (loadCustomers (applyPlotStatusOnSVG (endSession s0) s0.currentPlotId
          "available") reload) "✅ Customer deleted — Plot is now Available" with
        btnSaveCust := { disabled := false, textContent := "💾 Update Customer Details" } } := rfl
  rw [hr, h0cur]
  have hXsvg : (endSession s0).inlineSvg = some svg := h0svg
  have hXdb : (endSession s0).plotDB = st.plotDB := h0db
  have hXsess : (endSession s0).popupShow = false ∧ (endSession s0).currentPlotId = none ∧
      (endSession s0).currentStatus = none ∧ (endSession s0).selectedPlot = none :=
    ⟨rfl, rfl, rfl, rfl⟩
  generalize endSession s0 = X at hXsvg hXdb hXsess ⊢
  have hXshape : commitShape X (some plotId) = some shape := by
    rw [commitShape_congr X st (some plotId) (by rw [hXsvg, hsvg]) hXdb]
    exact hshape
  have hXname : namesStamp X (some plotId) = true := by
    simp only [namesStamp, plotRec, hXdb]
    exact hname
  have e : applyPlotStatusOnSVG X (some plotId) "available" =
      setStatus (hideStamp (setFill X shape "#2BBCA5") (some plotId)) (some plotId)
        "Available" := by
    simp [applyPlotStatusOnSVG, hXshape]
  rw [e]
  obtain ⟨hf, hv⟩ := commit_hides X plotId shape "#2BBCA5" "Available" svg hXsvg hid hp hXshape
    hXname
  have hsess : (hideStamp (setFill X shape "#2BBCA5") (some plotId)).popupShow = false ∧
      (hideStamp (setFill X shape "#2BBCA5") (some plotId)).currentPlotId = none ∧
      (hideStamp (setFill X shape "#2BBCA5") (some plotId)).currentStatus = none ∧
      (hideStamp (setFill X shape "#2BBCA5") (some plotId)).selectedPlot = none := by
    unfold hideStamp
    split <;> exact hXsess
  exact ⟨trivial, hf, hv, rfl, hsess.1, hsess.2.1, hsess.2.2.1, hsess.2.2.2⟩

/-- C18 on Scenario C: the customer of the booked plot P2 is deleted. -/
theorem C18_witness_scenario_C :
    fillOf (run ⟨sessionC, [], []⟩ [Op.select "available", Op.save true,
      Op.respond (Response.ok (some []))]).st "P2" = some "#2BBCA5" ∧
    fillOf (saveCustResume (saveCustClick
        (step ⟨sessionC, [], []⟩ (Op.select "available")).st true).1 Pending.deleting
      (Response.ok (some []))) "P2" = some "#2BBCA5" ∧
    stampVisible (saveCustResume (saveCustClick
        (step ⟨sessionC, [], []⟩ (Op.select "available")).st true).1 Pending.deleting
      (Response.ok (some []))) (some "P2") = false ∧
    (saveCustResume (saveCustClick
        (step ⟨sessionC, [], []⟩ (Op.select "available")).st true).1 Pending.deleting
      (Response.ok (some []))).popupShow = false :=
  ⟨by decide,
   (C18_delete_success (step ⟨sessionC, [], []⟩ (Op.select "available")).st "P2" "P2"
      [("P2", shapeEl "#2BBCA5"), ("stamp-plot-2", stampEl false)] (some [])
      (by decide) (by decide) (by decide) (by decide) (by decide) (by decide) (by decide)
      (by decide)).2.1,
   (C18_delete_success (step ⟨sessionC, [], []⟩ (Op.select "available")).st "P2" "P2"
      [("P2", shapeEl "#2BBCA5"), ("stamp-plot-2", stampEl false)] (some [])
      (by decide) (by decide) (by decide) (by decide) (by decide) (by decide) (by decide)
      (by decide)).2.2.1,
   (C18_delete_success (step ⟨sessionC, [], []⟩ (Op.select "available")).st "P2" "P2"
      [("P2", shapeEl "#2BBCA5"), ("stamp-plot-2", stampEl false)] (some [])
      (by decide) (by decide) (by decide) (by decide) (by decide) (by decide) (by decide)
      (by decide)).2.2.2.2.1⟩

/-- C19 fails on Scenario C with a failing server: P2 is booked and drawn in
the sold colour; available is selected (the shape takes the free colour), the
delete is confirmed, sent and fails; the failure is reported and the popup is
still open, but the shape keeps the free colour although the registry still
says booked. -/
theorem C19_failed_delete_leaves_preview :
    fillOf sessionC "P2" = some "#F48274" ∧
    (run ⟨sessionC, [], []⟩ [Op.select "available", Op.save true,
      Op.respond (Response.failed "network error")]).log = [Request.del "3"] ∧
    fillOf (run ⟨sessionC, [], []⟩ [Op.select "available", Op.save true,
      Op.respond (Response.failed "network error")]).st "P2" = some "#2BBCA5" ∧
    statusOf (run ⟨sessionC, [], []⟩ [Op.select "available", Op.save true,
      Op.respond (Response.failed "network error")]).st "P2" = some "booked" ∧
    (run ⟨sessionC, [], []⟩ [Op.select "available", Op.save true,
      Op.respond (Response.failed "network error")]).st.toast =
      "❌ Failed to delete customer: network error" ∧
    (run ⟨sessionC, [], []⟩ [Op.select "available", Op.save true,
      Op.respond (Response.failed "network error")]).st.popupShow = true := by
  decide

/-- A decimal digit is not white space. -/
theorem digit_not_whitespace (c : Char) (h : c.isDigit = true) : c.isWhitespace = false := by
  simp only [Char.isDigit, Bool.and_eq_true, decide_eq_true_eq] at h
  simp only [Char.isWhitespace, Bool.or_eq_false_iff, decide_eq_false_iff_not]
  have h1 : 48 ≤ c.val.toNat := by
    have := h.1
    exact this
  refine ⟨⟨⟨?_, ?_⟩, ?_⟩, ?_⟩ <;> intro e <;> subst e <;> revert h1 <;> decide

/-- Trimming leaves a string of digits as it is. -/
theorem jsTrim_digits (l : List Char) (h : ∀ c ∈ l, c.isDigit = true) :
    jsTrim ⟨l⟩ = ⟨l⟩ := by
  have hd : ∀ l : List Char, (∀ c ∈ l, c.isDigit = true) → l.dropWhile Char.isWhitespace = l := by
    intro l hl
    cases l with
    | nil => rfl
    | cons a t =>
      have := digit_not_whitespace a (hl a (List.mem_cons_self _ _))
      simp [List.dropWhile, this]
  unfold jsTrim
  simp only []
  rw [hd l h, hd l.reverse (fun c hc => h c (List.mem_reverse.mp hc)), List.reverse_reverse]

/-- What the phone input holds after typing passes the length check of the
save handler exactly when it consists of ten digits. -/
theorem typed_phone_check (v : String) :
    jsTrim (enforcePhoneInput v) = enforcePhoneInput v ∧
    ((enforcePhoneInput v).length = 10 ↔ isTenDigits (enforcePhoneInput v) = true) := by
  have hall : ∀ c ∈ (v.data.filter Char.isDigit).take 10, c.isDigit = true := by
    intro c hc
    have := List.mem_of_mem_take hc
    exact (List.mem_filter.mp this).2
  constructor
  · exact jsTrim_digits _ hall
  · simp only [enforcePhoneInput, isTenDigits, String.length, Bool.and_eq_true, beq_iff_eq,
      List.all_eq_true]
    constructor
    · intro h
      exact ⟨h, hall⟩
    · intro h
      exact h.1

/-- A click on the enabled save button of the open popup that sends nothing
leaves the log and the suspended handlers as they are. -/
theorem step_save_nothing (st : State) (pending : List Pending) (log : List Request)
    (confirmed : Bool) (h : (saveCustClick st confirmed).2 = none) :
    (step ⟨st, pending, log⟩ (Op.save confirmed)).log = log ∧
    (step ⟨st, pending, log⟩ (Op.save confirmed)).pending = pending := by
  simp only [step]
  split
  · exact ⟨rfl, rfl⟩
  · split
    · exact ⟨rfl, rfl⟩
    · next heq => rw [heq] at h; cases h

/-- A click on the enabled save button of the open popup that sends a request
adds exactly that request to the log and suspends one handler. -/
theorem step_save_sends (st : State) (pending : List Pending) (log : List Request)
    (confirmed : Bool) (req : Request) (p : Pending)
    (hopen : st.popupShow = true) (hbtn : st.btnSaveCust.disabled = false)
    (h : (saveCustClick st confirmed).2 = some (req, p)) :
    (step ⟨st, pending, log⟩ (Op.save confirmed)).log = log ++ [req] ∧
    (step ⟨st, pending, log⟩ (Op.save confirmed)).pending = pending ++ [p] := by
  have hg : (!isOpen st || st.btnSaveCust.disabled) = false := by
    simp [isOpen, hopen, hbtn]
  simp only [step, hg, Bool.false_eq_true, if_false]
  split
  · next heq => rw [heq] at h; cases h
  · next heq =>
    rw [heq] at h
    cases h
    exact ⟨rfl, rfl⟩

/-- C14: a save with a selected status other than available sends no request
and changes nothing but the toast (so the session, `plotDB` and the SVG are
as before) whenever the trimmed name is empty, or no status is selected, or
the phone is non-empty and malformed: its trimmed length is not 10, or it
was typed into the phone input and does not consist of ten digits.  The
click leaves the request log as it is. -/
theorem C14_validation_blocks (st : State) (confirmed : Bool)
    (h0 : selectedStatusOf st ≠ "available")
    (h : jsTrim st.custName.value = "" ∨ selectedStatusOf st = "" ∨
      (jsTrim st.custPhone.value ≠ "" ∧ (jsTrim st.custPhone.value).length ≠ 10) ∨
      (∃ v, st.custPhone.value = enforcePhoneInput v ∧ st.custPhone.value ≠ "" ∧
        isTenDigits st.custPhone.value = false)) :
    (saveCustClick st confirmed).2 = none ∧
    (saveCustClick st confirmed).1 =
      { st with toast := (saveCustClick st confirmed).1.toast } ∧
    (saveCustClick st confirmed).1.plotDB = st.plotDB ∧
    (saveCustClick st confirmed).1.inlineSvg = st.inlineSvg ∧
    (saveCustClick st confirmed).1.popupShow = st.popupShow ∧
    (∀ pending log, (step ⟨st, pending, log⟩ (Op.save confirmed)).log = log ∧
      (step ⟨st, pending, log⟩ (Op.save confirmed)).pending = pending) := by
  have hav : (selectedStatusOf st == "available") = false := by simpa using h0
  have h : jsTrim st.custName.value = "" ∨ selectedStatusOf st = "" ∨
      (jsTrim st.custPhone.value ≠ "" ∧ (jsTrim st.custPhone.value).length ≠ 10) := by
    rcases h with h | h | h | ⟨v, hv, hne, hten⟩
    · exact Or.inl h
    · exact Or.inr (Or.inl h)
    · exact Or.inr (Or.inr h)
    · obtain ⟨t1, t2⟩ := typed_phone_check v
      rw [← hv] at t1 t2
      refine Or.inr (Or.inr ⟨by rw [t1]; exact hne, ?_⟩)
      rw [t1]
      intro hl
      rw [t2.mp hl] at hten
      cases hten
  have key : (saveCustClick st confirmed).2 = none ∧
      ∃ msg, (saveCustClick st confirmed).1 = showToast st msg := by
    unfold saveCustClick
    simp only [hav, Bool.false_eq_true, if_false, buildPayload]
    by_cases hn : jsTrim st.custName.value = ""
    · simp only [hn, beq_self_eq_true, if_true]
      exact ⟨trivial, _, rfl⟩
    · have hn' : (jsTrim st.custName.value == "") = false := by simpa using hn
      simp only [hn', Bool.false_eq_true, if_false]
      by_cases hs : selectedStatusOf st = ""
      · simp only [hs, beq_self_eq_true, if_true]
        exact ⟨trivial, _, rfl⟩
      · have hs' : (selectedStatusOf st == "") = false := by simpa using hs
        simp only [hs', Bool.false_eq_true, if_false]
        obtain ⟨hp1, hp2⟩ := (h.resolve_left hn).resolve_left hs
        have hc : (!(jsTrim st.custPhone.value == "") &&
            !((jsTrim st.custPhone.value).length == 10)) = true := by
          simp [hp1, hp2]
        simp only [hc, if_true]
        exact ⟨trivial, _, rfl⟩
  obtain ⟨k1, msg, k2⟩ := key
  refine ⟨k1, ?_, ?_, ?_, ?_, ?_⟩
  · rw [k2]; rfl
  · rw [k2]; rfl
  · rw [k2]; rfl
  · rw [k2]; rfl
  · intro pending log
    exact step_save_nothing st pending log confirmed k1

/-- C14 on Scenario A with the name left empty and a phone of nine digits:
nothing is sent in either case. -/
theorem C14_witness_scenario_A :
    (saveCustClick (run ⟨handleActivate pageA "P1" (FetchResult.found none) "2026-01-01",
        [], []⟩ [Op.select "booked"]).st true).2 = none ∧
    (saveCustClick (run ⟨handleActivate pageA "P1" (FetchResult.found none) "2026-01-01",
        [], []⟩ [Op.select "booked", Op.typeName "A Kumar", Op.typePhone "987654321"]).st
      true).2 = none :=
  ⟨(C14_validation_blocks _ true (by decide) (Or.inl (by decide))).1,
   (C14_validation_blocks _ true (by decide)
      (Or.inr (Or.inr (Or.inr ⟨"987654321", by decide, by decide, by decide⟩)))).1⟩

/-- C15 fails for a phone that did not come through the input filter: the
server holds the ten-character phone "98765-4321" for the customer of P2;
`openPopup` puts it into the field, and the save passes validation and sends
it, although it does not consist of ten digits.  What the operator types is
filtered by `enforcePhone`, which would have kept the digits only. -/
theorem C15_ten_characters_pass :
    sessionDashedPhone.custPhone.value = "98765-4321" ∧
    isTenDigits "98765-4321" = false ∧
    (saveCustClick sessionDashedPhone true).2 =
      some (Request.put "3"
        { customerName := "C Devi", customerPhone := "98765-4321", mediator := "",
          commission := "", bookingAmount := "", closureDate := "", status := "booked",
          installments := [], plotKey := none }, Pending.saving "booked") ∧
    (run ⟨sessionDashedPhone, [], []⟩ [Op.save true]).log.length = 1 ∧
    enforcePhoneInput "98765-4321" = "987654321" := by
  decide

/-- C16: a save that passes validation with a status other than available
sends exactly one request: `PUT customers/{id}` when the mode is edit and a
customer id is held, otherwise `POST customers` with the plot under edit as
`plotKey`; the payload's status is the selected status, its name and phone
are the trimmed field values; the click adds that one request to the log. -/
theorem C16_one_upsert (st : State) (confirmed : Bool)
    (h0 : selectedStatusOf st ≠ "available") (h1 : selectedStatusOf st ≠ "")
    (hn : jsTrim st.custName.value ≠ "")
    (hp : jsTrim st.custPhone.value = "" ∨ (jsTrim st.custPhone.value).length = 10) :
    (saveCustClick st confirmed).2 =
      some
        (if st.popupMode = "edit" ∧ truthy st.editCustomerId = true then
            Request.put (orStr st.editCustomerId "") (buildPayload st (selectedStatusOf st))
          else
            Request.post
              { buildPayload st (selectedStatusOf st) with plotKey := some st.currentPlotId },
          Pending.saving (selectedStatusOf st)) ∧
    (buildPayload st (selectedStatusOf st)).status = selectedStatusOf st ∧
    (buildPayload st (selectedStatusOf st)).customerName = jsTrim st.custName.value ∧
    (buildPayload st (selectedStatusOf st)).customerPhone = jsTrim st.custPhone.value ∧
    (∀ pending log, st.popupShow = true → st.btnSaveCust.disabled = false →
      (step ⟨st, pending, log⟩ (Op.save confirmed)).log =
        log ++
          [if st.popupMode = "edit" ∧ truthy st.editCustomerId = true then
              Request.put (orStr st.editCustomerId "") (buildPayload st (selectedStatusOf st))
            else
              Request.post
                { buildPayload st (selectedStatusOf st) with
                  plotKey := some st.currentPlotId }]) := by
  have hav : (selectedStatusOf st == "available") = false := by simpa using h0
  have hs' : (selectedStatusOf st == "") = false := by simpa using h1
  have hn' : ((buildPayload st (selectedStatusOf st)).customerName == "") = false := by
    simpa [buildPayload] using hn
  have hc : (!((buildPayload st (selectedStatusOf st)).customerPhone == "") &&
      !((buildPayload st (selectedStatusOf st)).customerPhone.length == 10)) = false := by
    rcases hp with hp | hp <;> simp [buildPayload, hp]
  have key : (saveCustClick st confirmed).2 =
      some
        (if st.popupMode = "edit" ∧ truthy st.editCustomerId = true then
            Request.put (orStr st.editCustomerId "") (buildPayload st (selectedStatusOf st))
          else
            Request.post
              { buildPayload st (selectedStatusOf st) with plotKey := some st.currentPlotId },
          Pending.saving (selectedStatusOf st)) := by
    unfold saveCustClick
    simp only [hav, hs', hn', hc, Bool.false_eq_true, if_false]
    by_cases hm : st.popupMode = "edit" ∧ truthy st.editCustomerId = true
    · have hm' : (st.popupMode == "edit" && truthy st.editCustomerId) = true := by
        simp [hm.1, hm.2]
      rw [if_pos hm]
      simp only [hm', if_true]
    · have hm' : (st.popupMode == "edit" && truthy st.editCustomerId) = false := by
        rw [Bool.and_eq_false_iff]
        by_cases hq : st.popupMode = "edit"
        · right
          simpa using fun e => hm ⟨hq, e⟩
        · left
          simpa using hq
      rw [if_neg hm]
      simp only [hm', Bool.false_eq_true, if_false]
  refine ⟨key, rfl, rfl, rfl, ?_⟩
  intro pending log hopen hbtn
  exact (step_save_sends st pending log confirmed _ _ hopen hbtn key).1

/-- C16 on Scenario A: the available plot P1, booked, "A Kumar", "9876543210"
gives one create call that carries P1 as `plotKey`. -/
theorem C16_witness_scenario_A :
    (saveCustClick sessionA true).2 =
      some
        (Request.post
          { customerName := "A Kumar", customerPhone := "9876543210", mediator := "",
            commission := "", bookingAmount := "", closureDate := "", status := "booked",
            installments := [], plotKey := some (some "P1") },
          Pending.saving "booked") ∧
    (step ⟨sessionA, [], []⟩ (Op.save true)).log =
      [Request.post
        { customerName := "A Kumar", customerPhone := "9876543210", mediator := "",
          commission := "", bookingAmount := "", closureDate := "", status := "booked",
          installments := [], plotKey := some (some "P1") }] :=
  ⟨(C16_one_upsert sessionA true (by decide) (by decide) (by decide)
      (Or.inr (by decide))).1.trans (by decide),
   ((C16_one_upsert sessionA true (by decide) (by decide) (by decide)
      (Or.inr (by decide))).2.2.2.2 [] [] (by decide) (by decide)).trans (by decide)⟩

/-- C17: with available selected, the save handler sends `DELETE
customers/{id}` exactly when a customer id is held and the operator
confirms, and it sends nothing else; what it sends does not depend on the
customer fields or the installment rows (they are neither validated nor
sent); without a customer id only the toast changes, and without the
confirmation nothing changes at all. -/
theorem C17_available_is_delete (st : State) (confirmed : Bool)
    (hav : selectedStatusOf st = "available") :
    ((saveCustClick st confirmed).2 =
        some (Request.del (orStr st.editCustomerId ""), Pending.deleting) ↔
      (truthy st.editCustomerId = true ∧ confirmed = true)) ∧
    (¬ (truthy st.editCustomerId = true ∧ confirmed = true) →
      (saveCustClick st confirmed).2 = none ∧
      (saveCustClick st confirmed).1 =
        { st with toast := (saveCustClick st confirmed).1.toast }) ∧
    (truthy st.editCustomerId = true → confirmed = false →
      saveCustClick st confirmed = (st, none)) ∧
    (∀ (name phone medSel medOther price amount closure : Field) (rows : List InstRow),
      (saveCustClick
        { st with
          custName := name, custPhone := phone, mediatorSel := medSel,
          mediatorOther := medOther, bookingPrice := price, custMedAmount := amount,
          closureDate := closure, instList := rows } confirmed).2 =
        (saveCustClick st confirmed).2) := by
  have hav' : (selectedStatusOf st == "available") = true := by simp [hav]
  refine ⟨?_, ?_, ?_, ?_⟩
  · unfold saveCustClick
    simp only [hav', if_true]
    by_cases hc : truthy st.editCustomerId = true
    · cases confirmed <;> simp [hc]
    · simp [hc, showToast]
  · intro hno
    unfold saveCustClick
    simp only [hav', if_true]
    by_cases hc : truthy st.editCustomerId = true
    · have hf : confirmed = false := by
        cases confirmed
        · rfl
        · exact absurd ⟨hc, rfl⟩ hno
      simp [hc, hf]
    · simp [hc, showToast]
  · intro hc hf
    unfold saveCustClick
    simp [hav', hc, hf]
  · intro name phone medSel medOther price amount closure rows
    have hav2 : (selectedStatusOf
        { st with
          custName := name, custPhone := phone, mediatorSel := medSel,
          mediatorOther := medOther, bookingPrice := price, custMedAmount := amount,
          closureDate := closure, instList := rows } == "available") = true := hav'
    unfold saveCustClick
    simp only [hav', hav2, if_true, showToast, apply_ite Prod.snd]

/-- C17 on Scenario C: with available selected and customer 3 held, the
confirmed save sends the delete of customer 3 and the unconfirmed save sends
nothing. -/
theorem C17_witness_scenario_C :
    (saveCustClick (step ⟨sessionC, [], []⟩ (Op.select "available")).st true).2 =
      some (Request.del "3", Pending.deleting) ∧
    saveCustClick (step ⟨sessionC, [], []⟩ (Op.select "available")).st false =
      ((step ⟨sessionC, [], []⟩ (Op.select "available")).st, none) :=
  ⟨((C17_available_is_delete (step ⟨sessionC, [], []⟩ (Op.select "available")).st true
      (by decide)).1.mpr ⟨by decide, rfl⟩).trans (by decide),
   (C17_available_is_delete (step ⟨sessionC, [], []⟩ (Op.select "available")).st false
      (by decide)).2.2.1 (by decide) rfl⟩

/-- The controls `showEditBanner` locks in a session opened on a fetched
record: each is disabled exactly when the record's status is registered. -/
theorem populateEdit_locks (s0 : State) (cust : CustData) (today : String) :
    (populateEdit cust today s0).custName.disabled = (cust.status == some "registered") ∧
    (populateEdit cust today s0).custPhone.disabled = (cust.status == some "registered") ∧
    (populateEdit cust today s0).mediatorSel.disabled = (cust.status == some "registered") ∧
    (populateEdit cust today s0).mediatorOther.disabled = (cust.status == some "registered") ∧
    (populateEdit cust today s0).bookingPrice.disabled = (cust.status == some "registered") ∧
    (populateEdit cust today s0).custMedAmount.disabled = (cust.status == some "registered") ∧
    (populateEdit cust today s0).closureDate.disabled = (cust.status == some "registered") ∧
    (populateEdit cust today s0).btnAddInstDisabled = (cust.status == some "registered") ∧
    (populateEdit cust today s0).btnSaveCust.disabled = (cust.status == some "registered") := by
  by_cases hreg : (cust.status == some "registered") = true
  · simp [populateEdit, showEditBanner, setFieldsDisabled, hreg]
  · have hf : (cust.status == some "registered") = false := by simpa using hreg
    simp [populateEdit, showEditBanner, setFieldsDisabled, hf]

/-- C21: in a session opened on a fetched customer record, each of the seven
customer fields, the add-installment button and the save button is disabled
exactly when the record's status is registered; for reserved and for booked
every one of them is enabled. -/
theorem C21_fields_locked_iff_registered (st : State) (plotId : String) (cust : CustData)
    (today : String)
    (h1 : plotStatus st plotId ≠ "") (h2 : plotStatus st plotId ≠ "available") :
    ((openPopup st plotId (FetchResult.found (some cust)) today).custName.disabled = true ↔
      cust.status = some "registered") ∧
    ((openPopup st plotId (FetchResult.found (some cust)) today).custPhone.disabled = true ↔
      cust.status = some "registered") ∧
    ((openPopup st plotId (FetchResult.found (some cust)) today).mediatorSel.disabled = true ↔
      cust.status = some "registered") ∧
    ((openPopup st plotId (FetchResult.found (some cust)) today).mediatorOther.disabled = true ↔
      cust.status = some "registered") ∧
    ((openPopup st plotId (FetchResult.found (some cust)) today).bookingPrice.disabled = true ↔
      cust.status = some "registered") ∧
    ((openPopup st plotId (FetchResult.found (some cust)) today).custMedAmount.disabled = true ↔
      cust.status = some "registered") ∧
    ((openPopup st plotId (FetchResult.found (some cust)) today).closureDate.disabled = true ↔
      cust.status = some "registered") ∧
    ((openPopup st plotId (FetchResult.found (some cust)) today).btnAddInstDisabled = true ↔
      cust.status = some "registered") ∧
    ((openPopup st plotId (FetchResult.found (some cust)) today).btnSaveCust.disabled = true ↔
      cust.status = some "registered") := by
  rw [openPopup_edit st plotId cust today h1 h2]
  generalize (resetInst (applyStatusLock none (clearRadioStyles _))) = s0
  obtain ⟨f1, f2, f3, f4, f5, f6, f7, f8, f9⟩ := populateEdit_locks s0 cust today
  simp only [f1, f2, f3, f4, f5, f6, f7, f8, f9, beq_iff_eq, and_self]

/-- C21 on the booked plot P2 (everything enabled) and on the registered plot
P1 (everything disabled). -/
theorem C21_witness_booked_registered :
    ((openPopup pageBooked "P2" (FetchResult.found (some (custWith "3" "booked" "C Devi")))
        "2026-01-01").custName.disabled = false ∧
     (openPopup pageBooked "P2" (FetchResult.found (some (custWith "3" "booked" "C Devi")))
        "2026-01-01").btnSaveCust.disabled = false) ∧
    ((openPopup pageRegistered "P1"
        (FetchResult.found (some (custWith "1" "registered" "B Rao")))
        "2026-01-01").custName.disabled = true ∧
     (openPopup pageRegistered "P1"
        (FetchResult.found (some (custWith "1" "registered" "B Rao")))
        "2026-01-01").btnSaveCust.disabled = true) :=
  ⟨⟨by
      have h := (C21_fields_locked_iff_registered pageBooked "P2"
        (custWith "3" "booked" "C Devi") "2026-01-01" (by decide) (by decide)).1
      cases hd : (openPopup pageBooked "P2"
        (FetchResult.found (some (custWith "3" "booked" "C Devi"))) "2026-01-01").custName.disabled
      · rfl
      · exact absurd (h.mp hd) (by decide),
    by decide⟩,
   ⟨(C21_fields_locked_iff_registered pageRegistered "P1" (custWith "1" "registered" "B Rao")
      "2026-01-01" (by decide) (by decide)).1.mpr rfl,
    (C21_fields_locked_iff_registered pageRegistered "P1" (custWith "1" "registered" "B Rao")
      "2026-01-01" (by decide) (by decide)).2.2.2.2.2.2.2.2.mpr rfl⟩⟩

/-- Whether a status is selectable depends on the four disabled flags and on
the display of the available label only. -/
theorem selectable_congr (s1 s2 : State) (v : String)
    (h1 : s1.rdoBooked.disabled = s2.rdoBooked.disabled)
    (h2 : s1.rdoReserved.disabled = s2.rdoReserved.disabled)
    (h3 : s1.rdoRegistered.disabled = s2.rdoRegistered.disabled)
    (h4 : s1.rdoAvailable.disabled = s2.rdoAvailable.disabled)
    (h5 : s1.lblAvailableDisplay = s2.lblAvailableDisplay) :
    selectable s1 v = selectable s2 v := by
  simp only [selectable, h1, h2, h3, h4, h5]

/-- The statuses the lock of a reserved plot leaves selectable. -/
theorem lock_reserved_selectable (st : State) (v : String) :
    selectable (applyStatusLock (some "reserved") st) v = true ↔
      (v = "booked" ∨ v = "registered" ∨ v = "available") := by
  by_cases h1 : v = "booked"
  · subst h1; simp [selectable, applyStatusLock, resetLock, truthy]
  · by_cases h2 : v = "reserved"
    · subst h2; simp [selectable, applyStatusLock, resetLock, truthy]
    · by_cases h3 : v = "registered"
      · subst h3; simp [selectable, applyStatusLock, resetLock, truthy]
      · by_cases h4 : v = "available"
        · subst h4; simp [selectable, applyStatusLock, resetLock, truthy]
        · simp [selectable, h1, h2, h3, h4]

/-- The statuses the lock of a booked plot leaves selectable. -/
theorem lock_booked_selectable (st : State) (v : String) :
    selectable (applyStatusLock (some "booked") st) v = true ↔
      (v = "registered" ∨ v = "available") := by
  by_cases h1 : v = "booked"
  · subst h1; simp [selectable, applyStatusLock, resetLock, truthy]
  · by_cases h2 : v = "reserved"
    · subst h2; simp [selectable, applyStatusLock, resetLock, truthy]
    · by_cases h3 : v = "registered"
      · subst h3; simp [selectable, applyStatusLock, resetLock, truthy]
      · by_cases h4 : v = "available"
        · subst h4; simp [selectable, applyStatusLock, resetLock, truthy]
        · simp [selectable, h1, h2, h3, h4]

/-- The preview keeps the pending status that `handleStatusRadio` has set. -/
theorem previewFill_currentStatus (st : State) (colour : String) :
    (previewFill st colour).currentStatus = st.currentStatus := by
  unfold previewFill
  split <;> rfl

/-- C23, as amended: in a session opened on a fetched record, from a persisted
status of reserved the statuses that can be selected are booked, registered
and available (selecting registered takes effect), and from booked they are
registered and available (selecting available takes effect). -/
theorem C23_lock_allows_more_than_header (st : State) (plotId : String) (cust : CustData)
    (today : String)
    (h1 : plotStatus st plotId ≠ "") (h2 : plotStatus st plotId ≠ "available") :
    (cust.status = some "reserved" →
      (∀ v, selectable (openPopup st plotId (FetchResult.found (some cust)) today) v = true ↔
        (v = "booked" ∨ v = "registered" ∨ v = "available")) ∧
      (handleStatusRadio "registered"
        (openPopup st plotId (FetchResult.found (some cust)) today)).currentStatus =
          some "registered") ∧
    (cust.status = some "booked" →
      (∀ v, selectable (openPopup st plotId (FetchResult.found (some cust)) today) v = true ↔
        (v = "registered" ∨ v = "available")) ∧
      (handleStatusRadio "available"
        (openPopup st plotId (FetchResult.found (some cust)) today)).currentStatus =
          some "available") := by
  rw [openPopup_edit st plotId cust today h1 h2]
  generalize (resetInst (applyStatusLock none (clearRadioStyles _))) = s0
  obtain ⟨f1, f2, f3, f4, f5⟩ := populateEdit_flags s0 cust today
  have hsel : ∀ v, selectable { populateEdit cust today s0 with popupShow := true } v =
      selectable (applyStatusLock cust.status s0) v :=
    fun v => selectable_congr _ _ v f1 f2 f3 f4 f5
  constructor
  · intro hs
    rw [hs] at hsel f3
    constructor
    · intro v
      rw [hsel v]
      exact lock_reserved_selectable s0 v
    · have hen : ({ populateEdit cust today s0 with popupShow := true } :
          State).rdoRegistered.disabled = false := by
        show (populateEdit cust today s0).rdoRegistered.disabled = false
        rw [f3]
        simp [applyStatusLock, resetLock, truthy]
      rw [handleStatusRadio_registered _ hen, hideStamp_currentStatus,
        previewFill_currentStatus]
  · intro hs
    rw [hs] at hsel f4
    constructor
    · intro v
      rw [hsel v]
      exact lock_booked_selectable s0 v
    · have hen : ({ populateEdit cust today s0 with popupShow := true } :
          State).rdoAvailable.disabled = false := by
        show (populateEdit cust today s0).rdoAvailable.disabled = false
        rw [f4]
        simp [applyStatusLock, resetLock, truthy]
      rw [handleStatusRadio_available _ hen, hideStamp_currentStatus,
        previewFill_currentStatus]

/-- C23 as amended, on Scenario D (reserved) and Scenario C (booked). -/
theorem C23_witness_scenarios :
    (handleStatusRadio "registered"
      (openPopup pageReserved "P4"
        (FetchResult.found (some (custWith "7" "reserved" "A Kumar")))
        "2026-01-01")).currentStatus = some "registered" ∧
    (handleStatusRadio "available"
      (openPopup pageBooked "P2" (FetchResult.found (some (custWith "3" "booked" "C Devi")))
        "2026-01-01")).currentStatus = some "available" :=
  ⟨((C23_lock_allows_more_than_header pageReserved "P4" (custWith "7" "reserved" "A Kumar")
      "2026-01-01" (by decide) (by decide)).1 rfl).2,
   ((C23_lock_allows_more_than_header pageBooked "P2" (custWith "3" "booked" "C Devi")
      "2026-01-01" (by decide) (by decide)).2 rfl).2⟩

/-- C23 as stated fails: on the reserved plot of Scenario D, registered and
available are selectable besides booked, and selecting registered takes
effect; on the booked plot of Scenario C, available is selectable besides
registered. -/
theorem C23_counterexample_header :
    selectable sessionD "booked" = true ∧
    selectable sessionD "registered" = true ∧
    selectable sessionD "available" = true ∧
    (handleStatusRadio "registered" sessionD).currentStatus = some "registered" ∧
    selectable sessionC "registered" = true ∧
    selectable sessionC "available" = true ∧
    (handleStatusRadio "available" sessionC).currentStatus = some "available" := by
  decide

/-- The function `hideStamp` touches neither the popup nor the save button. -/
theorem hideStamp_button (st : State) (plotId : Option String) :
    (hideStamp st plotId).popupShow = st.popupShow ∧
    (hideStamp st plotId).btnSaveCust = st.btnSaveCust := by
  unfold hideStamp
  split
  · exact ⟨rfl, rfl⟩
  · exact ⟨rfl, rfl⟩

/-- The preview touches neither the popup nor the save button. -/
theorem previewFill_button (st : State) (colour : String) :
    (previewFill st colour).popupShow = st.popupShow ∧
    (previewFill st colour).btnSaveCust = st.btnSaveCust := by
  unfold previewFill
  split
  · exact ⟨rfl, rfl⟩
  · exact ⟨rfl, rfl⟩

/-- The function `handleStatusRadio` touches neither the popup nor the save
button. -/
theorem handleStatusRadio_button (value : String) (st : State) :
    (handleStatusRadio value st).popupShow = st.popupShow ∧
    (handleStatusRadio value st).btnSaveCust = st.btnSaveCust := by
  unfold handleStatusRadio
  split
  · exact ⟨rfl, rfl⟩
  · simp only []
    split
    · rw [(hideStamp_button _ _).1, (hideStamp_button _ _).2, (previewFill_button _ _).1,
        (previewFill_button _ _).2]
      exact ⟨rfl, rfl⟩
    · split
      · rw [(hideStamp_button _ _).1, (hideStamp_button _ _).2, (previewFill_button _ _).1,
          (previewFill_button _ _).2]
        exact ⟨rfl, rfl⟩
      · split
        · rw [(hideStamp_button _ _).1, (hideStamp_button _ _).2, (previewFill_button _ _).1,
            (previewFill_button _ _).2]
          exact ⟨rfl, rfl⟩
        · split
          · rw [(hideStamp_button _ _).1, (hideStamp_button _ _).2,
              (previewFill_button _ _).1, (previewFill_button _ _).2]
            exact ⟨rfl, rfl⟩
          · exact ⟨rfl, rfl⟩

/-- When the save handler sends a request it has disabled the save button and
left the popup as it was. -/
theorem saveCustClick_disables (st st1 : State) (confirmed : Bool) (req : Request)
    (p : Pending) (h : saveCustClick st confirmed = (st1, some (req, p))) :
    st1.btnSaveCust.disabled = true ∧ st1.popupShow = st.popupShow := by
  unfold saveCustClick at h
  simp only [] at h
  split at h
  · split at h
    · simp at h
    · split at h
      · simp at h
      · simp only [Prod.mk.injEq] at h
        rw [← h.1]
        exact ⟨rfl, rfl⟩
  · split at h
    · simp at h
    · split at h
      · simp at h
      · split at h
        · simp at h
        · split at h
          · simp only [Prod.mk.injEq] at h
            rw [← h.1]
            exact ⟨rfl, rfl⟩
          · simp only [Prod.mk.injEq] at h
            rw [← h.1]
            exact ⟨rfl, rfl⟩

/-- Every event keeps at most one save handler suspended. -/
theorem step_oneInFlight (sys : Sys) (op : Op) (h : OneInFlight sys) :
    OneInFlight (step sys op) := by
  obtain ⟨hlen, hbtn⟩ := h
  cases op with
  | respond r =>
    simp only [step]
    cases hp : sys.pending with
    | nil =>
      simp only []
      exact ⟨hlen, hbtn⟩
    | cons p rest =>
      have hrest : rest = [] := by
        rw [hp] at hlen
        cases rest with
        | nil => rfl
        | cons q r2 => simp at hlen
      subst hrest
      exact ⟨by simp, fun hne => absurd rfl hne⟩
  | select value =>
    simp only [step]
    split
    · exact ⟨hlen, hbtn⟩
    · split
      · exact ⟨hlen, hbtn⟩
      · split
        · exact ⟨hlen, hbtn⟩
        · refine ⟨hlen, fun hne => ?_⟩
          show (handleStatusRadio value (checkRadio value sys.st)).popupShow = false ∨
            (handleStatusRadio value (checkRadio value sys.st)).btnSaveCust.disabled = true
          rw [(handleStatusRadio_button _ _).1, (handleStatusRadio_button _ _).2]
          exact hbtn hne
  | typeName v =>
    simp only [step]
    split
    · exact ⟨hlen, hbtn⟩
    · exact ⟨hlen, hbtn⟩
  | typePhone v =>
    simp only [step]
    split
    · exact ⟨hlen, hbtn⟩
    · exact ⟨hlen, hbtn⟩
  | save confirmed =>
    simp only [step]
    split
    · exact ⟨hlen, hbtn⟩
    · next hg =>
      have hnil : sys.pending = [] := by
        by_contra hne
        rcases hbtn hne with h1 | h1
        · exact hg (by simp [isOpen, h1])
        · exact hg (by simp [h1])
      split
      · refine ⟨hlen, fun hne => absurd hnil hne⟩
      · next st1 req p heq =>
        refine ⟨by simp [hnil], fun _ => Or.inr ?_⟩
        exact (saveCustClick_disables sys.st st1 confirmed req p heq).1
  | cancel =>
    simp only [step]
    split
    · exact ⟨hlen, hbtn⟩
    · exact ⟨hlen, fun _ => Or.inl (closePopup_popupShow _)⟩

/-- Every sequence of events keeps at most one save handler suspended. -/
theorem run_oneInFlight (ops : List Op) (sys : Sys) (h : OneInFlight sys) :
    OneInFlight (run sys ops) := by
  induction ops generalizing sys with
  | nil => exact h
  | cons op rest ih => exact ih (step sys op) (step_oneInFlight sys op h)

/-- While a save handler is suspended, a click on the save button is no event:
the page, the suspended handlers and the request log stay as they are. -/
theorem save_rejected (sys : Sys) (h : OneInFlight sys) (hne : sys.pending ≠ [])
    (confirmed : Bool) : step sys (Op.save confirmed) = sys := by
  have hg : (!isOpen sys.st || sys.st.btnSaveCust.disabled) = true := by
    rcases h.2 hne with h1 | h1
    · simp [isOpen, h1]
    · simp [h1]
  simp only [step, hg, if_true]

/-- C22: in a popup session that starts with no request in flight, after
every sequence of events at most one save or delete handler is suspended at
its request, and while one is, a further click on the save control changes
nothing: no handler runs and no request is added to the log. -/
theorem C22_one_in_flight (st : State) (log : List Request) (ops : List Op) :
    (run ⟨st, [], log⟩ ops).pending.length ≤ 1 ∧
    ((run ⟨st, [], log⟩ ops).pending ≠ [] →
      ∀ confirmed, step (run ⟨st, [], log⟩ ops) (Op.save confirmed) = run ⟨st, [], log⟩ ops) := by
  have h0 : OneInFlight ⟨st, [], log⟩ := ⟨by simp, fun hne => absurd rfl hne⟩
  have h := run_oneInFlight ops ⟨st, [], log⟩ h0
  exact ⟨h.1, fun hne confirmed => save_rejected _ h hne confirmed⟩

/-- C22 on Scenario D: the first save is in flight, the second click is not an
event, and one request has been sent. -/
theorem C22_witness_scenario_D :
    (run ⟨sessionDSelected, [], []⟩ [Op.save true]).pending ≠ [] ∧
    step (run ⟨sessionDSelected, [], []⟩ [Op.save true]) (Op.save true) =
      run ⟨sessionDSelected, [], []⟩ [Op.save true] ∧
    (run ⟨sessionDSelected, [], []⟩ [Op.save true, Op.save true]).log = [requestD] :=
  ⟨by decide,
   (C22_one_in_flight sessionDSelected [] [Op.save true]).2 (by decide) true,
   by decide⟩

/-- C24 fails for registered: the commit of registered on P4 writes the status
`Registration Done` and leaves the shape in the sold colour with its stamp
visible; `applyInitialStatuses` on that very page hides the stamp, and a page
load with that `plotDB` leaves the shape in the drawing's grey with the stamp
hidden.  For booked and reserved the page load gives the commit's fill and
hidden stamp. -/
theorem C24_registered_word_not_rendered :
    statusOf committedRegistered "P4" = some "Registration Done" ∧
    fillOf committedRegistered "P4" = some "#F48274" ∧
    stampVisible committedRegistered (some "P4") = true ∧
    stampVisible (applyInitialStatuses committedRegistered) (some "P4") = false ∧
    fillOf reloadedRegistered "P4" = some "#D9D9D9" ∧
    stampVisible reloadedRegistered (some "P4") = false ∧
    fillOf (applyInitialStatuses (freshPage committedBooked.plotDB rawSvgP4)) "P4" =
      fillOf committedBooked "P4" ∧
    stampVisible (applyInitialStatuses (freshPage committedBooked.plotDB rawSvgP4)) (some "P4") =
      stampVisible committedBooked (some "P4") ∧
    fillOf (applyInitialStatuses
        (freshPage committedReserved.plotDB
          [("P2", shapeEl "#D9D9D9"), ("stamp-plot-2", stampEl true)])) "P2" =
      fillOf committedReserved "P2" ∧
    stampVisible (applyInitialStatuses
        (freshPage committedReserved.plotDB
          [("P2", shapeEl "#D9D9D9"), ("stamp-plot-2", stampEl true)])) (some "P2") =
      stampVisible committedReserved (some "P2") := by
  decide

/-- C26 fails: on the registered plot P1, shown with its stamp, a session whose
customer lookup failed at open has no pending status, and closing it hides
the stamp although the registry still says `Registration Done`.  When the
lookup succeeded the stamp stays. -/
theorem C26_close_hides_registered_stamp :
    stampVisible pageRegistered (some "P1") = true ∧
    stampVisible sessionFailedLookup (some "P1") = true ∧
    sessionFailedLookup.currentStatus = none ∧
    stampVisible (closePopup sessionFailedLookup) (some "P1") = false ∧
    statusOf (closePopup sessionFailedLookup) "P1" = some "Registration Done" ∧
    fillOf (closePopup sessionFailedLookup) "P1" = some "#F48274" ∧
    stampVisible
      (closePopup (handleActivate pageRegistered "P1"
        (FetchResult.found (some (custWith "1" "registered" "R Mani"))) "2026-01-01"))
      (some "P1") = true := by
  decide

/-- C27 fails: for the plot P7, whose record has neither `stampNum` nor
`plotNum`, `showStamp` resolves `stamp-plot-1` and makes the stamp of plot P1
visible, and `hideStamp`, which looks for `stamp-plot-?`, leaves it visible. -/
theorem C27_unnumbered_plot_stamp :
    getStampId pageUnnumbered (some "P7") = "stamp-plot-1" ∧
    getStampId pageUnnumbered (some "P1") = "stamp-plot-1" ∧
    stampVisible pageUnnumbered (some "P1") = false ∧
    stampVisible (showStamp pageUnnumbered (some "P7")) (some "P1") = true ∧
    stampVisible (hideStamp (showStamp pageUnnumbered (some "P7")) (some "P7")) (some "P7") =
      true ∧
    stampVisible (hideStamp (showStamp pageUnnumbered (some "P7")) (some "P7")) (some "P1") =
      true ∧
    hideStamp (showStamp pageUnnumbered (some "P7")) (some "P7") =
      showStamp pageUnnumbered (some "P7") := by
  decide

/-- C28 fails: a plot with the status `booked-registered` is rendered by
`applyInitialStatuses` as registered (sold colour, stamp visible) and counted
by `updateStats` in no counter, so that the four counters add up to 0 while
the total is 1; the status the registered counter recognises,
`Registration Done`, is the one the map does not render. -/
theorem C28_registered_counter_misses_map_word :
    rendersRegistered pageMapRegistered "P1" = true ∧
    statusOf pageMapRegistered "P1" = some "booked-registered" ∧
    (updateStats pageMapRegistered.plotDB).bookedRegistered = 0 ∧
    (updateStats pageMapRegistered.plotDB).total = 1 ∧
    (updateStats pageMapRegistered.plotDB).booked +
      (updateStats pageMapRegistered.plotDB).available +
      (updateStats pageMapRegistered.plotDB).reserved +
      (updateStats pageMapRegistered.plotDB).bookedRegistered = 0 ∧
    (updateStats committedRegistered.plotDB).bookedRegistered = 1 ∧
    rendersRegistered reloadedRegistered "P4" = false := by
  decide

/-- A decimal digit is neither a dot nor a comma. -/
theorem digit_not_dot_comma (c : Char) (h : c.isDigit = true) : c ≠ '.' ∧ c ≠ ',' := by
  constructor <;> intro e <;> subst e <;> revert h <;> decide

/-- What `stripToNumber` keeps after a decimal point are digits. -/
theorem stripToNumber_true_digits (l : List Char) :
    ∀ c ∈ stripToNumber true l, c.isDigit = true := by
  induction l with
  | nil => intro c hc; simp [stripToNumber] at hc
  | cons a t ih =>
    intro c hc
    by_cases ha : a.isDigit = true
    · simp only [stripToNumber, ha, if_true, List.mem_cons] at hc
      rcases hc with rfl | hc
      · exact ha
      · exact ih c hc
    · simp only [stripToNumber, ha, Bool.not_true, Bool.and_false, if_false,
        Bool.false_eq_true] at hc
      exact ih c hc

/-- With the decimal point seen, `stripToNumber` keeps the digits. -/
theorem stripToNumber_true_filter (l : List Char) :
    stripToNumber true l = l.filter Char.isDigit := by
  induction l with
  | nil => rfl
  | cons a t ih =>
    by_cases ha : a.isDigit = true
    · simp [stripToNumber, ha, ih]
    · simp [stripToNumber, ha, ih]

/-- Removing every dot after the first: a character other than a dot in
front stays in front. -/
theorem firstDot_cons_ne (a : Char) (r : List Char) (hne : a ≠ '.') :
    (if (a :: r).contains '.' then
        (a :: r).take ((a :: r).indexOf '.' + 1) ++
          ((a :: r).drop ((a :: r).indexOf '.' + 1)).filter fun c => c != '.'
      else a :: r) =
    a :: (if r.contains '.' then
        r.take (r.indexOf '.' + 1) ++ (r.drop (r.indexOf '.' + 1)).filter fun c => c != '.'
      else r) := by
  have hne2 : ¬ ('.' = a) := fun e => hne e.symm
  by_cases hc : r.contains '.' = true
  · have hc2 : (a :: r).contains '.' = true := by
      simp only [List.contains_cons, hc, Bool.or_true]
    rw [if_pos hc, if_pos hc2, List.indexOf_cons_ne _ hne]
    simp
  · have hc2 : ¬ (a :: r).contains '.' = true := by
      simp only [List.contains_cons, Bool.or_eq_true, beq_iff_eq, not_or]
      exact ⟨hne2, hc⟩
    rw [if_neg hc, if_neg hc2]

/-- Removing every dot after the first: a dot in front is the first. -/
theorem firstDot_cons_dot (r : List Char) :
    (if ('.' :: r).contains '.' then
        ('.' :: r).take (('.' :: r).indexOf '.' + 1) ++
          (('.' :: r).drop (('.' :: r).indexOf '.' + 1)).filter fun c => c != '.'
      else '.' :: r) =
    '.' :: r.filter fun c => c != '.' := by
  have hc2 : ('.' :: r).contains '.' = true := by simp
  rw [if_pos hc2, List.indexOf_cons_eq _ rfl]
  simp

/-- The value `raw` of `enforceIndianPrice` is the input stripped of every
character other than digits and its first decimal point. -/
theorem rawOf_eq (l : List Char) : rawOf l = stripToNumber false l := by
  have hf : ∀ l : List Char,
      ((l.filter fun c => c != ',').filter fun c => c.isDigit || c == '.') =
        l.filter fun c => c.isDigit || c == '.' := by
    intro l
    rw [List.filter_filter]
    apply List.filter_congr
    intro c _
    by_cases hc : c = ','
    · subst hc; decide
    · have h2 : (c != ',') = true := by simpa using hc
      rw [h2]
      simp
  have hd : ∀ l : List Char,
      ((l.filter fun c => c.isDigit || c == '.').filter fun c => c != '.') =
        l.filter Char.isDigit := by
    intro l
    rw [List.filter_filter]
    apply List.filter_congr
    intro c _
    by_cases hc : c = '.'
    · subst hc; decide
    · have h1 : (c == '.') = false := by simpa using hc
      have h2 : (c != '.') = true := by simpa using hc
      rw [h1, h2]
      simp
  unfold rawOf
  simp only [hf]
  induction l with
  | nil => rfl
  | cons a t ih =>
    by_cases ha : a.isDigit = true
    · have hne := (digit_not_dot_comma a ha).1
      have hfc : List.filter (fun c => c.isDigit || c == '.') (a :: t) =
          a :: List.filter (fun c => c.isDigit || c == '.') t := by
        rw [List.filter_cons]; simp [ha]
      rw [hfc, firstDot_cons_ne a _ hne, ih]
      simp [stripToNumber, ha]
    · by_cases hdot : a = '.'
      · subst hdot
        have hfc : List.filter (fun c => c.isDigit || c == '.') ('.' :: t) =
            '.' :: List.filter (fun c => c.isDigit || c == '.') t := by
          rw [List.filter_cons]; simp
        rw [hfc, firstDot_cons_dot, hd, ← stripToNumber_true_filter]
        simp [stripToNumber]
      · have hfc : List.filter (fun c => c.isDigit || c == '.') (a :: t) =
            List.filter (fun c => c.isDigit || c == '.') t := by
          rw [List.filter_cons]; simp [ha, hdot]
        rw [hfc, ih]
        simp [stripToNumber, ha, hdot]

/-- The shape of the stripped input: digits, then nothing or a dot followed
by digits. -/
theorem stripToNumber_shape (l : List Char) :
    ∃ a b, stripToNumber false l = a ++ b ∧ (∀ c ∈ a, c.isDigit = true) ∧
      (b = [] ∨ ∃ d, b = '.' :: d ∧ ∀ c ∈ d, c.isDigit = true) := by
  induction l with
  | nil => exact ⟨[], [], rfl, by simp, Or.inl rfl⟩
  | cons x t ih =>
    obtain ⟨a, b, hab, ha, hb⟩ := ih
    by_cases hx : x.isDigit = true
    · refine ⟨x :: a, b, ?_, ?_, hb⟩
      · simp [stripToNumber, hx, hab]
      · intro c hc
        rcases List.mem_cons.mp hc with rfl | hc
        · exact hx
        · exact ha c hc
    · by_cases hdot : x = '.'
      · subst hdot
        refine ⟨[], '.' :: stripToNumber true t, ?_, by simp, Or.inr ⟨_, rfl, ?_⟩⟩
        · simp [stripToNumber]
        · exact stripToNumber_true_digits t
      · refine ⟨a, b, ?_, ha, hb⟩
        simp [stripToNumber, hx, hdot, hab]

/-- The integer part and the decimal part of a stripped input. -/
theorem parts_of_shape (a b : List Char) (ha : ∀ c ∈ a, c.isDigit = true)
    (hb : b = [] ∨ ∃ d, b = '.' :: d ∧ ∀ c ∈ d, c.isDigit = true) :
    intPartOf (a ++ b) = a ∧ decPartOf (a ++ b) = b := by
  have hda : ∀ c ∈ a, (c != '.') = true := by
    intro c hc
    simpa using (digit_not_dot_comma c (ha c hc)).1
  have htw : ∀ d : List Char, (∀ c ∈ d, (c != '.') = true) →
      d.takeWhile (fun c => c != '.') = d := by
    intro d hd
    exact List.takeWhile_eq_self_iff.mpr hd
  have hdw : ∀ d : List Char, (∀ c ∈ d, (c != '.') = true) →
      d.dropWhile (fun c => c != '.') = [] := by
    intro d hd
    exact List.dropWhile_eq_nil_iff.mpr hd
  rcases hb with rfl | ⟨d, rfl, hd⟩
  · refine ⟨?_, ?_⟩
    · simp only [intPartOf, List.append_nil]
      exact htw a hda
    · have hnc : (a.contains '.') = false := by
        rw [Bool.eq_false_iff]
        intro hc
        have hm : '.' ∈ a := by simpa using hc
        have := hda '.' hm
        simp at this
      simp only [decPartOf, List.append_nil, hnc, Bool.false_eq_true, if_false]
  · have hdd : ∀ c ∈ d, (c != '.') = true := by
      intro c hc
      simpa using (digit_not_dot_comma c (hd c hc)).1
    refine ⟨?_, ?_⟩
    · simp only [intPartOf]
      rw [List.takeWhile_append_of_pos hda]
      simp
    · have hc : ((a ++ '.' :: d).contains '.') = true := by simp
      simp only [decPartOf, hc, if_true]
      rw [List.dropWhile_append_of_pos hda]
      simp only [List.append_nil, bne_self_eq_false, Bool.false_eq_true, not_false_eq_true,
        List.dropWhile_cons_of_neg, List.drop_succ_cons, List.drop_zero]
      rw [htw d hdd]

/-- Groups put in a row after more groups. -/
theorem commaGroups_append (p q : List (List Char)) :
    commaGroups (p ++ q) = commaGroups p ++ commaGroups q := by
  simp [commaGroups]

/-- Removing the commas from groups of digits leaves the digits. -/
theorem commaGroups_filter (pairs : List (List Char))
    (h : ∀ g ∈ pairs, ∀ c ∈ g, c.isDigit = true) :
    (commaGroups pairs).filter (fun c => c != ',') = pairs.flatten := by
  induction pairs with
  | nil => rfl
  | cons g t ih =>
    have hg : g.filter (fun c => c != ',') = g := by
      apply List.filter_eq_self.mpr
      intro c hc
      simpa using (digit_not_dot_comma c (h g (List.mem_cons_self _ _) c hc)).2
    have ht := ih fun g1 hg1 => h g1 (List.mem_cons_of_mem _ hg1)
    have hcg : commaGroups (g :: t) = ',' :: g ++ commaGroups t := by
      simp [commaGroups]
    rw [hcg]
    simp only [List.cons_append, List.flatten_cons]
    rw [List.filter_cons_of_neg (by simp), List.filter_append, hg, ht]

/-- The loop of `enforceIndianPrice`: a leading group of one or two
characters, then pairs, each after a comma. -/
theorem groupPairs_spec (fuel : Nat) :
    ∀ rest acc : List Char, rest ≠ [] → rest.length ≤ fuel →
      ∃ lead pairs, rest = lead ++ pairs.flatten ∧ (lead.length = 1 ∨ lead.length = 2) ∧
        (∀ g ∈ pairs, g.length = 2) ∧
        groupPairs fuel rest acc = lead ++ commaGroups pairs ++ acc := by
  induction fuel with
  | zero =>
    intro rest acc hne hlen
    cases rest with
    | nil => exact absurd rfl hne
    | cons a t => simp at hlen
  | succ n ih =>
    intro rest acc hne hlen
    by_cases h2 : rest.length > 2
    · have hne1 : rest.take (rest.length - 2) ≠ [] := by
        intro e
        have := congrArg List.length e
        simp at this
        omega
      have hlen1 : (rest.take (rest.length - 2)).length ≤ n := by
        simp
        omega
      obtain ⟨lead, pairs, hsplit, hlead, hpairs, hres⟩ :=
        ih (rest.take (rest.length - 2)) (',' :: rest.drop (rest.length - 2) ++ acc) hne1 hlen1
      refine ⟨lead, pairs ++ [rest.drop (rest.length - 2)], ?_, hlead, ?_, ?_⟩
      · have := (List.take_append_drop (rest.length - 2) rest).symm
        rw [hsplit] at this
        simpa using this
      · intro g hg
        rcases List.mem_append.mp hg with hg | hg
        · exact hpairs g hg
        · have : g = rest.drop (rest.length - 2) := by simpa using hg
          rw [this]
          simp
          omega
      · simp only [groupPairs, h2, if_true]
        rw [hres, commaGroups_append]
        simp [commaGroups]
    · have hl : rest.length = 1 ∨ rest.length = 2 := by
        have : rest.length ≠ 0 := fun e => hne (List.length_eq_zero.mp e)
        omega
      exact ⟨rest, [], by simp, hl, by simp, by simp [groupPairs, h2, commaGroups]⟩

/-- The value `formatted` of an integer part of more than three characters:
a leading group of one or two, pairs, and the last three, each group but the
first after a comma. -/
theorem formatInt_spec (ip : List Char) (h : ip.length > 3) :
    ∃ lead pairs last3, ip = lead ++ pairs.flatten ++ last3 ∧
      (lead.length = 1 ∨ lead.length = 2) ∧ (∀ g ∈ pairs, g.length = 2) ∧ last3.length = 3 ∧
      formatInt ip = lead ++ commaGroups pairs ++ ',' :: last3 := by
  have hne : ip.take (ip.length - 3) ≠ [] := by
    intro e
    have := congrArg List.length e
    simp at this
    omega
  obtain ⟨lead, pairs, hsplit, hlead, hpairs, hres⟩ :=
    groupPairs_spec (ip.take (ip.length - 3)).length (ip.take (ip.length - 3)) [] hne
      (Nat.le_refl _)
  refine ⟨lead, pairs, ip.drop (ip.length - 3), ?_, hlead, hpairs, ?_, ?_⟩
  · rw [← hsplit]
    exact (List.take_append_drop _ _).symm
  · simp
    omega
  · simp only [formatInt, h, if_true]
    rw [hres]
    simp

/-- C25: the live formatter groups the integer part of what was typed the
Indian way.  With `ip` the digits before the first decimal point of the
input: the text before the decimal point of the result is `ip` itself, with
no comma, when `ip` has at most three digits, and otherwise it is a leading
group of one or two digits, then groups of two digits, then a last group of
three digits, each group but the first after a comma, the groups making up
`ip`; and removing the commas from the result gives the input stripped of
every character other than digits and its first decimal point.  The input
1250000 becomes 12,50,000. -/
theorem C25_indian_grouping (value : String) :
    (∀ c ∈ intPartOf (stripToNumber false value.data), c.isDigit = true) ∧
    ((intPartOf (stripToNumber false value.data)).length ≤ 3 →
      intPartOf (enforceIndianPrice value).data = intPartOf (stripToNumber false value.data)) ∧
    ((intPartOf (stripToNumber false value.data)).length > 3 →
      ∃ lead pairs last3,
        intPartOf (stripToNumber false value.data) = lead ++ pairs.flatten ++ last3 ∧
        (lead.length = 1 ∨ lead.length = 2) ∧ (∀ g ∈ pairs, g.length = 2) ∧
        last3.length = 3 ∧
        intPartOf (enforceIndianPrice value).data = lead ++ commaGroups pairs ++ ',' :: last3) ∧
    (enforceIndianPrice value).data.filter (fun c => c != ',') =
      stripToNumber false value.data ∧
    enforceIndianPrice "1250000" = "12,50,000" := by
  obtain ⟨a, b, hab, ha, hb⟩ := stripToNumber_shape value.data
  obtain ⟨hint, hdec⟩ := parts_of_shape a b ha hb
  have hout : (enforceIndianPrice value).data = formatInt a ++ b := by
    simp only [enforceIndianPrice, rawOf_eq, hab, hint, hdec]
  have hbdot : ∀ c ∈ b, (c != ',') = true := by
    intro c hc
    rcases hb with rfl | ⟨d, rfl, hd⟩
    · simp at hc
    · rcases List.mem_cons.mp hc with rfl | hc
      · decide
      · simpa using (digit_not_dot_comma c (hd c hc)).2
  have hbfilter : b.filter (fun c => c != ',') = b := List.filter_eq_self.mpr hbdot
  have hafilter : a.filter (fun c => c != ',') = a := by
    apply List.filter_eq_self.mpr
    intro c hc
    simpa using (digit_not_dot_comma c (ha c hc)).2
  have htake : ∀ f : List Char, (∀ c ∈ f, (c != '.') = true) → intPartOf (f ++ b) = f := by
    intro f hf
    simp only [intPartOf]
    rcases hb with rfl | ⟨d, rfl, hd⟩
    · rw [List.append_nil]
      exact List.takeWhile_eq_self_iff.mpr hf
    · rw [List.takeWhile_append_of_pos hf]
      simp
  rw [hab, hint, hout]
  refine ⟨ha, ?_, ?_, ?_, by decide⟩
  · intro h3
    have hf : formatInt a = a := by
      have : ¬ a.length > 3 := by omega
      simp only [formatInt, this, if_false]
    rw [hf]
    exact htake a fun c hc => by simpa using (digit_not_dot_comma c (ha c hc)).1
  · intro h3
    obtain ⟨lead, pairs, last3, hsplit, hlead, hpairs, hlast, hres⟩ := formatInt_spec a h3
    refine ⟨lead, pairs, last3, hsplit, hlead, hpairs, hlast, ?_⟩
    rw [hres]
    apply htake
    intro c hc
    have hdig : ∀ x ∈ lead ++ pairs.flatten ++ last3, x.isDigit = true := by
      rw [← hsplit]; exact ha
    rcases List.mem_append.mp hc with hc | hc
    · rcases List.mem_append.mp hc with hc | hc
      · simpa using (digit_not_dot_comma c (hdig c (by simp [hc]))).1
      · simp only [commaGroups, List.mem_flatten, List.mem_map] at hc
        obtain ⟨l, ⟨g, hg, rfl⟩, hcl⟩ := hc
        rcases List.mem_cons.mp hcl with rfl | hcg
        · decide
        · have : c ∈ pairs.flatten := List.mem_flatten.mpr ⟨g, hg, hcg⟩
          simpa using (digit_not_dot_comma c (hdig c (by simp [this]))).1
    · rcases List.mem_cons.mp hc with rfl | hc
      · decide
      · simpa using (digit_not_dot_comma c (hdig c (by simp [hc]))).1
  · rw [List.filter_append, hbfilter]
    congr 1
    by_cases h3 : a.length > 3
    · obtain ⟨lead, pairs, last3, hsplit, hlead, hpairs, hlast, hres⟩ := formatInt_spec a h3
      have hdig : ∀ x ∈ lead ++ pairs.flatten ++ last3, x.isDigit = true := by
        rw [← hsplit]; exact ha
      have hl : lead.filter (fun c => c != ',') = lead := by
        apply List.filter_eq_self.mpr
        intro c hc
        simpa using (digit_not_dot_comma c (hdig c (by simp [hc]))).2
      have hl3 : last3.filter (fun c => c != ',') = last3 := by
        apply List.filter_eq_self.mpr
        intro c hc
        simpa using (digit_not_dot_comma c (hdig c (by simp [hc]))).2
      have hp : (commaGroups pairs).filter (fun c => c != ',') = pairs.flatten := by
        apply commaGroups_filter
        intro g hg c hc
        have : c ∈ pairs.flatten := List.mem_flatten.mpr ⟨g, hg, hc⟩
        exact hdig c (by simp [this])
      rw [hres, List.filter_append, List.filter_append, hl, hp,
        List.filter_cons_of_neg (by simp), hl3]
      exact hsplit.symm
    · simp only [formatInt, h3, if_false]
      exact hafilter

/-- C25 on the input 1250000: seven digits, grouped as 12, 50 and 000. -/
theorem C25_witness_1250000 :
    (intPartOf (stripToNumber false "1250000".data)).length > 3 ∧
    ∃ lead pairs last3,
      intPartOf (stripToNumber false "1250000".data) = lead ++ pairs.flatten ++ last3 ∧
      (lead.length = 1 ∨ lead.length = 2) ∧ (∀ g ∈ pairs, g.length = 2) ∧
      last3.length = 3 ∧
      intPartOf (enforceIndianPrice "1250000").data =
        lead ++ commaGroups pairs ++ ',' :: last3 :=
  ⟨by decide, (C25_indian_grouping "1250000").2.2.1 (by decide)⟩

/-- C29 fails twice.  With every input of the plot tab empty, price, sqft and
facing fall back to the plot's own values, and cent falls back to the plot's
sqft (1200) instead of its cent (2.75), which a successful save then writes
into the record.  With 1200 typed into the sqft input, the live formatter
leaves `1,200` there and the payload carries the number 1; the price input,
whose commas are removed, yields 1250000 for `12,50,000`. -/
theorem C29_cent_falls_back_to_sqft :
    (savePlotPayload emptyForm detailsP4).price = detailsP4.price ∧
    (savePlotPayload emptyForm detailsP4).sqft = detailsP4.sqft ∧
    (savePlotPayload emptyForm detailsP4).facing = detailsP4.facing ∧
    (savePlotPayload emptyForm detailsP4).cent = detailsP4.sqft ∧
    (savePlotPayload emptyForm detailsP4).cent ≠ detailsP4.cent ∧
    (assignPayload detailsP4 (savePlotPayload emptyForm detailsP4)).cent =
      JsVal.num (Num.dec false 1200 0) ∧
    typedForm.plotSqft = "1,200" ∧
    parseFloat "1,200" = Num.dec false 1 0 ∧
    (savePlotPayload typedForm detailsP4).sqft = JsVal.num (Num.dec false 1 0) ∧
    typedForm.plotPrice = "12,50,000" ∧
    (savePlotPayload typedForm detailsP4).price = JsVal.num (Num.dec false 1250000 0) := by
  decide

/-- One replacement pass leaves no occurrence of the replaced character when
the replacement has none. -/
theorem replaceAll_removes (c : Char) (r s : List Char) (h : c ∉ r) : c ∉ replaceAll c r s := by
  intro hc
  simp only [replaceAll, List.mem_flatten, List.mem_map] at hc
  obtain ⟨l, ⟨x, _, rfl⟩, hcl⟩ := hc
  by_cases hx : x = c
  · subst hx
    simp only [beq_self_eq_true, if_true] at hcl
    exact h hcl
  · have hb : (x == c) = false := by simpa using hx
    simp only [hb, Bool.false_eq_true, if_false, List.mem_singleton] at hcl
    exact hx hcl.symm

/-- One replacement pass brings in no character that is neither in the text
nor in the replacement. -/
theorem replaceAll_keeps_out (c d : Char) (r s : List Char) (hr : d ∉ r) (hs : d ∉ s) :
    d ∉ replaceAll c r s := by
  intro hd
  simp only [replaceAll, List.mem_flatten, List.mem_map] at hd
  obtain ⟨l, ⟨x, hx, rfl⟩, hdl⟩ := hd
  by_cases hxc : (x == c) = true
  · simp only [hxc, if_true] at hdl
    exact hr hdl
  · simp only [hxc, Bool.false_eq_true, if_false, List.mem_singleton] at hdl
    subst hdl
    exact hs hx

/-- The output of `escapeHTML` has no angle bracket and no double quote. -/
theorem escapeHTML_safe (str : String) :
    '<' ∉ (escapeHTML str).data ∧ '>' ∉ (escapeHTML str).data ∧
    '"' ∉ (escapeHTML str).data := by
  have h1 : '<' ∉ replaceAll '<' "&lt;".data (replaceAll '&' "&amp;".data str.data) :=
    replaceAll_removes _ _ _ (by decide)
  have h2 : '>' ∉ replaceAll '>' "&gt;".data
      (replaceAll '<' "&lt;".data (replaceAll '&' "&amp;".data str.data)) :=
    replaceAll_removes _ _ _ (by decide)
  have h1b : '<' ∉ replaceAll '>' "&gt;".data
      (replaceAll '<' "&lt;".data (replaceAll '&' "&amp;".data str.data)) :=
    replaceAll_keeps_out _ _ _ _ (by decide) h1
  refine ⟨?_, ?_, ?_⟩
  · exact replaceAll_keeps_out _ _ _ _ (by decide) h1b
  · exact replaceAll_keeps_out _ _ _ _ (by decide) h2
  · exact replaceAll_removes _ _ _ (by decide)

/-- The date and the follow-up date of every installment reach the markup
escaped: their text has no angle bracket and no double quote, so the value
attribute extends over all of it. -/
theorem date_followUp_escaped (inst : Inst) :
    '"' ∉ (dateText inst).data ∧ '<' ∉ (dateText inst).data ∧ '>' ∉ (dateText inst).data ∧
    '"' ∉ (followUpText inst).data ∧ '<' ∉ (followUpText inst).data ∧
    '>' ∉ (followUpText inst).data ∧
    quotedValue (dateText inst ++ rowFollowUp) = dateText inst ∧
    quotedValue (followUpText inst ++ rowTail) = followUpText inst := by
  obtain ⟨a1, a2, a3⟩ := escapeHTML_safe (orStr inst.date "")
  obtain ⟨b1, b2, b3⟩ := escapeHTML_safe (orStr inst.followUp "")
  have hq : ∀ (s t : String), '"' ∉ s.data → t.data.head? = some '"' →
      quotedValue (s ++ t) = s := by
    intro s t hs ht
    have hall : ∀ c ∈ s.data, (c != '"') = true := by
      intro c hc
      have : c ≠ '"' := fun e => hs (e ▸ hc)
      simpa using this
    cases htd : t.data with
    | nil => rw [htd] at ht; cases ht
    | cons x r =>
      rw [htd] at ht
      have hx : x = '"' := by simpa using ht
      subst hx
      apply String.ext
      simp only [quotedValue, String.data_append, htd]
      rw [List.takeWhile_append_of_pos hall]
      simp
  exact ⟨a3, a1, a2, b3, b1, b2, hq _ _ a3 (by decide), hq _ _ b3 (by decide)⟩

/-- C30 fails for the amount: `openPopup` concatenates `inst.amount` into the
markup as it is.  For the installment `hostileInst` the text placed into the
amount's value attribute contains a double quote, the attribute ends after
`5000`, and the rest of the amount follows as markup; the date of the same
installment is escaped. -/
theorem C30_amount_not_escaped :
    amountText hostileInst = hostileInst.amount ∧
    amountText hostileInst ≠ escapeHTML hostileInst.amount ∧
    '"' ∈ (amountText hostileInst).data ∧
    quotedValue (amountText hostileInst ++ rowDate) = "5000" ∧
    dateText hostileInst = "2026-01-01&quot;&gt;&lt;b&gt;" ∧
    instRowHTML 1 hostileInst =
      rowHead 1 ++ "5000\" onfocus=\"alert(1)" ++ rowDate ++ "2026-01-01&quot;&gt;&lt;b&gt;" ++
        rowFollowUp ++ "" ++ rowTail := by
  refine ⟨rfl, by decide, by decide, by decide, by decide, ?_⟩
  have h1 : amountText hostileInst = "5000\" onfocus=\"alert(1)" := rfl
  have h2 : dateText hostileInst = "2026-01-01&quot;&gt;&lt;b&gt;" := by decide
  have h3 : followUpText hostileInst = "" := by decide
  rw [instRowHTML, h1, h2, h3]

end TtpLand
